import Mathlib

/-!
Verification of the PacketThermostat HVAC mode engine.

This file is a shallow embedding, in Lean 4, of the C++ sources of the
PacketThermostat repository: the signal model (PcbSignalDefinitions.h), the
HVAC mode classes and their EEPROM settings layout (the HVAC .cpp module),
and the output-arbitration/safety layer of the main sketch
(ThermostatCommon.h).  Machine integers are modelled as Nat (with explicit
`% 2^k` where C truncation or wraparound matters) or as Int for the signed
int16/int32 quantities.  The EEPROM is a function `Nat → Nat` whose reads
are truncated to a byte.  Strings handled by the command interpreter are
`List Char`; the C string terminator corresponds to the end of the list.
-/

namespace PacketThermostat

/-! ## Signal model (PcbSignalDefinitions.h)

enum OutregBits: BN_W_FAILSAFE = 0, BN_R = 0, BN_Z2 = 1 (= BN_FIRST_SIGNAL),
BN_Z1 = 2, BN_W = 3, BN_ZX = 4, BN_X2 = 5, BN_X1 = 6 (= BN_LAST_SIGNAL),
BN_X3 = 7, NUMBER_OF_SIGNALS = 8. -/

def BN_W_FAILSAFE : Nat := 0
def BN_R : Nat := 0
def BN_Z2 : Nat := 1
def BN_FIRST_SIGNAL : Nat := 1
def BN_Z1 : Nat := 2
def BN_W : Nat := 3
def BN_ZX : Nat := 4
def BN_X2 : Nat := 5
def BN_X1 : Nat := 6
def BN_LAST_SIGNAL : Nat := 6
def BN_X3 : Nat := 7
def NUMBER_OF_SIGNALS : Nat := 8

def NUM_HVAC_INPUT_SIGNALS : Nat := BN_LAST_SIGNAL + 1 - BN_FIRST_SIGNAL

def INPUT_SIGNAL_MASK : Nat :=
  (1 <<< BN_Z2) ||| (1 <<< BN_Z1) ||| (1 <<< BN_W) ||| (1 <<< BN_ZX) |||
  (1 <<< BN_X2) ||| (1 <<< BN_X1) ||| (1 <<< BN_R)

def OUTPUT_SIGNAL_MASK : Nat :=
  (1 <<< BN_Z2) ||| (1 <<< BN_Z1) ||| (1 <<< BN_W) ||| (1 <<< BN_ZX) |||
  (1 <<< BN_X2) ||| (1 <<< BN_X1) ||| (1 <<< BN_X3)

/-! ## Machine-integer helpers -/

/-- Reinterpret a 16-bit unsigned value as signed (two's complement). -/
def toInt16 (n : Nat) : Int :=
  if n % 65536 < 32768 then (n % 65536 : Int) else (n % 65536 : Int) - 65536

/-- Reinterpret a 32-bit unsigned value as signed (two's complement). -/
def toInt32 (n : Nat) : Int :=
  if n % 4294967296 < 2147483648 then (n % 4294967296 : Int)
  else (n % 4294967296 : Int) - 4294967296

/-- Wrap an Int into int16 range (two's complement arithmetic result). -/
def wrap16 (z : Int) : Int :=
  (z + 32768) % 65536 - 32768

/-- Two's complement uint16 image of an int16 value. -/
def toUInt16n (z : Int) : Nat :=
  (z % 65536).toNat

/-- `a - b` computed in uint32 arithmetic (C unsigned long subtraction),
for `a b < 2^32`. -/
def sub32 (a b : Nat) : Nat :=
  (4294967296 + a - b % 4294967296) % 4294967296

/-- Complement of a byte, as the C `~x` truncated back to uint8. -/
def compl8 (x : Nat) : Nat := 255 ^^^ (x % 256)

/-! ## ctype helpers and C string utilities over List Char -/

def isdigitC (c : Char) : Bool := '0' ≤ c && c ≤ '9'

def isxdigitC (c : Char) : Bool :=
  ('0' ≤ c && c ≤ '9') || ('a' ≤ c && c ≤ 'f') || ('A' ≤ c && c ≤ 'F')

def isspaceC (c : Char) : Bool :=
  c = ' ' || c = '\t' || c = '\n' || c = '\r' || c = '\x0b' || c = '\x0c'

def toupperC (c : Char) : Char :=
  if 'a' ≤ c && c ≤ 'z' then Char.ofNat (c.toNat - 32) else c

def hexDigitVal (c : Char) : Nat :=
  if isdigitC c then c.toNat - '0'.toNat
  else 10 + (toupperC c).toNat - 'A'.toNat

/-- `aDecimalToInt` (ThermostatCommon.h): reads decimal digits accumulating
into a uint16; the terminating non-digit character is consumed (the C code
advances past it unless it is the string terminator). Returns the value and
the rest of the string. -/
def aDecimalToIntAux (acc : Nat) : List Char → Nat × List Char
  | [] => (acc, [])
  | c :: rest =>
    if isdigitC c then
      aDecimalToIntAux ((acc * 10 + (c.toNat - '0'.toNat)) % 65536) rest
    else
      (acc, rest)

def aDecimalToInt (l : List Char) : Nat × List Char := aDecimalToIntAux 0 l

/-- `aHexToInt` (ThermostatCommon.h): like `aDecimalToInt` but hexadecimal
digits accumulating into a uint32. -/
def aHexToIntAux (acc : Nat) : List Char → Nat × List Char
  | [] => (acc, [])
  | c :: rest =>
    if isxdigitC c then
      aHexToIntAux ((acc * 16 + hexDigitVal c) % 4294967296) rest
    else
      (acc, rest)

def aHexToInt (l : List Char) : Nat × List Char := aHexToIntAux 0 l

theorem aDecimalToIntAux_length (acc : Nat) (l : List Char) :
    (aDecimalToIntAux acc l).2.length ≤ l.length := by
  induction l generalizing acc with
  | nil => simp [aDecimalToIntAux]
  | cons c rest ih =>
    simp only [aDecimalToIntAux]
    split
    · exact Nat.le_trans (ih _) (Nat.le_succ _)
    · exact Nat.le_succ _

theorem aHexToIntAux_length (acc : Nat) (l : List Char) :
    (aHexToIntAux acc l).2.length ≤ l.length := by
  induction l generalizing acc with
  | nil => simp [aHexToIntAux]
  | cons c rest ih =>
    simp only [aHexToIntAux]
    split
    · exact Nat.le_trans (ih _) (Nat.le_succ _)
    · exact Nat.le_succ _

theorem aHexToInt_length_lt (c : Char) (rest : List Char) :
    (aHexToInt (c :: rest)).2.length < (c :: rest).length := by
  simp only [aHexToInt, aHexToIntAux]
  split
  · exact Nat.lt_succ_of_le (aHexToIntAux_length _ _)
  · exact Nat.lt_succ_of_le (Nat.le_refl _)

/-- Case-insensitive-on-the-left keyword match used by several command
handlers: walks the (upper-cased) command against a keyword; true iff the
whole keyword matched. Mirrors loops of the shape
`while (*q) if (toupper(*p++) != *q++) ...`. A command shorter than the
keyword compares the keyword against the terminating NUL and fails. -/
def matchKeywordUpper : List Char → List Char → Bool
  | _, [] => true
  | [], _ :: _ => false
  | p :: ps, q :: qs => if toupperC p = q then matchKeywordUpper ps qs else false

/-- Exact (case-sensitive) test that `pat` occurs at the start of `l`
(the inner comparison done by `strncmp`/`strstr`). -/
def startsWithC : List Char → List Char → Bool
  | _, [] => true
  | [], _ :: _ => false
  | p :: ps, q :: qs => if p = q then startsWithC ps qs else false

/-- C `strstr`: first suffix of `cmd` that starts with `pat`, if any. -/
def strstrFind : List Char → List Char → Option (List Char)
  | cmd, pat =>
    if startsWithC cmd pat then some cmd
    else
      match cmd with
      | [] => none
      | _ :: rest => strstrFind rest pat

/-! ## EEPROM model

The ATmega EEPROM is a byte array; we model it as `Nat → Nat` where reads
truncate to a byte (the hardware stores bytes). `EEPROM.put` of a struct
writes its bytes in declaration order (AVR is little-endian, structs here
have no padding — the source static_asserts this for the 3-byte
HeatSafetyMask_t). -/

def Eeprom : Type := Nat → Nat

def eepromRead (e : Eeprom) (a : Nat) : Nat := e a % 256

def eepromWrite (e : Eeprom) (a v : Nat) : Eeprom :=
  fun x => if x = a then v % 256 else e x

/-- Write a list of bytes at consecutive addresses (`EEPROM.put`). -/
def eepromWriteBytes (e : Eeprom) : Nat → List Nat → Eeprom
  | _, [] => e
  | addr, b :: rest => eepromWriteBytes (eepromWrite e addr b) (addr + 1) rest

theorem eepromWriteBytes_lt (e : Eeprom) (addr : Nat) (l : List Nat) (a : Nat)
    (h : a < addr) : eepromWriteBytes e addr l a = e a := by
  induction l generalizing e addr with
  | nil => rfl
  | cons b rest ih =>
    simp only [eepromWriteBytes]
    rw [ih _ _ (Nat.lt_succ_of_lt h)]
    simp [eepromWrite, Nat.ne_of_lt h]

theorem eepromWriteBytes_ge (e : Eeprom) (addr : Nat) (l : List Nat) (a : Nat)
    (h : addr + l.length ≤ a) : eepromWriteBytes e addr l a = e a := by
  induction l generalizing e addr with
  | nil => rfl
  | cons b rest ih =>
    simp only [eepromWriteBytes]
    simp only [List.length_cons] at h
    rw [ih _ _ (by omega)]
    simp only [eepromWrite]
    have hne : a ≠ addr := by omega
    simp [hne]

theorem eepromWriteBytes_get (e : Eeprom) (addr : Nat) (l : List Nat)
    (i : Nat) (h : i < l.length) :
    eepromWriteBytes e addr l (addr + i) = l.get ⟨i, h⟩ % 256 := by
  induction l generalizing e addr i with
  | nil => simp at h
  | cons b rest ih =>
    cases i with
    | zero =>
      simp only [eepromWriteBytes, List.get]
      rw [eepromWriteBytes_lt _ _ _ _ (by omega)]
      simp [eepromWrite]
    | succ j =>
      simp only [eepromWriteBytes, List.get]
      have : addr + (j + 1) = (addr + 1) + j := by omega
      rw [this, ih _ _ _ (by simpa using Nat.lt_of_succ_lt_succ h)]

/-- Read a little-endian uint16 at address `a` (`EEPROM.get`). -/
def eepromGet16 (e : Eeprom) (a : Nat) : Nat :=
  eepromRead e a + 256 * eepromRead e (a + 1)

/-- Read a little-endian uint32 at address `a` (`EEPROM.get`). -/
def eepromGet32 (e : Eeprom) (a : Nat) : Nat :=
  eepromRead e a + 256 * eepromRead e (a + 1) +
    65536 * eepromRead e (a + 2) + 16777216 * eepromRead e (a + 3)

/-- Little-endian bytes of a uint16. -/
def bytes16 (v : Nat) : List Nat := [v % 256, v / 256 % 256]

/-- Little-endian bytes of a uint32. -/
def bytes32 (v : Nat) : List Nat :=
  [v % 256, v / 256 % 256, v / 65536 % 256, v / 16777216 % 256]

/-! ## HVAC types and EEPROM settings layout (HVAC .cpp)

`HVAC_EEPROM_START` is `EepromAddresses::TOTAL_EEPROM_USED` of the sketch,
which itself starts past the radio library's EEPROM region; the radio
library is outside this repository, so the start address is a parameter
`start` below. -/

inductive HvacTypes
  | HVAC_PASSTHROUGH
  | HVAC_MAPINPUTTOOUTPUT
  | HVAC_HEAT
  | HVAC_COOL
  | HVAC_AUTO
deriving DecidableEq

open HvacTypes

def NUMBER_OF_HVAC_TYPES : Nat := 5

def hvacTypeIdx : HvacTypes → Nat
  | HVAC_PASSTHROUGH => 0
  | HVAC_MAPINPUTTOOUTPUT => 1
  | HVAC_HEAT => 2
  | HVAC_COOL => 3
  | HVAC_AUTO => 4

def NUM_INPUT_SIGNAL_COMBINATIONS : Nat := 1 <<< NUM_HVAC_INPUT_SIGNALS

def NAME_LENGTH : Nat := 5

/-- sizeof(HvacCommands::Settings): char ModeName[NAME_LENGTH + 1]. -/
def sizeofHvacCommandsSettings : Nat := NAME_LENGTH + 1

/-- sizeof(MapInputToOutput::Settings): uint8_t inputToOutput[64]. -/
def sizeofMapInputToOutputSettings : Nat := NUM_INPUT_SIGNAL_COMBINATIONS

/-- sizeof(OverrideAndDriveFromSensors::Settings):
int16 + int16 + uint32 + five uint8 + uint16 + uint16 (AVR, no padding). -/
def sizeofOverrideSettings : Nat := 2 + 2 + 4 + 5 + 2 + 2

/-- sizeof(HvacCool::Settings): uint8 + uint8 + uint16. -/
def sizeofHvacCoolSettings : Nat := 1 + 1 + 2

/-- sizeof(HvacAuto::Settings): int16 + int16 + three uint8. -/
def sizeofHvacAutoSettings : Nat := 2 + 2 + 3

/-- Per-type settings record size: the `sze` computed by the switch in
`AddressOfModeTypeSettings` (shared base plus every inherited layer). -/
def settingsRecordSize : HvacTypes → Nat
  | HVAC_PASSTHROUGH => sizeofHvacCommandsSettings
  | HVAC_MAPINPUTTOOUTPUT => sizeofHvacCommandsSettings + sizeofMapInputToOutputSettings
  | HVAC_HEAT => sizeofHvacCommandsSettings + sizeofOverrideSettings
  | HVAC_COOL => sizeofHvacCommandsSettings + sizeofHvacCoolSettings + sizeofOverrideSettings
  | HVAC_AUTO => sizeofHvacCommandsSettings + sizeofHvacAutoSettings +
      sizeofHvacCoolSettings + sizeofOverrideSettings

def HVAC_EEPROM_TYPE_AND_MODE_ADDR (start : Nat) : Nat := start
def HVAC_SAVED_TYPE_AND_MODE_SIZE : Nat := 2
def HVAC_NUMBER_OF_MODES_IN_TYPE_ADDR (start : Nat) : Nat :=
  HVAC_EEPROM_TYPE_AND_MODE_ADDR start + HVAC_SAVED_TYPE_AND_MODE_SIZE
def NUMBER_OF_HVAC_TYPES_IN_EEPROM : Nat := NUMBER_OF_HVAC_TYPES - 1
def HVAC_MODES_EEPROM_START_ADDR (start : Nat) : Nat :=
  HVAC_NUMBER_OF_MODES_IN_TYPE_ADDR start + NUMBER_OF_HVAC_TYPES_IN_EEPROM

/-- EEPROM address of the count byte for (non-PassThrough) type `t`. -/
def modeCountAddr (start : Nat) (t : HvacTypes) : Nat :=
  hvacTypeIdx t - 1 + HVAC_NUMBER_OF_MODES_IN_TYPE_ADDR start

/-- `NumberOfModesInType`: PassThrough always 1; other types read one byte
of EEPROM, with the all-bits-set byte meaning zero modes. -/
def NumberOfModesInType (start : Nat) (e : Eeprom) (t : HvacTypes) : Nat :=
  if t = HVAC_PASSTHROUGH then 1
  else if eepromRead e (modeCountAddr start t) = 255 then 0
  else eepromRead e (modeCountAddr start t)

/-- `SetNumberOfModesInType`: writes the count byte; PassThrough ignored. -/
def SetNumberOfModesInType (start : Nat) (e : Eeprom) (t : HvacTypes)
    (count : Nat) : Eeprom :=
  if t = HVAC_PASSTHROUGH then e
  else eepromWrite e (modeCountAddr start t) count

/-- The address computation of `AddressOfModeTypeSettings` without the
uint16 truncation and without the range guard: each type's base is the
address one past the previous type's last instance. The source computes
this by a switch with recursive calls on the previous type; here the five
cases are sequential definitions. -/
def AddressOfRawPass (start : Nat) (which : Nat) : Nat :=
  HVAC_MODES_EEPROM_START_ADDR start + which * settingsRecordSize HVAC_PASSTHROUGH

def AddressOfRawMap (start : Nat) (e : Eeprom) (which : Nat) : Nat :=
  AddressOfRawPass start (NumberOfModesInType start e HVAC_PASSTHROUGH) +
    which * settingsRecordSize HVAC_MAPINPUTTOOUTPUT

def AddressOfRawHeat (start : Nat) (e : Eeprom) (which : Nat) : Nat :=
  AddressOfRawMap start e (NumberOfModesInType start e HVAC_MAPINPUTTOOUTPUT) +
    which * settingsRecordSize HVAC_HEAT

def AddressOfRawCool (start : Nat) (e : Eeprom) (which : Nat) : Nat :=
  AddressOfRawHeat start e (NumberOfModesInType start e HVAC_HEAT) +
    which * settingsRecordSize HVAC_COOL

def AddressOfRawAuto (start : Nat) (e : Eeprom) (which : Nat) : Nat :=
  AddressOfRawCool start e (NumberOfModesInType start e HVAC_COOL) +
    which * settingsRecordSize HVAC_AUTO

def AddressOfRaw (start : Nat) (e : Eeprom) : HvacTypes → Nat → Nat
  | HVAC_PASSTHROUGH, which => AddressOfRawPass start which
  | HVAC_MAPINPUTTOOUTPUT, which => AddressOfRawMap start e which
  | HVAC_HEAT, which => AddressOfRawHeat start e which
  | HVAC_COOL, which => AddressOfRawCool start e which
  | HVAC_AUTO, which => AddressOfRawAuto start e which

/-- `AddressOfModeTypeSettings`: returns uint16 (-1), i.e. 65535, when the
instance index is more than one past the last; the address arithmetic is
carried in uint16. -/
def AddressOfModeTypeSettings (start : Nat) (e : Eeprom) (t : HvacTypes)
    (which : Nat) : Nat :=
  if which > NumberOfModesInType start e t then 65535
  else AddressOfRaw start e t which % 65536

/-! Spec-side formulation of the type base addresses, for the refinement
part of the address claim: "PassThrough's single slot first, then
MapInputToOutput's N1 slots, then Heat's N2, then Cool's N3, then Auto's N4
— each type's base address is the previous type's base plus (previous
count × previous record size)." -/

def specTypeBaseP (start : Nat) : Nat := HVAC_MODES_EEPROM_START_ADDR start

def specTypeBaseM (start : Nat) (e : Eeprom) : Nat :=
  specTypeBaseP start +
    NumberOfModesInType start e HVAC_PASSTHROUGH * settingsRecordSize HVAC_PASSTHROUGH

def specTypeBaseH (start : Nat) (e : Eeprom) : Nat :=
  specTypeBaseM start e +
    NumberOfModesInType start e HVAC_MAPINPUTTOOUTPUT * settingsRecordSize HVAC_MAPINPUTTOOUTPUT

def specTypeBaseC (start : Nat) (e : Eeprom) : Nat :=
  specTypeBaseH start e +
    NumberOfModesInType start e HVAC_HEAT * settingsRecordSize HVAC_HEAT

def specTypeBaseA (start : Nat) (e : Eeprom) : Nat :=
  specTypeBaseC start e +
    NumberOfModesInType start e HVAC_COOL * settingsRecordSize HVAC_COOL

def specTypeBase (start : Nat) (e : Eeprom) : HvacTypes → Nat
  | HVAC_PASSTHROUGH => specTypeBaseP start
  | HVAC_MAPINPUTTOOUTPUT => specTypeBaseM start e
  | HVAC_HEAT => specTypeBaseH start e
  | HVAC_COOL => specTypeBaseC start e
  | HVAC_AUTO => specTypeBaseA start e

/-- The successor in the type ordering (ordinals 0–4). -/
def nextHvacType : HvacTypes → Option HvacTypes
  | HVAC_PASSTHROUGH => some HVAC_MAPINPUTTOOUTPUT
  | HVAC_MAPINPUTTOOUTPUT => some HVAC_HEAT
  | HVAC_HEAT => some HVAC_COOL
  | HVAC_COOL => some HVAC_AUTO
  | HVAC_AUTO => none

theorem NumberOfModesInType_pass (start : Nat) (e : Eeprom) :
    NumberOfModesInType start e HVAC_PASSTHROUGH = 1 := by
  simp [NumberOfModesInType]

theorem NumberOfModesInType_le_254 (start : Nat) (e : Eeprom) (t : HvacTypes) :
    NumberOfModesInType start e t ≤ 254 := by
  unfold NumberOfModesInType
  split
  · omega
  · split
    · omega
    · rename_i hne
      simp only [eepromRead] at hne ⊢
      have h2 : e (modeCountAddr start t) % 256 < 256 := Nat.mod_lt _ (by omega)
      omega

theorem AddressOfRaw_le (start : Nat) (e : Eeprom) (t : HvacTypes) (which : Nat)
    (hw : which ≤ NumberOfModesInType start e t) :
    AddressOfRaw start e t which ≤ start + 39128 := by
  have h0 := NumberOfModesInType_pass start e
  have h1 := NumberOfModesInType_le_254 start e HVAC_MAPINPUTTOOUTPUT
  have h2 := NumberOfModesInType_le_254 start e HVAC_HEAT
  have h3 := NumberOfModesInType_le_254 start e HVAC_COOL
  have h4 := NumberOfModesInType_le_254 start e HVAC_AUTO
  cases t <;>
    simp only [AddressOfRaw, AddressOfRawPass, AddressOfRawMap, AddressOfRawHeat,
      AddressOfRawCool, AddressOfRawAuto, HVAC_MODES_EEPROM_START_ADDR,
      HVAC_NUMBER_OF_MODES_IN_TYPE_ADDR, HVAC_EEPROM_TYPE_AND_MODE_ADDR,
      HVAC_SAVED_TYPE_AND_MODE_SIZE, NUMBER_OF_HVAC_TYPES_IN_EEPROM,
      NUMBER_OF_HVAC_TYPES, settingsRecordSize, sizeofHvacCommandsSettings,
      sizeofMapInputToOutputSettings, sizeofOverrideSettings, sizeofHvacCoolSettings,
      sizeofHvacAutoSettings, NUM_INPUT_SIGNAL_COMBINATIONS, NUM_HVAC_INPUT_SIGNALS,
      BN_LAST_SIGNAL, BN_FIRST_SIGNAL, NAME_LENGTH] at hw ⊢ <;>
    omega

theorem AddressOfRaw_lt_65536 (start : Nat) (e : Eeprom) (t : HvacTypes)
    (which : Nat) (hstart : start ≤ 26407)
    (hw : which ≤ NumberOfModesInType start e t) :
    AddressOfRaw start e t which < 65536 := by
  have := AddressOfRaw_le start e t which hw
  omega

theorem AddressOfModeTypeSettings_eq_raw (start : Nat) (e : Eeprom)
    (t : HvacTypes) (which : Nat) (hstart : start ≤ 26407)
    (hw : which ≤ NumberOfModesInType start e t) :
    AddressOfModeTypeSettings start e t which = AddressOfRaw start e t which := by
  unfold AddressOfModeTypeSettings
  rw [if_neg (by omega), Nat.mod_eq_of_lt (AddressOfRaw_lt_65536 start e t which hstart hw)]

theorem AddressOfRaw_eq_specBase (start : Nat) (e : Eeprom) (t : HvacTypes)
    (which : Nat) :
    AddressOfRaw start e t which = specTypeBase start e t + which * settingsRecordSize t := by
  cases t <;> rfl

theorem modeCountAddr_ne (start : Nat) {t T : HvacTypes}
    (ht : t ≠ HVAC_PASSTHROUGH) (hT : T ≠ HVAC_PASSTHROUGH) (hne : t ≠ T) :
    modeCountAddr start t ≠ modeCountAddr start T := by
  cases t <;> cases T <;>
    simp_all [modeCountAddr, hvacTypeIdx, HVAC_NUMBER_OF_MODES_IN_TYPE_ADDR,
      HVAC_EEPROM_TYPE_AND_MODE_ADDR, HVAC_SAVED_TYPE_AND_MODE_SIZE]

theorem NumberOfModesInType_set_other (start : Nat) (e : Eeprom)
    (T : HvacTypes) (b : Nat) (t : HvacTypes)
    (hT : T ≠ HVAC_PASSTHROUGH) (ht : t ≠ T) :
    NumberOfModesInType start (SetNumberOfModesInType start e T b) t =
      NumberOfModesInType start e t := by
  unfold NumberOfModesInType SetNumberOfModesInType
  rw [if_neg hT]
  by_cases hp : t = HVAC_PASSTHROUGH
  · simp [hp]
  · have hne := modeCountAddr_ne start hp hT ht
    simp [hp, eepromRead, eepromWrite, hne]

/-! ## Furnace call interface

The mode layer requests outputs through `Furnace::UpdateOutputs`,
`Furnace::SetOutputBits` and `Furnace::ClearOutputBits`; we record the
calls a handler makes, in order.  The physical output arbiter (short-cycle
lockout, heat safety, failsafe relay) consuming these requests is modelled
separately below. -/

inductive FurnaceCall
  | update (mask : Nat)
  | setBits (mask : Nat)
  | clearBits (mask : Nat)
deriving DecidableEq

/-! ## Sensor-driven modes (OverrideAndDriveFromSensors / HvacHeat /
HvacCool / HvacAuto) -/

/-- OverrideAndDriveFromSensors::Settings.  int16 fields are kept as Int
in two's-complement range; unsigned fields as Nat. -/
structure SensorSettings where
  TemperatureTargetDegreesCx10 : Int
  TemperatureActivateDegreesCx10 : Int
  SensorMask : Nat
  MaskFanOnly : Nat
  AlwaysOnMask : Nat
  OutputStage1 : Nat
  OutputStage2 : Nat
  OutputStage3 : Nat
  SecondsToSecondStage : Nat
  SecondsToThirdStage : Nat
deriving DecidableEq

/-- HvacCool::Settings. -/
structure CoolSettings where
  MaskDehumidifyBitsOn : Nat
  MaskDehumidifyBitsOff : Nat
  HumiditySettingX10 : Nat
deriving DecidableEq

/-- HvacAuto::Settings. -/
structure AutoSettings where
  TemperatureTargetHeatDegreesCx10 : Int
  TemperatureActivateHeatDegreesCx10 : Int
  HeatMaskStage1 : Nat
  HeatMaskStage2 : Nat
  HeatMaskStage3 : Nat
deriving DecidableEq

inductive FancoilState
  | STATE_OFF
  | STATE_STAGE1
  | STATE_STAGE2
  | STATE_STAGE3
deriving DecidableEq

inductive HeatSideState
  | HEAT_OFF
  | HEAT_STAGE1
  | HEAT_STAGE2
  | HEAT_STAGE3
deriving DecidableEq

inductive DehumidifyState
  | DEHUMDIFY_OFF
  | DEHUMIDIFY_ACTIVE
deriving DecidableEq

/-- The static (overlaid) run-state variables of the sensor-driven
classes: OverrideAndDriveFromSensors's last-heard tracking, stage state
and timer, the continuous-fan flag and previous reading, plus HvacCool's
dehumidify state and HvacAuto's heat-side state and displayed target. -/
structure RunState where
  lastHeardFromSensor : Nat
  lastHeardSensorId : Nat
  timeEnteredStage1 : Nat
  fancoilState : FancoilState
  fanIsOn : Bool
  previousActual : Nat
  dehumidifyState : DehumidifyState
  heatState : HeatSideState
  autoTarget : Int
deriving DecidableEq

def SENSOR_TIMEOUT_MSEC : Nat := 1000 * 60 * 15

/-- `parseForColon` (HVAC .cpp): scans the packet for `<flag>:`, then
parses an optionally signed decimal number in int16 arithmetic, appending
one extra tenths digit when present; returns -1 when the flag is absent or
the length counter runs out.  The uint8 length counter decrements with
wraparound as in the source. -/
def parseForColon (flag : Char) : List Char → Nat → Int
  | [], _ => -1
  | c0 :: rest, cnt =>
    if cnt % 256 = 0 then -1
    else if c0 = flag ∧ rest.head? = some ':' then
      let r2 := rest.tail
      let afterSign : List Char × Bool :=
        match r2 with
        | '-' :: r3 => (r3, true)
        | '+' :: r3 => (r3, false)
        | _ => (r2, false)
      let pr := aDecimalToInt afterSign.1
      let ret0 := wrap16 ((toInt16 pr.1) * 10)
      let ret1 :=
        match pr.2 with
        | d :: _ => if isdigitC d then wrap16 (ret0 + ((d.toNat : Int) - 48)) else ret0
        | [] => ret0
      if afterSign.2 then wrap16 (-ret1) else ret1
    else parseForColon flag rest ((cnt % 256 + 255) % 256)

/-- The mode-specific hooks (the C++ virtual functions) used by the shared
`OverrideAndDriveFromSensors::ProcessCommand` sensor-report path. -/
structure SensorVirtuals where
  OnReceivedTemperatureInput : RunState → Int → Bool × RunState
  OnReceivedTemperatureInput2 : RunState → Nat → Int → Nat → Nat × RunState
  OnReceivedHumidityInput : RunState → Int → Int → Nat → Nat × RunState

/-- The sensor-report path of `OverrideAndDriveFromSensors::ProcessCommand`
(the `!toMe` branch): sensor-mask filter, sender arbitration, temperature
parse, staged activation, optional humidity overlay, continuous-fan OR,
and the final `Furnace::UpdateOutputs`. -/
def sensorReport (virt : SensorVirtuals) (s : SensorSettings) (st : RunState)
    (now : Nat) (senderid : Nat) (cmd : List Char) (len : Nat) :
    Bool × RunState × List FurnaceCall :=
  let mask := (1 <<< senderid) % 4294967296
  if s.SensorMask &&& mask ≠ 0 then
    if st.lastHeardSensorId > 0 ∧ senderid > st.lastHeardSensorId ∧
        sub32 now st.lastHeardFromSensor < SENSOR_TIMEOUT_MSEC then
      (true, st, [])
    else
      let st1 := { st with lastHeardFromSensor := now, lastHeardSensorId := senderid }
      let tCx10 := parseForColon 'T' cmd len
      if tCx10 = -1 then (false, st1, [])
      else
        let rhx10 := parseForColon 'R' cmd len
        let r1 := virt.OnReceivedTemperatureInput st1 tCx10
        let needToBeOn := r1.1
        let st2 := { r1.2 with previousActual := toUInt16n tCx10 }
        let afterStage : Nat × RunState :=
          if ¬needToBeOn then
            let st3 := { st2 with fancoilState := .STATE_OFF }
            virt.OnReceivedTemperatureInput2 st3 now tCx10 s.AlwaysOnMask
          else
            if st2.fancoilState = .STATE_OFF then
              (s.OutputStage1,
               { st2 with fancoilState := .STATE_STAGE1, timeEnteredStage1 := now })
            else
              let sinceStage1 := toInt32 (sub32 now st2.timeEnteredStage1)
              let out :=
                if sinceStage1 ≥ (s.SecondsToThirdStage : Int) * 1000 then s.OutputStage3
                else if sinceStage1 ≥ (s.SecondsToSecondStage : Int) * 1000 then s.OutputStage2
                else s.OutputStage1
              (out, st2)
        let afterHum : Nat × RunState :=
          if rhx10 > 0 then
            virt.OnReceivedHumidityInput afterStage.2 rhx10 tCx10 afterStage.1
          else afterStage
        let out2 := if afterHum.2.fanIsOn then afterHum.1 ||| s.MaskFanOnly else afterHum.1
        (true, afterHum.2, [.update out2])
  else (false, st, [])

/-- `HvacHeat::OnReceivedTemperatureInput`. -/
def heatOnReceivedTemperatureInput (s : SensorSettings) (st : RunState)
    (deg : Int) : Bool × RunState :=
  (if st.fancoilState = .STATE_OFF then
     decide (deg ≤ s.TemperatureActivateDegreesCx10)
   else decide (deg < s.TemperatureTargetDegreesCx10), st)

/-- `HvacCool::OnReceivedTemperatureInput`. -/
def coolOnReceivedTemperatureInput (s : SensorSettings) (st : RunState)
    (deg : Int) : Bool × RunState :=
  (if st.fancoilState = .STATE_OFF then
     decide (deg ≥ s.TemperatureActivateDegreesCx10)
   else decide (deg > s.TemperatureTargetDegreesCx10), st)

def DEHUMIDIFY_HYSTERESIS : Nat := 15

/-- `HvacCool::OnReceivedHumidityInput`.  On the AVR the comparison of the
int16 humidity reading against the uint16 setting ± hysteresis is carried
out in 16-bit unsigned arithmetic. -/
def coolOnReceivedHumidityInput (s : SensorSettings) (cs : CoolSettings)
    (st : RunState) (rh deg : Int) (mask : Nat) : Nat × RunState :=
  if cs.HumiditySettingX10 = 65535 then (mask, st)
  else
    let needDehumd :=
      if st.dehumidifyState = .DEHUMDIFY_OFF then
        toUInt16n rh > (cs.HumiditySettingX10 + DEHUMIDIFY_HYSTERESIS) % 65536
      else
        toUInt16n rh > (cs.HumiditySettingX10 + 65536 - DEHUMIDIFY_HYSTERESIS) % 65536
    if needDehumd then
      if deg < wrap16 (s.TemperatureActivateDegreesCx10 - 5) then
        (mask, { st with dehumidifyState := .DEHUMDIFY_OFF })
      else
        ((mask ||| cs.MaskDehumidifyBitsOn) &&& (255 ^^^ cs.MaskDehumidifyBitsOff % 256),
         { st with dehumidifyState := .DEHUMIDIFY_ACTIVE })
    else (mask, st)

/-- `HvacAuto::OnReceivedTemperatureInput`: Cool's test; a true result
additionally latches the cool target as the displayed target. -/
def autoOnReceivedTemperatureInput (s : SensorSettings) (st : RunState)
    (deg : Int) : Bool × RunState :=
  let r := coolOnReceivedTemperatureInput s st deg
  if r.1 then (r.1, { r.2 with autoTarget := s.TemperatureTargetDegreesCx10 })
  else r

/-- `HvacAuto::OnReceivedTemperatureInput2`: the independent heat-side
staged machine, evaluated only when Cool's activation test returned
false. -/
def autoOnReceivedTemperatureInput2 (s : SensorSettings) (a : AutoSettings)
    (st : RunState) (now : Nat) (deg : Int) (mask : Nat) : Nat × RunState :=
  let needHeat :=
    if st.heatState = .HEAT_OFF then deg ≤ a.TemperatureActivateHeatDegreesCx10
    else deg < a.TemperatureTargetHeatDegreesCx10
  if ¬needHeat then (mask, { st with heatState := .HEAT_OFF })
  else
    let st1 := { st with autoTarget := a.TemperatureTargetHeatDegreesCx10 }
    if st1.heatState = .HEAT_OFF then
      (a.HeatMaskStage1,
       { st1 with heatState := .HEAT_STAGE1, timeEnteredStage1 := now })
    else
      let sinceStage1 := toInt32 (sub32 now st1.timeEnteredStage1)
      let m :=
        if sinceStage1 ≥ (s.SecondsToThirdStage : Int) * 1000 then a.HeatMaskStage3
        else if sinceStage1 ≥ (s.SecondsToSecondStage : Int) * 1000 then a.HeatMaskStage2
        else a.HeatMaskStage1
      (m, st1)

/-- `HvacAuto::OnReceivedHumidityInput`: delegates to Cool only while the
heat side is off. -/
def autoOnReceivedHumidityInput (s : SensorSettings) (cs : CoolSettings)
    (st : RunState) (rh deg : Int) (mask : Nat) : Nat × RunState :=
  if st.heatState = .HEAT_OFF then coolOnReceivedHumidityInput s cs st rh deg mask
  else (mask, st)

def heatVirtuals (s : SensorSettings) : SensorVirtuals where
  OnReceivedTemperatureInput := heatOnReceivedTemperatureInput s
  OnReceivedTemperatureInput2 := fun st _ _ output => (output, st)
  OnReceivedHumidityInput := fun st _ _ mask => (mask, st)

def coolVirtuals (s : SensorSettings) (cs : CoolSettings) : SensorVirtuals where
  OnReceivedTemperatureInput := coolOnReceivedTemperatureInput s
  OnReceivedTemperatureInput2 := fun st _ _ output => (output, st)
  OnReceivedHumidityInput := coolOnReceivedHumidityInput s cs

def autoVirtuals (s : SensorSettings) (cs : CoolSettings) (a : AutoSettings) :
    SensorVirtuals where
  OnReceivedTemperatureInput := autoOnReceivedTemperatureInput s
  OnReceivedTemperatureInput2 := autoOnReceivedTemperatureInput2 s a
  OnReceivedHumidityInput := autoOnReceivedHumidityInput s cs

/-- `OverrideAndDriveFromSensors::isSensorTimedOut`: also records the side
effects (previousActual reset and `TurnFurnaceOff`, which for sensor modes
writes the always-on mask). -/
def isSensorTimedOut (s : SensorSettings) (st : RunState) (now : Nat) :
    Bool × RunState × List FurnaceCall :=
  let interval := toInt32 (sub32 now st.lastHeardFromSensor)
  if interval > (s.SecondsToThirdStage : Int) * 2000 then
    (true, { st with previousActual := 0 }, [.update s.AlwaysOnMask])
  else (false, st, [])

/-- `OverrideAndDriveFromSensors::loop`: stage promotion by elapsed time
since stage-1 entry, with the sensor-silence timeout. -/
def sensorLoop (s : SensorSettings) (st : RunState) (now : Nat) :
    RunState × List FurnaceCall :=
  if st.fancoilState ≠ .STATE_OFF then
    let tmo := isSensorTimedOut s st now
    if tmo.1 then ({ tmo.2.1 with fancoilState := .STATE_OFF }, tmo.2.2)
    else
      let sinceStage1 := toInt32 (sub32 now st.timeEnteredStage1)
      if sinceStage1 ≥ (s.SecondsToThirdStage : Int) * 1000 then
        if st.fancoilState ≠ .STATE_STAGE3 then
          ({ st with fancoilState := .STATE_STAGE3 }, [.update s.OutputStage3])
        else (st, [])
      else if sinceStage1 ≥ (s.SecondsToSecondStage : Int) * 1000 then
        if st.fancoilState ≠ .STATE_STAGE2 then
          ({ st with fancoilState := .STATE_STAGE2 }, [.update s.OutputStage2])
        else (st, [])
      else (st, [])
  else (st, [])

/-- `HvacAuto::loop`: the heat-side staged machine when it is active,
otherwise the inherited cool-side loop. -/
def autoLoop (s : SensorSettings) (a : AutoSettings) (st : RunState)
    (now : Nat) : RunState × List FurnaceCall :=
  if st.heatState ≠ .HEAT_OFF then
    let tmo := isSensorTimedOut s st now
    if tmo.1 then ({ tmo.2.1 with heatState := .HEAT_OFF }, tmo.2.2)
    else
      let sinceStage1 := toInt32 (sub32 now st.timeEnteredStage1)
      if sinceStage1 ≥ (s.SecondsToThirdStage : Int) * 1000 then
        if st.heatState ≠ .HEAT_STAGE3 then
          ({ st with heatState := .HEAT_STAGE3 }, [.update a.HeatMaskStage3])
        else (st, [])
      else if sinceStage1 ≥ (s.SecondsToSecondStage : Int) * 1000 then
        if st.heatState ≠ .HEAT_STAGE2 then
          ({ st with heatState := .HEAT_STAGE2 }, [.update a.HeatMaskStage2])
        else (st, [])
      else (st, [])
  else sensorLoop s st now

/-- `OverrideAndDriveFromSensors::InitializeState`. -/
def sensorInitializeState (st : RunState) (now : Nat) : RunState :=
  { st with
    timeEnteredStage1 := now
    lastHeardFromSensor := now
    lastHeardSensorId := 0
    fancoilState := .STATE_OFF
    fanIsOn := false
    previousActual := 0 }

/-- `HvacCool::InitializeState`. -/
def coolInitializeState (st : RunState) (now : Nat) : RunState :=
  { sensorInitializeState st now with dehumidifyState := .DEHUMDIFY_OFF }

/-- `HvacAuto::InitializeState`. -/
def autoInitializeState (a : AutoSettings) (st : RunState) (now : Nat) : RunState :=
  { coolInitializeState st now with
    heatState := .HEAT_OFF
    autoTarget := a.TemperatureTargetHeatDegreesCx10 }

/-! ## MapInputToOutput -/

/-- `MapInputToOutput::OnInputsChanged`: restrict inputs to the input-legal
bits, shift off the R bit to form the 0–63 index, and look up the table;
the sentinel 0xFF maps the (masked) inputs straight through.  The result
is the mask passed to `Furnace::UpdateOutputs`. -/
def mapOnInputsChanged (tbl : List Nat) (inputs : Nat) : Nat :=
  let inputs2 := inputs &&& INPUT_SIGNAL_MASK
  let value := tbl.getD (inputs2 >>> BN_FIRST_SIGNAL) 0
  if value = 255 then inputs2 else value

/-- The `HVACMAP=0x` fill loop: writes successive (uint8-truncated) hex
values at successive (uint8) addresses, aborting with a false return when
the address passes the end of the 64-entry table.  The C loop consumes at
least one character per iteration, so recursion on a fuel initialised to
the text length is exact (`hvacmapFill_eq` below recovers the loop's
natural recurrence). -/
def hvacmapFillAux : Nat → List Nat → Nat → List Char → Bool × List Nat
  | _, tbl, _, [] => (true, tbl)
  | 0, tbl, _, _ :: _ => (false, tbl)
  | fuel + 1, tbl, addr, c :: rest =>
    if addr ≥ NUM_INPUT_SIGNAL_COMBINATIONS then (false, tbl)
    else
      let pr := aHexToInt (c :: rest)
      hvacmapFillAux fuel (tbl.set addr (pr.1 % 256)) ((addr + 1) % 256) pr.2

def hvacmapFill (tbl : List Nat) (addr : Nat) (q : List Char) : Bool × List Nat :=
  hvacmapFillAux q.length tbl addr q

theorem hvacmapFillAux_fuel (fuel : Nat) : ∀ (fuel' : Nat) (tbl : List Nat)
    (addr : Nat) (q : List Char), q.length ≤ fuel → q.length ≤ fuel' →
    hvacmapFillAux fuel tbl addr q = hvacmapFillAux fuel' tbl addr q := by
  induction fuel with
  | zero =>
    intro fuel' tbl addr q h h'
    cases q with
    | nil => cases fuel' <;> rfl
    | cons c rest => simp at h
  | succ f ih =>
    intro fuel' tbl addr q h h'
    cases q with
    | nil => cases fuel' <;> rfl
    | cons c rest =>
      cases fuel' with
      | zero => simp at h'
      | succ f2 =>
        simp only [hvacmapFillAux]
        split
        · rfl
        · apply ih
          · have := aHexToInt_length_lt c rest
            simp only [List.length_cons] at h this ⊢
            omega
          · have := aHexToInt_length_lt c rest
            simp only [List.length_cons] at h' this ⊢
            omega

/-- The fill loop satisfies the C loop's recurrence. -/
theorem hvacmapFill_eq (tbl : List Nat) (addr : Nat) (q : List Char) :
    hvacmapFill tbl addr q =
      match q with
      | [] => (true, tbl)
      | c :: rest =>
        if addr ≥ NUM_INPUT_SIGNAL_COMBINATIONS then (false, tbl)
        else
          hvacmapFill (tbl.set addr ((aHexToInt (c :: rest)).1 % 256))
            ((addr + 1) % 256) (aHexToInt (c :: rest)).2 := by
  cases q with
  | nil => rfl
  | cons c rest =>
    simp only [hvacmapFill, List.length_cons, hvacmapFillAux]
    split
    · rfl
    · apply hvacmapFillAux_fuel
      · have := aHexToInt_length_lt c rest
        simp only [List.length_cons] at this ⊢
        omega
      · exact Nat.le_refl _

def HVACMAP_kw : List Char := ("HVACMAP=0x").toList

/-- The map-specific part of `MapInputToOutput::ProcessCommand` (after the
base class declined): requires an addressed packet and the `HVACMAP=0x`
leading keyword (strncmp), parses the hex start address and fills. -/
def mapHvacmapCommand (tbl : List Nat) (cmd : List Char) (toMe : Bool) :
    Bool × List Nat :=
  if ¬toMe then (false, tbl)
  else if startsWithC cmd HVACMAP_kw then
    let q := cmd.drop HVACMAP_kw.length
    let pr := aHexToInt q
    hvacmapFill tbl (pr.1 % 256) pr.2
  else (false, tbl)

/-- The spec's map round-trip scenario: 8 `HVACMAP=0x<addr>` commands
covering addresses 0–63, each writing 8 values equal to the (hex) address. -/
def mapRoundTripCommands : List (List Char) :=
  [("HVACMAP=0x00 0 0 0 0 0 0 0 0").toList,
   ("HVACMAP=0x08 8 8 8 8 8 8 8 8").toList,
   ("HVACMAP=0x10 10 10 10 10 10 10 10 10").toList,
   ("HVACMAP=0x18 18 18 18 18 18 18 18 18").toList,
   ("HVACMAP=0x20 20 20 20 20 20 20 20 20").toList,
   ("HVACMAP=0x28 28 28 28 28 28 28 28 28").toList,
   ("HVACMAP=0x30 30 30 30 30 30 30 30 30").toList,
   ("HVACMAP=0x38 38 38 38 38 38 38 38 38").toList]

/-- Result of applying the round-trip commands to a fresh (all-sentinel)
table: the conjunction of all handled flags and the final table. -/
def mapRoundTripResult : Bool × List Nat :=
  mapRoundTripCommands.foldl
    (fun pr cmd =>
      let r := mapHvacmapCommand pr.2 cmd true
      (pr.1 && r.1, r.2))
    (true, List.replicate 64 255)

/-! ## Settings commands (HVAC_SETTINGS / HUM_SETTINGS / AUTO_SETTINGS)

Each handler parses its fields left to right with `aDecimalToInt` /
`aHexToInt` and returns early (keeping the in-memory working copy's
remaining fields) when the command text runs out. -/

/-- `HvacHeat::ActivateTemperatureFromTarget` (int16 arithmetic). -/
def ActivateTemperatureFromTargetHeat (target : Int) : Int := wrap16 (target - 6)

/-- `HvacCool::ActivateTemperatureFromTarget` (int16 arithmetic). -/
def ActivateTemperatureFromTargetCool (target : Int) : Int := wrap16 (target + 6)

/-- The `HVAC_SETTINGS` handler of `OverrideAndDriveFromSensors::
ProcessCommand`: returns the new settings and the mask that the
`OffOnExit` destructor passes to `Furnace::UpdateOutputs` on return (the
always-on mask, OR'd with the fan mask while the fan is on, replaced by
the newly parsed always-on mask once that field has been read). -/
def hvacSettingsCommand (actFromTarget : Int → Int) (fanIsOn : Bool)
    (s : SensorSettings) (q : List Char) : SensorSettings × Nat :=
  let off0 := if fanIsOn then s.AlwaysOnMask ||| s.MaskFanOnly else s.AlwaysOnMask
  let p0 := aDecimalToInt q
  let s := { s with
    TemperatureTargetDegreesCx10 := toInt16 p0.1
    TemperatureActivateDegreesCx10 := actFromTarget (toInt16 p0.1) }
  if p0.2 = [] then (s, off0) else
  let p1 := aDecimalToInt p0.2
  let s := { s with TemperatureActivateDegreesCx10 := toInt16 p1.1 }
  if p1.2 = [] then (s, off0) else
  let p2 := aHexToInt p1.2
  let s := { s with SensorMask := p2.1 }
  if p2.2 = [] then (s, off0) else
  let p3 := aHexToInt p2.2
  let s := { s with MaskFanOnly := p3.1 % 256 }
  if p3.2 = [] then (s, off0) else
  let p4 := aHexToInt p3.2
  let s := { s with AlwaysOnMask := p4.1 % 256 }
  let off := p4.1 % 256
  if p4.2 = [] then (s, off) else
  let p5 := aHexToInt p4.2
  let s := { s with OutputStage1 := p5.1 % 256 }
  if p5.2 = [] then (s, off) else
  let p6 := aHexToInt p5.2
  let s := { s with OutputStage2 := p6.1 % 256 }
  if p6.2 = [] then (s, off) else
  let p7 := aHexToInt p6.2
  let s := { s with OutputStage3 := p7.1 % 256 }
  if p7.2 = [] then (s, off) else
  let p8 := aDecimalToInt p7.2
  let s := { s with SecondsToSecondStage := p8.1 }
  if p8.2 = [] then (s, off) else
  let p9 := aDecimalToInt p8.2
  ({ s with SecondsToThirdStage := p9.1 }, off)

/-- The `HUM_SETTINGS` handler of `HvacCool::ProcessCommand`; `q` is the
text immediately after the keyword. The humidity setpoint is first reset
to the disabled sentinel, and the handler returns at the NUL right after
the keyword before parsing any field. -/
def humSettingsApply (c : CoolSettings) (q : List Char) : CoolSettings :=
  let c := { c with HumiditySettingX10 := 65535 }
  match q with
  | [] => c
  | _ :: q1 =>
    let p0 := aDecimalToInt q1
    let c := { c with HumiditySettingX10 := p0.1 }
    if p0.2 = [] then c else
    let p1 := aHexToInt p0.2
    let c := { c with MaskDehumidifyBitsOn := p1.1 % 256 }
    if p1.2 = [] then c else
    let p2 := aHexToInt p1.2
    { c with MaskDehumidifyBitsOff := p2.1 % 256 }

/-- The `AUTO_SETTINGS` handler of `HvacAuto::ProcessCommand`; `q` is the
text immediately after the keyword. Giving only the stage-1 mask also
assigns it to stages 2 and 3. -/
def autoSettingsApply (a : AutoSettings) (q : List Char) : AutoSettings :=
  match q with
  | [] => a
  | _ :: q1 =>
    let p0 := aDecimalToInt q1
    let a := { a with
      TemperatureTargetHeatDegreesCx10 := toInt16 p0.1
      TemperatureActivateHeatDegreesCx10 := wrap16 (toInt16 p0.1 - 6) }
    if p0.2 = [] then a else
    let p1 := aDecimalToInt p0.2
    let a := { a with TemperatureActivateHeatDegreesCx10 := toInt16 p1.1 }
    if p1.2 = [] then a else
    let p2 := aHexToInt p1.2
    let a := { a with
      HeatMaskStage1 := p2.1 % 256
      HeatMaskStage2 := p2.1 % 256
      HeatMaskStage3 := p2.1 % 256 }
    if p2.2 = [] then a else
    let p3 := aHexToInt p2.2
    let a := { a with HeatMaskStage2 := p3.1 % 256 }
    if p3.2 = [] then a else
    let p4 := aHexToInt p3.2
    { a with HeatMaskStage3 := p4.1 % 256 }

/-! Spec-side formulation of the partial-update semantics (for C9): the
list of fields present in the command text, each applied positionally,
with the documented defaults for omitted fields. -/

/-- Run a fixed sequence of field parsers left to right, stopping once the
text is exhausted; returns the values of the fields present. -/
def parseSeq : List (List Char → Nat × List Char) → List Char → List Nat
  | [], _ => []
  | f :: fs, q =>
    let p := f q
    p.1 :: (if p.2 = [] then [] else parseSeq fs p.2)

def hvacSettingsFieldParsers : List (List Char → Nat × List Char) :=
  [aDecimalToInt, aDecimalToInt, aHexToInt, aHexToInt, aHexToInt,
   aHexToInt, aHexToInt, aHexToInt, aDecimalToInt, aDecimalToInt]

def humSettingsFieldParsers : List (List Char → Nat × List Char) :=
  [aDecimalToInt, aHexToInt, aHexToInt]

def autoSettingsFieldParsers : List (List Char → Nat × List Char) :=
  [aDecimalToInt, aDecimalToInt, aHexToInt, aHexToInt, aHexToInt]

/-- Spec-side `HVAC_SETTINGS`: fields present are applied positionally;
every trailing omitted field keeps its prior in-memory value, except that
an omitted activate temperature is recomputed from the just-set target. -/
def hvacSettingsSpecApply (actFromTarget : Int → Int) (s : SensorSettings)
    (vs : List Nat) : SensorSettings :=
  let s := match vs.get? 0 with
    | some v => { s with
        TemperatureTargetDegreesCx10 := toInt16 v
        TemperatureActivateDegreesCx10 := actFromTarget (toInt16 v) }
    | none => s
  let s := match vs.get? 1 with
    | some v => { s with TemperatureActivateDegreesCx10 := toInt16 v }
    | none => s
  let s := match vs.get? 2 with
    | some v => { s with SensorMask := v }
    | none => s
  let s := match vs.get? 3 with
    | some v => { s with MaskFanOnly := v % 256 }
    | none => s
  let s := match vs.get? 4 with
    | some v => { s with AlwaysOnMask := v % 256 }
    | none => s
  let s := match vs.get? 5 with
    | some v => { s with OutputStage1 := v % 256 }
    | none => s
  let s := match vs.get? 6 with
    | some v => { s with OutputStage2 := v % 256 }
    | none => s
  let s := match vs.get? 7 with
    | some v => { s with OutputStage3 := v % 256 }
    | none => s
  let s := match vs.get? 8 with
    | some v => { s with SecondsToSecondStage := v }
    | none => s
  match vs.get? 9 with
    | some v => { s with SecondsToThirdStage := v }
    | none => s

/-- Spec-side `HUM_SETTINGS`: the humidity setpoint is reset to the
disabled sentinel and then overwritten by the first field when present;
trailing omitted mask fields keep their prior values. -/
def humSettingsSpecApply (c : CoolSettings) (vs : List Nat) : CoolSettings :=
  let c := { c with HumiditySettingX10 := 65535 }
  let c := match vs.get? 0 with
    | some v => { c with HumiditySettingX10 := v }
    | none => c
  let c := match vs.get? 1 with
    | some v => { c with MaskDehumidifyBitsOn := v % 256 }
    | none => c
  match vs.get? 2 with
    | some v => { c with MaskDehumidifyBitsOff := v % 256 }
    | none => c

/-- Spec-side `AUTO_SETTINGS`: an omitted activate temperature defaults to
the just-set target minus 0.6 C, and omitted stage-2/3 masks default to
the given stage-1 mask; all other omitted fields keep prior values. -/
def autoSettingsSpecApply (a : AutoSettings) (vs : List Nat) : AutoSettings :=
  let a := match vs.get? 0 with
    | some v => { a with
        TemperatureTargetHeatDegreesCx10 := toInt16 v
        TemperatureActivateHeatDegreesCx10 := wrap16 (toInt16 v - 6) }
    | none => a
  let a := match vs.get? 1 with
    | some v => { a with TemperatureActivateHeatDegreesCx10 := toInt16 v }
    | none => a
  let a := match vs.get? 2 with
    | some v => { a with
        HeatMaskStage1 := v % 256
        HeatMaskStage2 := v % 256
        HeatMaskStage3 := v % 256 }
    | none => a
  let a := match vs.get? 3 with
    | some v => { a with HeatMaskStage2 := v % 256 }
    | none => a
  match vs.get? 4 with
    | some v => { a with HeatMaskStage3 := v % 256 }
    | none => a

/-! ## Output arbiter (Furnace namespace and the safety part of loop())

The safety configuration lives in fixed EEPROM cells accessed through
small getters; it is modelled as a record of the stored values. -/

/-- `HeatSafetyMask_t` (3 bytes, no padding). -/
structure HeatSafetyMask_t where
  dontCareMask : Nat
  mustMatchMask : Nat
  toClear : Nat
deriving DecidableEq

/-- The persisted safety configuration as read by `getCompressorMask`,
`getCompressorHoldSeconds`, `getHeatSafetyHoldSeconds`,
`getHeatSafetyTemperatureCx10` and `getHeatSafetyMask`. -/
structure SafetyCfg where
  compressorMaskByte : Nat
  compressorHoldSeconds : Nat
  heatSafetyHoldSeconds : Nat
  heatSafetyTemperatureCx10 : Int
  heatSafetyMask : Nat → HeatSafetyMask_t

/-- `getCompressorMask`: the all-bits-set byte means no compressor mask. -/
def getCompressorMask (cfg : SafetyCfg) : Nat :=
  if cfg.compressorMaskByte % 256 = 255 then 0 else cfg.compressorMaskByte % 256

/-- The mutable state surrounding `Furnace::UpdateOutputs` and the safety
checks in `loop()`: the output and input shift registers, the last
requested (legal-masked) output, the two hold timers, and the failsafe
relay statics. -/
structure FurnaceSt where
  OutputRegister : Nat
  InputRegister : Nat
  LastOutputWrite : Nat
  CompressorOffTimeActive : Bool
  CompressorOffStartTime : Nat
  HeatSafetyOffTimeActive : Bool
  HeatSafetyOffStartTime : Nat
  HeatSafetyShutoffMask : Nat
  relayIsOn : Bool
  onAtTime : Nat
  TinletTemperatureCx10 : Int
deriving DecidableEq

def MINIMUM_ON_MSEC : Nat := 60000

/-- `Furnace::UpdateOutputs`: restrict to output-legal bits, record the
request, apply the heat-safety shutoff mask while its hold is active,
detect the compressor-group ON→OFF transition (starting the lockout) and
force the group off while the lockout is active, then the failsafe-relay
anti-chatter/override logic, and finally latch the output register. -/
def UpdateOutputs (cfg : SafetyCfg) (fs : FurnaceSt) (now : Nat)
    (mask0 : Nat) : FurnaceSt :=
  let mask1 := mask0 &&& OUTPUT_SIGNAL_MASK
  let mask2 := if fs.HeatSafetyOffTimeActive then mask1 &&& fs.HeatSafetyShutoffMask else mask1
  let cm := getCompressorMask cfg
  let pr :=
    if ¬fs.CompressorOffTimeActive ∧ cm ≠ 255 ∧
        fs.OutputRegister &&& cm ≠ 0 ∧ mask2 &&& cm = 0
    then (true, now)
    else (fs.CompressorOffTimeActive, fs.CompressorOffStartTime)
  let mask3 := if pr.1 then mask2 &&& (255 ^^^ cm) else mask2
  let cond1 := fs.relayIsOn ∧ sub32 now fs.onAtTime < MINIMUM_ON_MSEC
  let cond2 := ((mask3 &&& (1 <<< BN_W)) ^^^ (fs.InputRegister &&& (1 <<< BN_W))) ≠ 0
  let relay :=
    if cond1 then (fs.relayIsOn, fs.onAtTime, true)
    else if cond2 then (true, now, true)
    else (fs.relayIsOn, fs.onAtTime, false)
  let mask4 := if relay.2.2 then mask3 ||| (1 <<< BN_W_FAILSAFE) else mask3
  { fs with
    OutputRegister := mask4
    LastOutputWrite := mask1
    CompressorOffTimeActive := pr.1
    CompressorOffStartTime := pr.2
    relayIsOn := relay.1
    onAtTime := relay.2.1 }

/-- `Furnace::SetOutputBits`. -/
def SetOutputBits (cfg : SafetyCfg) (fs : FurnaceSt) (now : Nat)
    (mask : Nat) : FurnaceSt :=
  UpdateOutputs cfg fs now (mask ||| fs.LastOutputWrite)

/-- `Furnace::ClearOutputBits`. -/
def ClearOutputBits (cfg : SafetyCfg) (fs : FurnaceSt) (now : Nat)
    (mask : Nat) : FurnaceSt :=
  UpdateOutputs cfg fs now (fs.LastOutputWrite &&& compl8 mask)

/-- First matching heat-safety triple (the scan in `loop()`): compare
`~dontCare & LastOutputWrite` against `mustMatch`, requiring a nonzero
`toClear`. -/
def heatSafetyFind (cfg : SafetyCfg) (lastOut : Nat) : Option HeatSafetyMask_t :=
  let try0 := cfg.heatSafetyMask 0
  if compl8 try0.dontCareMask &&& lastOut = try0.mustMatchMask ∧ try0.toClear ≠ 0 then some try0
  else
    let try1 := cfg.heatSafetyMask 1
    if compl8 try1.dontCareMask &&& lastOut = try1.mustMatchMask ∧ try1.toClear ≠ 0 then some try1
    else
      let try2 := cfg.heatSafetyMask 2
      if compl8 try2.dontCareMask &&& lastOut = try2.mustMatchMask ∧ try2.toClear ≠ 0 then some try2
      else none

/-- The safety portion of `loop()`: compressor lockout expiry, heat-safety
hold expiry, then (while no hold is active and the feature is configured)
the over-temperature trigger scan. -/
def safetyLoopStep (cfg : SafetyCfg) (fs : FurnaceSt) (now : Nat) : FurnaceSt :=
  let fs1 :=
    if fs.CompressorOffTimeActive ∧
        sub32 now fs.CompressorOffStartTime > 1000 * cfg.compressorHoldSeconds then
      SetOutputBits cfg { fs with CompressorOffTimeActive := false } now 0
    else fs
  let fs2 :=
    if fs1.HeatSafetyOffTimeActive ∧
        sub32 now fs1.HeatSafetyOffStartTime > 1000 * cfg.heatSafetyHoldSeconds then
      SetOutputBits cfg { fs1 with HeatSafetyOffTimeActive := false } now 0
    else fs1
  if ¬fs2.HeatSafetyOffTimeActive then
    if cfg.heatSafetyHoldSeconds > 0 ∧ cfg.heatSafetyHoldSeconds ≠ 65535 then
      if cfg.heatSafetyTemperatureCx10 > 0 then
        if cfg.heatSafetyTemperatureCx10 ≤ fs2.TinletTemperatureCx10 then
          match heatSafetyFind cfg fs2.LastOutputWrite with
          | none => fs2
          | some m =>
            SetOutputBits cfg
              { fs2 with
                HeatSafetyOffStartTime := now
                HeatSafetyOffTimeActive := true
                HeatSafetyShutoffMask := compl8 m.toClear } now 0
        else fs2
      else fs2
    else fs2
  else fs2

/-! Bitwise infrastructure lemmas. -/

theorem testBit_byte_false {x i : Nat} (hx : x < 256) (hi : 8 ≤ i) :
    x.testBit i = false := by
  apply Nat.testBit_lt_two_pow
  have h2 : (256 : Nat) ≤ 2 ^ i := by
    have := Nat.pow_le_pow_right (show 1 ≤ 2 by norm_num) hi
    simpa using this
  omega

theorem and_compl8_and_self (x cm : Nat) (h : cm < 256) :
    x &&& (255 ^^^ cm) &&& cm = 0 := by
  apply Nat.eq_of_testBit_eq
  intro i
  simp only [Nat.testBit_and, Nat.testBit_xor, Nat.zero_testBit]
  by_cases hi : i < 8
  · have h255 : Nat.testBit 255 i = true := by interval_cases i <;> decide
    rw [h255]
    cases Nat.testBit x i <;> cases Nat.testBit cm i <;> rfl
  · have hc : Nat.testBit cm i = false := testBit_byte_false h (by omega)
    simp [hc]

theorem or_one_and_and254 (x y : Nat) :
    (x ||| 1) &&& y &&& 254 = x &&& y &&& 254 := by
  apply Nat.eq_of_testBit_eq
  intro i
  simp only [Nat.testBit_and, Nat.testBit_or]
  rcases i with _ | j
  · have h254 : Nat.testBit 254 0 = false := by decide
    simp [h254]
  · have h1 : Nat.testBit 1 (j + 1) = false := by
      apply Nat.testBit_lt_two_pow
      have h2 : (2 : Nat) ≤ 2 ^ (j + 1) := by
        have := Nat.pow_le_pow_right (show 1 ≤ 2 by norm_num)
          (show 1 ≤ j + 1 by omega)
        simpa using this
      omega
    simp [h1]

theorem and254_and_and254 (x y : Nat) :
    x &&& 254 &&& y &&& 254 = x &&& y &&& 254 := by
  apply Nat.eq_of_testBit_eq
  intro i
  simp only [Nat.testBit_and]
  cases Nat.testBit x i <;> cases Nat.testBit y i <;>
    cases Nat.testBit 254 i <;> rfl

theorem or_one_and254 (x : Nat) : (x ||| 1) &&& 254 = x &&& 254 := by
  apply Nat.eq_of_testBit_eq
  intro i
  simp only [Nat.testBit_and, Nat.testBit_or]
  rcases i with _ | j
  · have h254 : Nat.testBit 254 0 = false := by decide
    simp [h254]
  · have h1 : Nat.testBit 1 (j + 1) = false := by
      apply Nat.testBit_lt_two_pow
      have h2 : (2 : Nat) ≤ 2 ^ (j + 1) := by
        have := Nat.pow_le_pow_right (show 1 ≤ 2 by norm_num)
          (show 1 ≤ j + 1 by omega)
        simpa using this
      omega
    simp [h1]

theorem and254_idem (x : Nat) : x &&& 254 &&& 254 = x &&& 254 := by
  apply Nat.eq_of_testBit_eq
  intro i
  simp only [Nat.testBit_and]
  cases Nat.testBit x i <;> cases Nat.testBit 254 i <;> rfl

theorem and_mid_zero (x z tc : Nat) (h : x &&& tc &&& 254 = 0) :
    x &&& z &&& tc &&& 254 = 0 := by
  apply Nat.eq_of_testBit_eq
  intro i
  have hb := congrArg (fun n => Nat.testBit n i) h
  simp only [Nat.testBit_and, Nat.zero_testBit] at hb ⊢
  cases hx : Nat.testBit x i <;> cases hz : Nat.testBit z i <;>
    cases ht : Nat.testBit tc i <;> cases hm : Nat.testBit 254 i <;>
    simp_all

theorem getCompressorMask_ne_255 (cfg : SafetyCfg) :
    getCompressorMask cfg ≠ 255 := by
  unfold getCompressorMask
  split
  · omega
  · rename_i h
    exact h

theorem getCompressorMask_lt_256 (cfg : SafetyCfg) :
    getCompressorMask cfg < 256 := by
  unfold getCompressorMask
  split
  · omega
  · exact Nat.mod_lt _ (by omega)

/-! Infrastructure lemmas about the sensor-driven layer. -/

theorem heatOnReceivedTemperatureInput_state (s : SensorSettings)
    (st : RunState) (deg : Int) :
    (heatOnReceivedTemperatureInput s st deg).2 = st := rfl

theorem coolOnReceivedTemperatureInput_state (s : SensorSettings)
    (st : RunState) (deg : Int) :
    (coolOnReceivedTemperatureInput s st deg).2 = st := rfl

theorem autoOnReceivedTemperatureInput_lastHeard (s : SensorSettings)
    (st : RunState) (deg : Int) :
    (autoOnReceivedTemperatureInput s st deg).2.lastHeardFromSensor =
        st.lastHeardFromSensor ∧
      (autoOnReceivedTemperatureInput s st deg).2.lastHeardSensorId =
        st.lastHeardSensorId := by
  unfold autoOnReceivedTemperatureInput
  dsimp only
  split <;> exact ⟨rfl, rfl⟩

theorem autoOnReceivedTemperatureInput2_lastHeard (s : SensorSettings)
    (a : AutoSettings) (st : RunState) (n : Nat) (deg : Int) (m : Nat) :
    (autoOnReceivedTemperatureInput2 s a st n deg m).2.lastHeardFromSensor =
        st.lastHeardFromSensor ∧
      (autoOnReceivedTemperatureInput2 s a st n deg m).2.lastHeardSensorId =
        st.lastHeardSensorId := by
  unfold autoOnReceivedTemperatureInput2
  dsimp only
  repeat' split
  all_goals exact ⟨rfl, rfl⟩

theorem coolOnReceivedHumidityInput_lastHeard (s : SensorSettings)
    (cs : CoolSettings) (st : RunState) (rh deg : Int) (m : Nat) :
    (coolOnReceivedHumidityInput s cs st rh deg m).2.lastHeardFromSensor =
        st.lastHeardFromSensor ∧
      (coolOnReceivedHumidityInput s cs st rh deg m).2.lastHeardSensorId =
        st.lastHeardSensorId := by
  unfold coolOnReceivedHumidityInput
  dsimp only
  repeat' split
  all_goals exact ⟨rfl, rfl⟩

theorem autoOnReceivedHumidityInput_lastHeard (s : SensorSettings)
    (cs : CoolSettings) (st : RunState) (rh deg : Int) (m : Nat) :
    (autoOnReceivedHumidityInput s cs st rh deg m).2.lastHeardFromSensor =
        st.lastHeardFromSensor ∧
      (autoOnReceivedHumidityInput s cs st rh deg m).2.lastHeardSensorId =
        st.lastHeardSensorId := by
  unfold autoOnReceivedHumidityInput
  split
  · exact coolOnReceivedHumidityInput_lastHeard s cs st rh deg m
  · exact ⟨rfl, rfl⟩

/-- On the accepted (non-arbitrated-away) path, a sensor report records the
sender and the time, for any mode whose hooks leave the last-heard tracking
alone. -/
theorem sensorReport_accepted (virt : SensorVirtuals) (s : SensorSettings)
    (st : RunState) (now senderid : Nat) (cmd : List Char) (len : Nat)
    (hmask : s.SensorMask &&& ((1 <<< senderid) % 4294967296) ≠ 0)
    (hnign : ¬(st.lastHeardSensorId > 0 ∧ senderid > st.lastHeardSensorId ∧
      sub32 now st.lastHeardFromSensor < SENSOR_TIMEOUT_MSEC))
    (hp1 : ∀ st0 deg, ((virt.OnReceivedTemperatureInput st0 deg).2.lastHeardFromSensor
        = st0.lastHeardFromSensor ∧
      (virt.OnReceivedTemperatureInput st0 deg).2.lastHeardSensorId = st0.lastHeardSensorId))
    (hp2 : ∀ st0 n deg m, ((virt.OnReceivedTemperatureInput2 st0 n deg m).2.lastHeardFromSensor
        = st0.lastHeardFromSensor ∧
      (virt.OnReceivedTemperatureInput2 st0 n deg m).2.lastHeardSensorId = st0.lastHeardSensorId))
    (hp3 : ∀ st0 rh deg m, ((virt.OnReceivedHumidityInput st0 rh deg m).2.lastHeardFromSensor
        = st0.lastHeardFromSensor ∧
      (virt.OnReceivedHumidityInput st0 rh deg m).2.lastHeardSensorId = st0.lastHeardSensorId)) :
    (sensorReport virt s st now senderid cmd len).2.1.lastHeardSensorId = senderid ∧
    (sensorReport virt s st now senderid cmd len).2.1.lastHeardFromSensor = now := by
  simp only [sensorReport, if_pos hmask]
  rw [if_neg hnign]
  split
  · exact ⟨rfl, rfl⟩
  · dsimp only
    constructor <;>
    · repeat' split
      all_goals simp [hp1, hp2, hp3]

theorem coolOnReceivedHumidityInput_stages (s : SensorSettings)
    (cs : CoolSettings) (st : RunState) (rh deg : Int) (m : Nat) :
    (coolOnReceivedHumidityInput s cs st rh deg m).2.fancoilState = st.fancoilState ∧
      (coolOnReceivedHumidityInput s cs st rh deg m).2.heatState = st.heatState := by
  unfold coolOnReceivedHumidityInput
  dsimp only
  repeat' split
  all_goals exact ⟨rfl, rfl⟩

theorem autoOnReceivedHumidityInput_stages (s : SensorSettings)
    (cs : CoolSettings) (st : RunState) (rh deg : Int) (m : Nat) :
    (autoOnReceivedHumidityInput s cs st rh deg m).2.fancoilState = st.fancoilState ∧
      (autoOnReceivedHumidityInput s cs st rh deg m).2.heatState = st.heatState := by
  unfold autoOnReceivedHumidityInput
  split
  · exact coolOnReceivedHumidityInput_stages s cs st rh deg m
  · exact ⟨rfl, rfl⟩

theorem autoOnReceivedTemperatureInput2_fancoil (s : SensorSettings)
    (a : AutoSettings) (st : RunState) (n : Nat) (deg : Int) (m : Nat) :
    (autoOnReceivedTemperatureInput2 s a st n deg m).2.fancoilState = st.fancoilState := by
  unfold autoOnReceivedTemperatureInput2
  dsimp only
  repeat' split
  all_goals rfl

theorem autoOnReceivedTemperatureInput_heatState (s : SensorSettings)
    (st : RunState) (deg : Int) :
    (autoOnReceivedTemperatureInput s st deg).2.heatState = st.heatState := by
  unfold autoOnReceivedTemperatureInput
  dsimp only
  split <;> rfl

/-- When Cool's activation test passes on an accepted report, the Auto
report path leaves the heat-side state untouched (the heat machine is not
evaluated). -/
theorem autoSensorReport_heatState (s : SensorSettings) (cs : CoolSettings)
    (a : AutoSettings) (st : RunState) (now senderid : Nat) (cmd : List Char)
    (len : Nat)
    (hmask : s.SensorMask &&& ((1 <<< senderid) % 4294967296) ≠ 0)
    (hnign : ¬(st.lastHeardSensorId > 0 ∧ senderid > st.lastHeardSensorId ∧
      sub32 now st.lastHeardFromSensor < SENSOR_TIMEOUT_MSEC))
    (htm1 : parseForColon 'T' cmd len ≠ -1)
    (hneed : (autoOnReceivedTemperatureInput s
      { st with lastHeardFromSensor := now, lastHeardSensorId := senderid }
      (parseForColon 'T' cmd len)).1 = true) :
    (sensorReport (autoVirtuals s cs a) s st now senderid cmd len).2.1.heatState =
      st.heatState := by
  simp only [sensorReport, if_pos hmask]
  rw [if_neg hnign, if_neg htm1]
  dsimp only
  simp only [autoVirtuals] at hneed ⊢
  rw [if_neg (not_not_intro hneed)]
  repeat' split
  all_goals simp [autoOnReceivedHumidityInput_stages,
    autoOnReceivedTemperatureInput_heatState]

/-- When Cool's activation test fails on an accepted report, the Auto
report path forces the cool machine OFF before the heat side is given its
chance. -/
theorem autoSensorReport_fancoilOff (s : SensorSettings) (cs : CoolSettings)
    (a : AutoSettings) (st : RunState) (now senderid : Nat) (cmd : List Char)
    (len : Nat)
    (hmask : s.SensorMask &&& ((1 <<< senderid) % 4294967296) ≠ 0)
    (hnign : ¬(st.lastHeardSensorId > 0 ∧ senderid > st.lastHeardSensorId ∧
      sub32 now st.lastHeardFromSensor < SENSOR_TIMEOUT_MSEC))
    (htm1 : parseForColon 'T' cmd len ≠ -1)
    (hneed : ¬(autoOnReceivedTemperatureInput s
      { st with lastHeardFromSensor := now, lastHeardSensorId := senderid }
      (parseForColon 'T' cmd len)).1 = true) :
    (sensorReport (autoVirtuals s cs a) s st now senderid cmd len).2.1.fancoilState =
      .STATE_OFF := by
  simp only [sensorReport, if_pos hmask]
  rw [if_neg hnign, if_neg htm1]
  dsimp only
  simp only [autoVirtuals] at hneed ⊢
  rw [if_pos hneed]
  repeat' split
  all_goals simp [autoOnReceivedHumidityInput_stages,
    autoOnReceivedTemperatureInput2_fancoil]

/-! ## The main (sketch-level) command dispatch

`loop()` reads a serial line into `cmdbuf` and calls
`routeCommand(cmdbuf, len)` followed unconditionally by
`Serial.println(F("ready>"))`.  `routeCommand` tries, in order: the radio
library's `ApplyCommand` (outside this repository, a parameter here), the
sketch's own `ProcessCommand` (the T=/I/HV/DU=/COMPRESSOR/RH/HS/SE chain,
compiled at `USE_SERIAL == SERIAL_PORT_VERBOSE` so the RH branch is in and
the DEBUG-only branches are out), and finally the active mode's
`ProcessCommand`.  The state the sketch branches mutate (RTC, wire names,
compressor/heat-safety/schedule EEPROM settings, display units) is
represented by an effect list; a branch that returns false performs none
of its effects, which is what the no-op claim is about. -/

/-- `cmd[i]` of a NUL-terminated C buffer: NUL past the end. -/
def cAt (l : List Char) (i : Nat) : Char := l.getD i (Char.ofNat 0)

/-- `while (isspace(*q)) q += 1`. -/
def skipSpaces : List Char → List Char
  | [] => []
  | c :: rest => if isspaceC c then skipSpaces rest else c :: rest

def NUM_SCHEDULE_TEMPERATURE_ENTRIES : Nat := 16

/-- One state-mutating action of the sketch's `ProcessCommand` branches. -/
inductive MainEffect
  | setRtc (year month day hour minute sec dow : Nat)
  | radioPrintInfo
  | setWireNames (rest : List Char)
  | setDisplayUnits (farenheit : Bool)
  | setCompressor (mask seconds : Nat)
  | radioHvacReport
  | setHeatSafetyTemperature (tCx10 : Nat)
  | setHeatSafetyHold (seconds : Nat)
  | setHeatSafetyTriple (which : Nat) (m : HeatSafetyMask_t)
  | setScheduleEntry (which degreesCx5 hour minute daysOfWeek : Nat)
      (autoMode : Bool)
deriving DecidableEq

def COMPRESSOR_kw : List Char := ("COMPRESSOR=0x").toList

/-- Effect of the `T=` branch: seven `aDecimalToInt` calls in sequence
(year uint16, the rest uint8). -/
def mainRtcEffect (cmd : List Char) : MainEffect :=
  let pr1 := aDecimalToInt (cmd.drop 2)
  let pr2 := aDecimalToInt pr1.2
  let pr3 := aDecimalToInt pr2.2
  let pr4 := aDecimalToInt pr3.2
  let pr5 := aDecimalToInt pr4.2
  let pr6 := aDecimalToInt pr5.2
  let pr7 := aDecimalToInt pr6.2
  .setRtc pr1.1 (pr2.1 % 256) (pr3.1 % 256) (pr4.1 % 256) (pr5.1 % 256)
    (pr6.1 % 256) (pr7.1 % 256)

/-- The `COMPRESSOR=0x` branch body, after the keyword (malformed when the
hex number ends the line: no mutation, not handled). -/
def mainCompressorCommand (q : List Char) : Bool × List MainEffect :=
  let prm := aHexToInt q
  if prm.2 = [] then (false, [])
  else (true, [.setCompressor (prm.1 % 256) (aDecimalToInt prm.2).1])

/-- The `HS` branch body (argument: the text after `HS`). -/
def mainHsCommand (q0 : List Char) : Bool × List MainEffect :=
  match skipSpaces q0 with
  | [] => (false, [])
  | c :: q1 =>
    let q2 := skipSpaces q1
    if c = 'C' then (true, [.setHeatSafetyTemperature (aDecimalToInt q2).1])
    else if c = 'T' then (true, [.setHeatSafetyHold (aDecimalToInt q2).1])
    else if c = '1' ∨ c = '2' ∨ c = '3' then
      let pr1 := aHexToInt q2
      let pr2 := aHexToInt pr1.2
      let mm := if pr1.2 ≠ [] then pr2.1 % 256 else 0
      let rest2 := if pr1.2 ≠ [] then pr2.2 else pr1.2
      let pr3 := aHexToInt rest2
      let tc := if rest2 ≠ [] then pr3.1 % 256 else 0
      (true, [.setHeatSafetyTriple (c.toNat - '1'.toNat) ⟨pr1.1 % 256, mm, tc⟩])
    else (false, [])

/-- The `SE` branch body (argument: the text after `SE`); an out-of-range
entry number is rejected before any mutation. -/
def mainSeCommand (q0 : List Char) : Bool × List MainEffect :=
  let prw := aDecimalToInt (skipSpaces q0)
  if prw.1 % 256 ≥ NUM_SCHEDULE_TEMPERATURE_ENTRIES then (false, [])
  else
    let pd := aDecimalToInt prw.2
    let ph := aDecimalToInt pd.2
    let pm := aDecimalToInt ph.2
    let pw := aHexToInt pm.2
    (true, [.setScheduleEntry (prw.1 % 256) (pd.1 >>> 1 % 256) (ph.1 % 32)
      (pm.1 % 64) (pw.1 % 128) (cAt pw.2 0 = '1')])

/-- The sketch's `ProcessCommand(cmd, len)`: the guarded else-if chain, in
source order.  Returns the handled flag and the effects performed. -/
def mainProcessCommand (cmd : List Char) : Bool × List MainEffect :=
  if cAt cmd 0 = 'T' ∧ cAt cmd 1 = '=' then (true, [mainRtcEffect cmd])
  else if toupperC (cAt cmd 0) = 'I' then (true, [.radioPrintInfo])
  else if toupperC (cAt cmd 0) = 'H' ∧ toupperC (cAt cmd 1) = 'V' ∧
      isspaceC (cAt cmd 2) = true then
    (true, [.setWireNames (cmd.drop 2)])
  else if toupperC (cAt cmd 0) = 'D' ∧ toupperC (cAt cmd 1) = 'U' ∧
      cAt cmd 2 = '=' then
    (true, [.setDisplayUnits (cAt cmd 3 = 'F')])
  else match strstrFind cmd COMPRESSOR_kw with
  | some qf => mainCompressorCommand (qf.drop COMPRESSOR_kw.length)
  | none =>
    if cmd = ("RH").toList then (true, [.radioHvacReport])
    else if toupperC (cAt cmd 0) = 'H' ∧ toupperC (cAt cmd 1) = 'S' then
      mainHsCommand (cmd.drop 2)
    else if toupperC (cAt cmd 0) = 'S' ∧ toupperC (cAt cmd 1) = 'E' then
      mainSeCommand (cmd.drop 2)
    else (false, [])

/-- `routeCommand`: radio-library stage (a parameter — that code is not in
this repository), then the sketch stage, then the active mode's handler
(also a parameter, instantiated per mode); the first two run only for
addressed (`toMe`) traffic.  Also returns the `USE_SERIAL >=
SERIAL_PORT_VERBOSE` serial prints of the serial-path call (`senderid`
absent): the unconditional command echo and the acceptance messages. -/
def routeCommand {σ : Type} (radioApply : List Char → Bool)
    (hvacStage : σ → List Char → Bool × σ) (st : σ)
    (cmd : List Char) (toMe : Bool) :
    Bool × σ × List MainEffect × List (List Char) :=
  let echo := ("Command: ").toList ++ cmd
  if toMe && radioApply cmd then
    (true, st, [], [echo, ("Command accepted for radio").toList])
  else if toMe && (mainProcessCommand cmd).1 then
    (true, st, (mainProcessCommand cmd).2,
      [echo, ("Command accepted for main").toList])
  else
    let r := hvacStage st cmd
    if r.1 then (true, r.2, [], [echo, ("Command accepted for HVAC").toList])
    else (false, r.2, [], [echo])

/-- One full serial line in `loop()`: `routeCommand(cmdbuf, charsInBuf)`
then, unconditionally, `Serial.println(F("ready>"))`. -/
def serialLineStep {σ : Type} (radioApply : List Char → Bool)
    (hvacStage : σ → List Char → Bool × σ) (st : σ) (cmd : List Char) :
    (Bool × σ × List MainEffect) × List (List Char) :=
  let r := routeCommand radioApply hvacStage st cmd true
  ((r.1, r.2.1, r.2.2.1), r.2.2.2 ++ [("ready>").toList])

/-! ## Commit / reload of the Auto instance (HvacAuto::CommitSettings /
ReadSettings chains)

`CommitSettings` writes, at `AddressOfModeTypeSettings(HVAC_AUTO, mode)`,
the concatenation of the four settings layers in inheritance order:
the 6-byte name (`HvacCommands::WriteEprom`), the 17-byte
`OverrideAndDriveFromSensors::Settings`, the 4-byte `HvacCool::Settings`
and the 7-byte `HvacAuto::Settings` (AVR little-endian, no padding).
`ReadSettings` reads them back from the same address; the name layer
(`HvacCommands::ReadEprom`) overwrites the in-memory name only when the
first byte is not 0xFF, the other three layers read unconditionally. -/

/-- Little-endian bytes of an int16 value (two's complement). -/
def bytesI16 (z : Int) : List Nat := bytes16 (toUInt16n z)

/-- Byte image of `OverrideAndDriveFromSensors::Settings` (declaration
order, little-endian). -/
def serializeSensorSettings (s : SensorSettings) : List Nat :=
  bytesI16 s.TemperatureTargetDegreesCx10 ++
  bytesI16 s.TemperatureActivateDegreesCx10 ++
  bytes32 s.SensorMask ++
  [s.MaskFanOnly, s.AlwaysOnMask, s.OutputStage1, s.OutputStage2,
    s.OutputStage3] ++
  bytes16 s.SecondsToSecondStage ++ bytes16 s.SecondsToThirdStage

/-- Byte image of `HvacCool::Settings`. -/
def serializeCoolSettings (c : CoolSettings) : List Nat :=
  [c.MaskDehumidifyBitsOn, c.MaskDehumidifyBitsOff] ++
  bytes16 c.HumiditySettingX10

/-- Byte image of `HvacAuto::Settings`. -/
def serializeAutoSettings (a : AutoSettings) : List Nat :=
  bytesI16 a.TemperatureTargetHeatDegreesCx10 ++
  bytesI16 a.TemperatureActivateHeatDegreesCx10 ++
  [a.HeatMaskStage1, a.HeatMaskStage2, a.HeatMaskStage3]

/-- The 34-byte record `HvacAuto::WriteEprom` emits: name, sensor layer,
cool layer, auto layer. -/
def autoSerialize (nm : List Nat) (s : SensorSettings) (c : CoolSettings)
    (a : AutoSettings) : List Nat :=
  nm ++ serializeSensorSettings s ++ serializeCoolSettings c ++
    serializeAutoSettings a

/-- `HvacAuto::CommitSettings`: write the serialized record at the
instance's settings address. -/
def autoCommitSettings (start : Nat) (e : Eeprom) (mode : Nat)
    (nm : List Nat) (s : SensorSettings) (c : CoolSettings)
    (a : AutoSettings) : Eeprom :=
  eepromWriteBytes e (AddressOfModeTypeSettings start e HVAC_AUTO mode)
    (autoSerialize nm s c a)

/-- The field decoding performed by the `HvacAuto::ReadEprom` chain at a
given base address: the name bytes are taken only when the first is not
0xFF (else the in-memory name `nm` is kept); the three settings layers
read unconditionally at their layout offsets. -/
def autoDecode (e : Eeprom) (addr : Nat) (nm : List Nat) :
    List Nat × SensorSettings × CoolSettings × AutoSettings :=
  (if eepromRead e addr ≠ 255 then
      [eepromRead e addr, eepromRead e (addr + 1), eepromRead e (addr + 2),
       eepromRead e (addr + 3), eepromRead e (addr + 4), eepromRead e (addr + 5)]
    else nm,
   { TemperatureTargetDegreesCx10 :=
       toInt16 (eepromRead e (addr + 6) + 256 * eepromRead e (addr + 7))
     TemperatureActivateDegreesCx10 :=
       toInt16 (eepromRead e (addr + 8) + 256 * eepromRead e (addr + 9))
     SensorMask := eepromRead e (addr + 10) + 256 * eepromRead e (addr + 11) +
       65536 * eepromRead e (addr + 12) + 16777216 * eepromRead e (addr + 13)
     MaskFanOnly := eepromRead e (addr + 14)
     AlwaysOnMask := eepromRead e (addr + 15)
     OutputStage1 := eepromRead e (addr + 16)
     OutputStage2 := eepromRead e (addr + 17)
     OutputStage3 := eepromRead e (addr + 18)
     SecondsToSecondStage :=
       eepromRead e (addr + 19) + 256 * eepromRead e (addr + 20)
     SecondsToThirdStage :=
       eepromRead e (addr + 21) + 256 * eepromRead e (addr + 22) },
   { MaskDehumidifyBitsOn := eepromRead e (addr + 23)
     MaskDehumidifyBitsOff := eepromRead e (addr + 24)
     HumiditySettingX10 :=
       eepromRead e (addr + 25) + 256 * eepromRead e (addr + 26) },
   { TemperatureTargetHeatDegreesCx10 :=
       toInt16 (eepromRead e (addr + 27) + 256 * eepromRead e (addr + 28))
     TemperatureActivateHeatDegreesCx10 :=
       toInt16 (eepromRead e (addr + 29) + 256 * eepromRead e (addr + 30))
     HeatMaskStage1 := eepromRead e (addr + 31)
     HeatMaskStage2 := eepromRead e (addr + 32)
     HeatMaskStage3 := eepromRead e (addr + 33) })

/-- `HvacAuto::ReadSettings`: decode at the instance's settings address,
computed from the current EEPROM contents. -/
def autoReadSettings (start : Nat) (e : Eeprom) (mode : Nat)
    (nm : List Nat) : List Nat × SensorSettings × CoolSettings × AutoSettings :=
  autoDecode e (AddressOfModeTypeSettings start e HVAC_AUTO mode) nm

theorem toUInt16n_lt (z : Int) : toUInt16n z < 65536 := by
  unfold toUInt16n
  omega

theorem toInt16_toUInt16n (z : Int) (h1 : -32768 ≤ z) (h2 : z ≤ 32767) :
    toInt16 (toUInt16n z) = z := by
  unfold toInt16 toUInt16n
  split <;> omega

/-- The settings address depends on the EEPROM contents only through the
per-type instance counts. -/
theorem AddressOfModeTypeSettings_congr (start : Nat) (e1 e2 : Eeprom)
    (t : HvacTypes) (which : Nat)
    (h : ∀ u, NumberOfModesInType start e1 u = NumberOfModesInType start e2 u) :
    AddressOfModeTypeSettings start e1 t which =
      AddressOfModeTypeSettings start e2 t which := by
  cases t <;> unfold AddressOfModeTypeSettings <;>
    simp only [AddressOfRaw, AddressOfRawAuto, AddressOfRawCool,
      AddressOfRawHeat, AddressOfRawMap, AddressOfRawPass, h]

/-- Writing the 34-byte record at or after the mode region leaves the
per-type count bytes unchanged, so the settings address recomputes to the
same value after a commit. -/
theorem AddressOfModeTypeSettings_write_stable (start : Nat) (e : Eeprom)
    (mode : Nat) (L : List Nat) (hstart : start ≤ 26407)
    (hw : mode ≤ NumberOfModesInType start e HVAC_AUTO) :
    AddressOfModeTypeSettings start
      (eepromWriteBytes e (AddressOfModeTypeSettings start e HVAC_AUTO mode) L)
      HVAC_AUTO mode = AddressOfModeTypeSettings start e HVAC_AUTO mode := by
  have hAge : start + 6 ≤ AddressOfModeTypeSettings start e HVAC_AUTO mode := by
    unfold AddressOfModeTypeSettings
    split
    · omega
    · rw [Nat.mod_eq_of_lt (AddressOfRaw_lt_65536 start e HVAC_AUTO mode hstart hw)]
      simp only [AddressOfRaw, AddressOfRawAuto, AddressOfRawCool,
        AddressOfRawHeat, AddressOfRawMap, AddressOfRawPass,
        HVAC_MODES_EEPROM_START_ADDR, HVAC_NUMBER_OF_MODES_IN_TYPE_ADDR,
        HVAC_EEPROM_TYPE_AND_MODE_ADDR, HVAC_SAVED_TYPE_AND_MODE_SIZE,
        NUMBER_OF_HVAC_TYPES_IN_EEPROM, NUMBER_OF_HVAC_TYPES]
      omega
  have hcount : ∀ t, NumberOfModesInType start
      (eepromWriteBytes e (AddressOfModeTypeSettings start e HVAC_AUTO mode) L) t
      = NumberOfModesInType start e t := by
    intro t
    by_cases hp : t = HVAC_PASSTHROUGH
    · simp [hp, NumberOfModesInType]
    · have hca : modeCountAddr start t ≤ start + 5 := by
        cases t <;>
          simp only [modeCountAddr, hvacTypeIdx, HVAC_NUMBER_OF_MODES_IN_TYPE_ADDR,
            HVAC_EEPROM_TYPE_AND_MODE_ADDR, HVAC_SAVED_TYPE_AND_MODE_SIZE] <;>
          omega
      have hre : eepromRead
          (eepromWriteBytes e (AddressOfModeTypeSettings start e HVAC_AUTO mode) L)
          (modeCountAddr start t) = eepromRead e (modeCountAddr start t) := by
        simp only [eepromRead]
        rw [eepromWriteBytes_lt e _ L _ (by omega)]
      unfold NumberOfModesInType
      rw [if_neg hp, if_neg hp, hre]
  exact AddressOfModeTypeSettings_congr start _ e HVAC_AUTO mode hcount

/-! ## Claim theorems -/

/-- C2: For every per-type instance count vector and every instance index
`which` not exceeding the type's count, the persisted settings address of
mode instance (t, which) equals base(t) + which * recordSize(t), where the
bases chain exactly as the spec describes (PassThrough at the fixed start
of the mode-settings region, each next type's base at the previous base
plus previous count times previous record size); consecutive instances of
one type are spaced by exactly the record size; the first instance of the
next type begins exactly where the previous type's last instance ends; and
changing one type's count shifts every higher type's addresses by exactly
the count delta times that type's record size while touching no stored
byte other than the count byte itself.  (Hypothesis: the EEPROM start of
the HVAC region is small enough that the uint16 address arithmetic never
wraps; on the ATmega32U4 the region starts well below this bound.) -/
theorem C2_settings_address_layout (start : Nat) (e : Eeprom)
    (hstart : start ≤ 26407) :
    (∀ t which, which ≤ NumberOfModesInType start e t →
      AddressOfModeTypeSettings start e t which =
        specTypeBase start e t + which * settingsRecordSize t)
    ∧ specTypeBase start e HVAC_PASSTHROUGH = HVAC_MODES_EEPROM_START_ADDR start
    ∧ (∀ t which, which + 1 ≤ NumberOfModesInType start e t →
      AddressOfModeTypeSettings start e t (which + 1) =
        AddressOfModeTypeSettings start e t which + settingsRecordSize t)
    ∧ (∀ t t', nextHvacType t = some t' →
      AddressOfModeTypeSettings start e t' 0 =
        AddressOfModeTypeSettings start e t (NumberOfModesInType start e t))
    ∧ (∀ T b t' i, T ≠ HVAC_PASSTHROUGH → hvacTypeIdx T < hvacTypeIdx t' →
      i ≤ NumberOfModesInType start e t' →
      AddressOfModeTypeSettings start (SetNumberOfModesInType start e T b) t' i
          + NumberOfModesInType start e T * settingsRecordSize T
        = AddressOfModeTypeSettings start e t' i
          + NumberOfModesInType start (SetNumberOfModesInType start e T b) T
              * settingsRecordSize T)
    ∧ (∀ T b a, a ≠ modeCountAddr start T →
      SetNumberOfModesInType start e T b a = e a) := by
  refine ⟨?_, rfl, ?_, ?_, ?_, ?_⟩
  · intro t which hw
    rw [AddressOfModeTypeSettings_eq_raw start e t which hstart hw,
      AddressOfRaw_eq_specBase]
  · intro t which hw
    rw [AddressOfModeTypeSettings_eq_raw start e t (which + 1) hstart hw,
      AddressOfModeTypeSettings_eq_raw start e t which hstart (by omega),
      AddressOfRaw_eq_specBase, AddressOfRaw_eq_specBase]
    ring
  · intro t t' hnx
    rw [AddressOfModeTypeSettings_eq_raw start e t' 0 hstart (Nat.zero_le _),
      AddressOfModeTypeSettings_eq_raw start e t _ hstart (Nat.le_refl _)]
    cases t <;> simp only [nextHvacType, Option.some.injEq, reduceCtorEq] at hnx <;>
      subst hnx <;>
      simp [AddressOfRaw, AddressOfRawMap, AddressOfRawHeat, AddressOfRawCool,
        AddressOfRawAuto]
  · intro T b t' i hTp hlt hi
    have hfix : ∀ u, u ≠ T →
        NumberOfModesInType start (SetNumberOfModesInType start e T b) u =
          NumberOfModesInType start e u :=
      fun u hu => NumberOfModesInType_set_other start e T b u hTp hu
    have ht'T : t' ≠ T := by
      intro h; subst h; omega
    have hi' : i ≤ NumberOfModesInType start (SetNumberOfModesInType start e T b) t' := by
      rw [hfix t' ht'T]; exact hi
    rw [AddressOfModeTypeSettings_eq_raw start _ t' i hstart hi',
      AddressOfModeTypeSettings_eq_raw start e t' i hstart hi]
    cases T with
    | HVAC_PASSTHROUGH => exact absurd rfl hTp
    | HVAC_MAPINPUTTOOUTPUT =>
      have hH := hfix HVAC_HEAT (by decide)
      have hC := hfix HVAC_COOL (by decide)
      cases t' <;> simp only [hvacTypeIdx] at hlt <;> first
        | omega
        | (simp only [AddressOfRaw, AddressOfRawMap, AddressOfRawHeat,
            AddressOfRawCool, AddressOfRawAuto, AddressOfRawPass,
            NumberOfModesInType_pass, hH, hC, settingsRecordSize,
            sizeofHvacCommandsSettings, sizeofMapInputToOutputSettings,
            sizeofOverrideSettings, sizeofHvacCoolSettings, sizeofHvacAutoSettings,
            NUM_INPUT_SIGNAL_COMBINATIONS, NUM_HVAC_INPUT_SIGNALS,
            BN_LAST_SIGNAL, BN_FIRST_SIGNAL, NAME_LENGTH]
           omega)
    | HVAC_HEAT =>
      have hM := hfix HVAC_MAPINPUTTOOUTPUT (by decide)
      have hC := hfix HVAC_COOL (by decide)
      cases t' <;> simp only [hvacTypeIdx] at hlt <;> first
        | omega
        | (simp only [AddressOfRaw, AddressOfRawMap, AddressOfRawHeat,
            AddressOfRawCool, AddressOfRawAuto, AddressOfRawPass,
            NumberOfModesInType_pass, hM, hC, settingsRecordSize,
            sizeofHvacCommandsSettings, sizeofMapInputToOutputSettings,
            sizeofOverrideSettings, sizeofHvacCoolSettings, sizeofHvacAutoSettings,
            NUM_INPUT_SIGNAL_COMBINATIONS, NUM_HVAC_INPUT_SIGNALS,
            BN_LAST_SIGNAL, BN_FIRST_SIGNAL, NAME_LENGTH]
           omega)
    | HVAC_COOL =>
      have hM := hfix HVAC_MAPINPUTTOOUTPUT (by decide)
      have hH := hfix HVAC_HEAT (by decide)
      cases t' <;> simp only [hvacTypeIdx] at hlt <;> first
        | omega
        | (simp only [AddressOfRaw, AddressOfRawMap, AddressOfRawHeat,
            AddressOfRawCool, AddressOfRawAuto, AddressOfRawPass,
            NumberOfModesInType_pass, hM, hH, settingsRecordSize,
            sizeofHvacCommandsSettings, sizeofMapInputToOutputSettings,
            sizeofOverrideSettings, sizeofHvacCoolSettings, sizeofHvacAutoSettings,
            NUM_INPUT_SIGNAL_COMBINATIONS, NUM_HVAC_INPUT_SIGNALS,
            BN_LAST_SIGNAL, BN_FIRST_SIGNAL, NAME_LENGTH]
           omega)
    | HVAC_AUTO =>
      cases t' <;> simp only [hvacTypeIdx] at hlt <;> omega
  · intro T b a ha
    unfold SetNumberOfModesInType
    split
    · rfl
    · simp [eepromWrite, ha]

/-- Witness for C2 at a concrete EEPROM start and count bytes. -/
theorem C2_settings_address_layout_witness :
    AddressOfModeTypeSettings 141 (fun _ => 2) HVAC_HEAT 1 =
      specTypeBase 141 (fun _ => 2) HVAC_HEAT + 1 * settingsRecordSize HVAC_HEAT :=
  (C2_settings_address_layout 141 (fun _ => 2) (by norm_num)).1 HVAC_HEAT 1 (by decide)

/-- C1 counterexample: the claim's own concrete scenario fails on the
code.  With sensors 8 and 9 enabled, sender 9 reports at t = 0; the claim
says sender 8's report at t = 100 s (< 900 s) is ignored.  The code's
arbitration test `senderid > lastHeardSensorId` ignores a HIGHER-numbered
newcomer, so sender 8's report at t = 100 s is accepted: it becomes the
tracked sensor (lastHeardSensorId = 8, lastHeardFromSensor = 100000 ms)
rather than leaving the state unchanged. -/
theorem C1_counterexample :
    let s : SensorSettings := ⟨200, 194, 768, 16, 4, 8, 16, 32, 900, 1200⟩
    let st0 := sensorInitializeState
      ⟨0, 0, 0, .STATE_OFF, false, 0, .DEHUMDIFY_OFF, .HEAT_OFF, 0⟩ 0
    let r1 := sensorReport (heatVirtuals s) s st0 0 9 (("T:+20.0").toList) 7
    let r2 := sensorReport (heatVirtuals s) s r1.2.1 100000 8 (("T:+20.0").toList) 7
    r1.2.1.lastHeardSensorId = 9 ∧ r2.2.1.lastHeardSensorId = 8 ∧
      r2.2.1.lastHeardFromSensor = 100000 ∧ r2.1 = true := by
  decide

/-- C1 amended: in every sensor-driven mode, a temperature report from a
sender whose bit is set in SensorMask is accepted and acted on unless a
nonzero, strictly LOWER-numbered sender has reported within the last 15
minutes, in which case the report is ignored (handled, but with no state
change and no output): the static priority goes to lower-numbered senders,
not higher-numbered ones. -/
theorem C1_sensor_arbitration_amended (virt : SensorVirtuals)
    (s : SensorSettings) (cs : CoolSettings) (a : AutoSettings)
    (st : RunState) (now senderid : Nat) (cmd : List Char) (len : Nat)
    (hv : virt = heatVirtuals s ∨ virt = coolVirtuals s cs ∨
      virt = autoVirtuals s cs a)
    (hmask : s.SensorMask &&& ((1 <<< senderid) % 4294967296) ≠ 0) :
    (st.lastHeardSensorId > 0 → senderid > st.lastHeardSensorId →
      sub32 now st.lastHeardFromSensor < SENSOR_TIMEOUT_MSEC →
      sensorReport virt s st now senderid cmd len = (true, st, []))
    ∧ (¬(st.lastHeardSensorId > 0 ∧ senderid > st.lastHeardSensorId ∧
        sub32 now st.lastHeardFromSensor < SENSOR_TIMEOUT_MSEC) →
      (sensorReport virt s st now senderid cmd len).2.1.lastHeardSensorId = senderid ∧
      (sensorReport virt s st now senderid cmd len).2.1.lastHeardFromSensor = now ∧
      (parseForColon 'T' cmd len ≠ -1 →
        (sensorReport virt s st now senderid cmd len).1 = true)) := by
  constructor
  · intro h1 h2 h3
    simp only [sensorReport, if_pos hmask]
    rw [if_pos ⟨h1, h2, h3⟩]
  · intro hnign
    have h3 : parseForColon 'T' cmd len ≠ -1 →
        (sensorReport virt s st now senderid cmd len).1 = true := by
      intro hptm
      simp only [sensorReport, if_pos hmask]
      rw [if_neg hnign, if_neg hptm]
    have hacc : (sensorReport virt s st now senderid cmd len).2.1.lastHeardSensorId = senderid ∧
        (sensorReport virt s st now senderid cmd len).2.1.lastHeardFromSensor = now := by
      apply sensorReport_accepted virt s st now senderid cmd len hmask hnign
      · intro st0 deg
        rcases hv with h | h | h <;> subst h
        · exact ⟨rfl, rfl⟩
        · exact ⟨rfl, rfl⟩
        · exact autoOnReceivedTemperatureInput_lastHeard s st0 deg
      · intro st0 n deg m
        rcases hv with h | h | h <;> subst h
        · exact ⟨rfl, rfl⟩
        · exact ⟨rfl, rfl⟩
        · exact autoOnReceivedTemperatureInput2_lastHeard s a st0 n deg m
      · intro st0 rh deg m
        rcases hv with h | h | h <;> subst h
        · exact ⟨rfl, rfl⟩
        · exact coolOnReceivedHumidityInput_lastHeard s cs st0 rh deg m
        · exact autoOnReceivedHumidityInput_lastHeard s cs st0 rh deg m
    exact ⟨hacc.1, hacc.2, h3⟩

/-- Witness for the amended C1: with sender 8 tracked at t = 0, sender 9's
report at t = 100 s is ignored: handled, state unchanged, no output. -/
theorem C1_sensor_arbitration_amended_witness :
    sensorReport (heatVirtuals ⟨200, 194, 768, 16, 4, 8, 16, 32, 900, 1200⟩)
      ⟨200, 194, 768, 16, 4, 8, 16, 32, 900, 1200⟩
      ⟨0, 8, 0, .STATE_OFF, false, 0, .DEHUMDIFY_OFF, .HEAT_OFF, 0⟩
      100000 9 (("T:+20.0").toList) 7 =
      (true, ⟨0, 8, 0, .STATE_OFF, false, 0, .DEHUMDIFY_OFF, .HEAT_OFF, 0⟩, []) :=
  (C1_sensor_arbitration_amended _ _ ⟨0, 0, 0⟩ ⟨0, 0, 0, 0, 0⟩ _ 100000 9 _ 7
    (Or.inl rfl) (by decide)).1 (by decide) (by decide) (by decide)

/-- C3: In a sensor-driven mode that is OFF, a qualifying temperature
report transitions the run state to STAGE1, records the stage-1 entry time
and requests the stage-1 output mask; while the mode remains active, the
requested output mask is OutputStage1 while elapsed time since stage-1
entry is below SecondsToSecondStage, OutputStage2 while it is at least
SecondsToSecondStage but below SecondsToThirdStage, and OutputStage3 once
it reaches SecondsToThirdStage — both on the report path and on the loop
path, with elapsed time always measured from the recorded stage-1 entry
time, which neither path resets when advancing to a later stage. -/
theorem C3_staged_activation (s : SensorSettings) (st : RunState)
    (now senderid : Nat) (cmd : List Char) (len : Nat) (t : Int)
    (hmask : s.SensorMask &&& ((1 <<< senderid) % 4294967296) ≠ 0)
    (hnign : ¬(st.lastHeardSensorId > 0 ∧ senderid > st.lastHeardSensorId ∧
      sub32 now st.lastHeardFromSensor < SENSOR_TIMEOUT_MSEC))
    (ht : parseForColon 'T' cmd len = t) (htm1 : t ≠ -1)
    (hr : parseForColon 'R' cmd len ≤ 0)
    (hfan : st.fanIsOn = false) :
    (st.fancoilState = .STATE_OFF → t ≤ s.TemperatureActivateDegreesCx10 →
      sensorReport (heatVirtuals s) s st now senderid cmd len =
        (true,
         { st with
            lastHeardFromSensor := now
            lastHeardSensorId := senderid
            previousActual := toUInt16n t
            fancoilState := .STATE_STAGE1
            timeEnteredStage1 := now },
         [.update s.OutputStage1]))
    ∧ (st.fancoilState ≠ .STATE_OFF → t < s.TemperatureTargetDegreesCx10 →
      sensorReport (heatVirtuals s) s st now senderid cmd len =
        (true,
         { st with
            lastHeardFromSensor := now
            lastHeardSensorId := senderid
            previousActual := toUInt16n t },
         [.update
           (if toInt32 (sub32 now st.timeEnteredStage1) ≥ (s.SecondsToThirdStage : Int) * 1000
            then s.OutputStage3
            else if toInt32 (sub32 now st.timeEnteredStage1) ≥ (s.SecondsToSecondStage : Int) * 1000
            then s.OutputStage2
            else s.OutputStage1)]))
    ∧ (st.fancoilState ≠ .STATE_OFF →
      ¬(toInt32 (sub32 now st.lastHeardFromSensor) > (s.SecondsToThirdStage : Int) * 2000) →
      (sensorLoop s st now).1.timeEnteredStage1 = st.timeEnteredStage1 ∧
      (sensorLoop s st now).1.fancoilState =
        (if toInt32 (sub32 now st.timeEnteredStage1) ≥ (s.SecondsToThirdStage : Int) * 1000
         then .STATE_STAGE3
         else if toInt32 (sub32 now st.timeEnteredStage1) ≥ (s.SecondsToSecondStage : Int) * 1000
         then .STATE_STAGE2
         else st.fancoilState) ∧
      (sensorLoop s st now).2 =
        (if toInt32 (sub32 now st.timeEnteredStage1) ≥ (s.SecondsToThirdStage : Int) * 1000
         then (if st.fancoilState ≠ .STATE_STAGE3 then [.update s.OutputStage3] else [])
         else if toInt32 (sub32 now st.timeEnteredStage1) ≥ (s.SecondsToSecondStage : Int) * 1000
         then (if st.fancoilState ≠ .STATE_STAGE2 then [.update s.OutputStage2] else [])
         else [])) := by
  have hrn : ¬(parseForColon 'R' cmd len > 0) := not_lt.mpr hr
  refine ⟨?_, ?_, ?_⟩
  · intro hoff hq
    simp only [sensorReport, if_pos hmask]
    rw [if_neg hnign, ht, if_neg htm1]
    simp only [heatVirtuals, heatOnReceivedTemperatureInput, hrn, hoff, hfan]
    simp [hq, hfan]
  · intro hon hq
    simp only [sensorReport, if_pos hmask]
    rw [if_neg hnign, ht, if_neg htm1]
    simp only [heatVirtuals, heatOnReceivedTemperatureInput, hrn, hfan]
    simp only [if_neg hon]
    simp [hq, hon, hfan]
  · intro hon hnto
    simp only [sensorLoop, isSensorTimedOut]
    rw [if_pos hon, if_neg hnto]
    dsimp only
    repeat' split
    all_goals simp_all

/-- Witness for C3 at the spec's concrete numbers: target = 0,
activate = -6 (-0.6 C), stage-2 at 900 s, stage-3 at 1200 s; with stage-1
entered at t = 0, a qualifying report (-1.0 C) at t = 950 s requests the
stage-2 output mask, and the stage-1 entry time is not advanced. -/
theorem C3_staged_activation_witness :
    sensorReport (heatVirtuals ⟨0, -6, 256, 16, 4, 8, 16, 32, 900, 1200⟩)
      ⟨0, -6, 256, 16, 4, 8, 16, 32, 900, 1200⟩
      ⟨0, 8, 0, .STATE_STAGE1, false, 0, .DEHUMDIFY_OFF, .HEAT_OFF, 0⟩
      950000 8 (("T:-1.0").toList) 6 =
      (true, ⟨950000, 8, 0, .STATE_STAGE1, false, 65526, .DEHUMDIFY_OFF, .HEAT_OFF, 0⟩,
       [.update 16]) := by
  have h := (C3_staged_activation ⟨0, -6, 256, 16, 4, 8, 16, 32, 900, 1200⟩
    ⟨0, 8, 0, .STATE_STAGE1, false, 0, .DEHUMDIFY_OFF, .HEAT_OFF, 0⟩
    950000 8 (("T:-1.0").toList) 6 (-10) (by decide) (by decide) (by decide)
    (by decide) (by decide) rfl).2.1 (by decide) (by decide)
  rw [h]
  decide

/-- C8 counterexample: a reachable state in which both Auto sub-machines
drive the output.  With cool target/activate 20.0/20.6 C and heat-side
target/activate 19.0/18.4 C, a report of 18.0 C enters the heat-side
machine (STAGE1, heat mask 32); a later report of 21.0 C passes Cool's
activation test, so the cool machine enters STAGE1 and drives its stage-1
mask (8) — while the heat-side state is left at HEAT_STAGE1, not reset.
From that state the next loop tick finds the heat side active and drives
the heat stage-2 mask (33) although the cool machine is still mid-stage:
both sub-machines have driven the output from one reachable state. -/
theorem C8_counterexample :
    let s : SensorSettings := ⟨200, 206, 256, 16, 4, 8, 8, 8, 900, 1200⟩
    let cs : CoolSettings := ⟨0, 0, 65535⟩
    let a : AutoSettings := ⟨190, 184, 32, 33, 34⟩
    let st0 := autoInitializeState a
      ⟨0, 0, 0, .STATE_OFF, false, 0, .DEHUMDIFY_OFF, .HEAT_OFF, 0⟩ 0
    let r1 := sensorReport (autoVirtuals s cs a) s st0 0 8 (("T:+18.0").toList) 7
    let r2 := sensorReport (autoVirtuals s cs a) s r1.2.1 60000 8 (("T:+21.0").toList) 7
    let l3 := autoLoop s a r2.2.1 1060000
    r1.2.1.heatState = .HEAT_STAGE1 ∧ r1.2.2 = [.update 32] ∧
      r2.2.1.fancoilState = .STATE_STAGE1 ∧ r2.2.1.heatState = .HEAT_STAGE1 ∧
      r2.2.2 = [.update 8] ∧
      l3.1.fancoilState = .STATE_STAGE1 ∧ l3.2 = [.update 33] := by
  decide

/-- C8 amended: in Auto mode the heat-side staged machine is evaluated
only when Cool's activation test returns false (when Cool's test passes,
the heat-side state is untouched and the cool machine alone computes the
output); from a state with both sub-machines OFF, no single report tick
can leave both driving; and each loop tick services exactly one
sub-machine (the heat side when it is active, otherwise the cool side).
However, the two machines are not exclusive across ticks: a report that
satisfies Cool's activation test while the heat side holds a stale active
state leaves both sub-machines non-OFF (see the counterexample). -/
theorem C8_auto_exclusivity_amended (s : SensorSettings) (cs : CoolSettings)
    (a : AutoSettings) (st : RunState) (now senderid : Nat) (cmd : List Char)
    (len : Nat) (t : Int)
    (hmask : s.SensorMask &&& ((1 <<< senderid) % 4294967296) ≠ 0)
    (hnign : ¬(st.lastHeardSensorId > 0 ∧ senderid > st.lastHeardSensorId ∧
      sub32 now st.lastHeardFromSensor < SENSOR_TIMEOUT_MSEC))
    (ht : parseForColon 'T' cmd len = t) (htm1 : t ≠ -1) :
    ((if st.fancoilState = .STATE_OFF then s.TemperatureActivateDegreesCx10 ≤ t
      else s.TemperatureTargetDegreesCx10 < t) →
      (sensorReport (autoVirtuals s cs a) s st now senderid cmd len).2.1.heatState =
        st.heatState)
    ∧ (st.fancoilState = .STATE_OFF → st.heatState = .HEAT_OFF →
      ¬((sensorReport (autoVirtuals s cs a) s st now senderid cmd len).2.1.fancoilState
          ≠ .STATE_OFF ∧
        (sensorReport (autoVirtuals s cs a) s st now senderid cmd len).2.1.heatState
          ≠ .HEAT_OFF))
    ∧ (st.heatState ≠ .HEAT_OFF →
      (autoLoop s a st now).1.fancoilState = st.fancoilState)
    ∧ (st.heatState = .HEAT_OFF →
      (autoLoop s a st now).1.heatState = .HEAT_OFF) := by
  refine ⟨?_, ?_, ?_, ?_⟩
  · intro hq
    have hq' : (autoOnReceivedTemperatureInput s
        { st with lastHeardFromSensor := now, lastHeardSensorId := senderid } t).1 = true := by
      have h1 : (autoOnReceivedTemperatureInput s
          { st with lastHeardFromSensor := now, lastHeardSensorId := senderid } t).1 =
          (if st.fancoilState = .STATE_OFF then
            decide (t ≥ s.TemperatureActivateDegreesCx10)
          else decide (t > s.TemperatureTargetDegreesCx10)) := by
        unfold autoOnReceivedTemperatureInput coolOnReceivedTemperatureInput
        dsimp only
        split <;> split <;> rfl
      rw [h1]
      by_cases hfc : st.fancoilState = .STATE_OFF
      · rw [if_pos hfc]
        rw [if_pos hfc] at hq
        exact decide_eq_true hq
      · rw [if_neg hfc]
        rw [if_neg hfc] at hq
        exact decide_eq_true hq
    have hptm' : parseForColon 'T' cmd len ≠ -1 := by rw [ht]; exact htm1
    have hneed' : (autoOnReceivedTemperatureInput s
        { st with lastHeardFromSensor := now, lastHeardSensorId := senderid }
        (parseForColon 'T' cmd len)).1 = true := by rw [ht]; exact hq'
    rw [autoSensorReport_heatState s cs a st now senderid cmd len hmask hnign
      hptm' hneed']
  · intro hoff hhoff
    rintro ⟨hfc, hhs⟩
    by_cases hptm : parseForColon 'T' cmd len = -1
    · apply hhs
      simp only [sensorReport, if_pos hmask]
      rw [if_neg hnign, if_pos hptm]
      exact hhoff
    · by_cases hneed : (autoOnReceivedTemperatureInput s
          { st with lastHeardFromSensor := now, lastHeardSensorId := senderid }
          (parseForColon 'T' cmd len)).1 = true
      · exact hhs ((autoSensorReport_heatState s cs a st now senderid cmd len
          hmask hnign hptm hneed).trans hhoff)
      · exact hfc (autoSensorReport_fancoilOff s cs a st now senderid cmd len
          hmask hnign hptm hneed)
  · intro hh
    simp only [autoLoop]
    rw [if_pos hh]
    dsimp only [isSensorTimedOut]
    repeat' split
    all_goals rfl
  · intro hh
    simp only [autoLoop]
    rw [if_neg (by simp [hh])]
    simp only [sensorLoop, isSensorTimedOut]
    repeat' split
    all_goals simp_all [hh]

/-- Witness for the amended C8: a report passing Cool's activation test
leaves the (active) heat-side state untouched. -/
theorem C8_auto_exclusivity_amended_witness :
    (sensorReport
      (autoVirtuals ⟨200, 206, 256, 16, 4, 8, 8, 8, 900, 1200⟩ ⟨0, 0, 65535⟩
        ⟨190, 184, 32, 33, 34⟩)
      ⟨200, 206, 256, 16, 4, 8, 8, 8, 900, 1200⟩
      ⟨0, 8, 0, .STATE_OFF, false, 0, .DEHUMDIFY_OFF, .HEAT_STAGE1, 0⟩
      60000 8 (("T:+21.0").toList) 7).2.1.heatState = .HEAT_STAGE1 :=
  (C8_auto_exclusivity_amended ⟨200, 206, 256, 16, 4, 8, 8, 8, 900, 1200⟩
    ⟨0, 0, 65535⟩ ⟨190, 184, 32, 33, 34⟩
    ⟨0, 8, 0, .STATE_OFF, false, 0, .DEHUMDIFY_OFF, .HEAT_STAGE1, 0⟩
    60000 8 (("T:+21.0").toList) 7 210
    (by decide) (by decide) (by decide) (by decide)).1 (by decide)

/-- C9 counterexample: `HVAC_SETTINGS 206` (Heat mode, activate omitted)
does not keep the prior in-memory activate temperature 211: the handler
recomputes it as target - 6 = 200. -/
theorem C9_counterexample :
    (hvacSettingsCommand ActivateTemperatureFromTargetHeat false
      ⟨206, 211, 768, 16, 4, 8, 16, 32, 900, 1200⟩
      (("206").toList)).1.TemperatureActivateDegreesCx10 = 200 ∧
    (206 : Int) - 6 = 200 ∧ (211 : Int) ≠ 200 := by
  decide

/-- C9 amended: for every partially specified settings command, the fields
present are applied field-by-field left-to-right and every trailing
omitted field keeps its prior in-memory value, EXCEPT for the documented
defaults: an omitted activate temperature is recomputed from the just-set
target (HVAC_SETTINGS via the mode's ActivateTemperatureFromTarget,
AUTO_SETTINGS as target - 0.6 C); AUTO_SETTINGS's stage-2/3 masks default
to the given stage-1 mask when omitted; and HUM_SETTINGS first resets the
humidity setpoint to the disabled sentinel. -/
theorem C9_partial_update_amended (actFromTarget : Int → Int)
    (fanIsOn : Bool) (s : SensorSettings) (c : CoolSettings)
    (a : AutoSettings) (q : List Char) :
    (hvacSettingsCommand actFromTarget fanIsOn s q).1 =
      hvacSettingsSpecApply actFromTarget s (parseSeq hvacSettingsFieldParsers q)
    ∧ humSettingsApply c q =
      (match q with
       | [] => { c with HumiditySettingX10 := 65535 }
       | _ :: q1 => humSettingsSpecApply c (parseSeq humSettingsFieldParsers q1))
    ∧ autoSettingsApply a q =
      (match q with
       | [] => a
       | _ :: q1 => autoSettingsSpecApply a (parseSeq autoSettingsFieldParsers q1)) := by
  refine ⟨?_, ?_, ?_⟩
  · simp only [hvacSettingsCommand, hvacSettingsSpecApply,
      hvacSettingsFieldParsers, parseSeq]
    by_cases h0 : (aDecimalToInt q).2 = []
    · simp only [if_pos h0]
      rfl
    · simp only [if_neg h0]
      by_cases h1 : (aDecimalToInt (aDecimalToInt q).2).2 = []
      · simp only [if_pos h1]
        rfl
      · simp only [if_neg h1]
        by_cases h2 : (aHexToInt (aDecimalToInt (aDecimalToInt q).2).2).2 = []
        · simp only [if_pos h2]
          rfl
        · simp only [if_neg h2]
          by_cases h3 : (aHexToInt (aHexToInt (aDecimalToInt (aDecimalToInt q).2).2).2).2 = []
          · simp only [if_pos h3]
            rfl
          · simp only [if_neg h3]
            by_cases h4 : (aHexToInt (aHexToInt (aHexToInt (aDecimalToInt (aDecimalToInt q).2).2).2).2).2 = []
            · simp only [if_pos h4]
              rfl
            · simp only [if_neg h4]
              by_cases h5 : (aHexToInt (aHexToInt (aHexToInt (aHexToInt (aDecimalToInt (aDecimalToInt q).2).2).2).2).2).2 = []
              · simp only [if_pos h5]
                rfl
              · simp only [if_neg h5]
                by_cases h6 : (aHexToInt (aHexToInt (aHexToInt (aHexToInt (aHexToInt (aDecimalToInt (aDecimalToInt q).2).2).2).2).2).2).2 = []
                · simp only [if_pos h6]
                  rfl
                · simp only [if_neg h6]
                  by_cases h7 : (aHexToInt (aHexToInt (aHexToInt (aHexToInt (aHexToInt (aHexToInt (aDecimalToInt (aDecimalToInt q).2).2).2).2).2).2).2).2 = []
                  · simp only [if_pos h7]
                    rfl
                  · simp only [if_neg h7]
                    by_cases h8 : (aDecimalToInt (aHexToInt (aHexToInt (aHexToInt (aHexToInt (aHexToInt (aHexToInt (aDecimalToInt (aDecimalToInt q).2).2).2).2).2).2).2).2).2 = []
                    · simp only [if_pos h8]
                      rfl
                    · simp only [if_neg h8]
                      rfl
  · cases q with
    | nil => rfl
    | cons c0 q1 =>
      simp only [humSettingsApply, humSettingsSpecApply,
        humSettingsFieldParsers, parseSeq]
      by_cases h0 : (aDecimalToInt q1).2 = []
      · simp only [if_pos h0]
        rfl
      · simp only [if_neg h0]
        by_cases h1 : (aHexToInt (aDecimalToInt q1).2).2 = []
        · simp only [if_pos h1]
          rfl
        · simp only [if_neg h1]
          rfl
  · cases q with
    | nil => rfl
    | cons c0 q1 =>
      simp only [autoSettingsApply, autoSettingsSpecApply,
        autoSettingsFieldParsers, parseSeq]
      by_cases h0 : (aDecimalToInt q1).2 = []
      · simp only [if_pos h0]
        rfl
      · simp only [if_neg h0]
        by_cases h1 : (aDecimalToInt (aDecimalToInt q1).2).2 = []
        · simp only [if_pos h1]
          rfl
        · simp only [if_neg h1]
          by_cases h2 : (aHexToInt (aDecimalToInt (aDecimalToInt q1).2).2).2 = []
          · simp only [if_pos h2]
            rfl
          · simp only [if_neg h2]
            by_cases h3 : (aHexToInt (aHexToInt (aDecimalToInt (aDecimalToInt q1).2).2).2).2 = []
            · simp only [if_pos h3]
              rfl
            · simp only [if_neg h3]
              rfl

/-- C7: In MapInputToOutput mode, the inputs are masked to the input-legal
bits and right-shifted past the R bit to form a 0–63 index; the output is
table[index], except that the sentinel 0xFF maps the masked inputs through
unchanged (for the 64 R-less input combinations, that is the index shifted
back into signal position).  After the spec's 8 `HVACMAP=0x<addr>` commands
covering addresses 0–63 (each writing 8 values equal to the address) have
been applied to a fresh table, all commands are accepted and evaluation of
every one of the 64 input combinations returns exactly the value written
at that combination's derived address. -/
theorem C7_map_round_trip :
    (∀ (tbl : List Nat) (idx : Nat), idx < 64 →
      mapOnInputsChanged tbl (idx <<< 1) =
        (if tbl.getD idx 0 = 255 then idx <<< 1 else tbl.getD idx 0))
    ∧ mapRoundTripResult.1 = true
    ∧ (∀ idx, idx < 64 →
      mapRoundTripResult.2.getD idx 0 = 8 * (idx / 8) ∧
      mapOnInputsChanged mapRoundTripResult.2 (idx <<< 1) = 8 * (idx / 8)) := by
  refine ⟨?_, rfl, ?_⟩
  · intro tbl idx hidx
    simp only [mapOnInputsChanged]
    have hm : INPUT_SIGNAL_MASK = 127 := rfl
    have h1 : (idx <<< 1) &&& INPUT_SIGNAL_MASK = idx <<< 1 := by
      rw [hm]
      have h2 := Nat.and_pow_two_sub_one_eq_mod (idx <<< 1) 7
      norm_num at h2
      rw [h2]
      exact Nat.mod_eq_of_lt (by omega)
    have h3 : (idx <<< 1) >>> BN_FIRST_SIGNAL = idx := by
      show (idx <<< 1) >>> 1 = idx
      omega
    rw [h1, h3]
  · intro idx hidx
    have hall : ((List.range 64).all fun i =>
        decide (mapRoundTripResult.2.getD i 0 = 8 * (i / 8)) &&
        decide (mapOnInputsChanged mapRoundTripResult.2 (i <<< 1) = 8 * (i / 8))) = true := by
      decide
    simp only [List.all_eq_true, List.mem_range] at hall
    have hthis := hall idx hidx
    simp only [Bool.and_eq_true, decide_eq_true_eq] at hthis
    exact hthis

/-- Witness for C7 at concrete inputs: a fresh all-sentinel table maps the
input combination with index 5 straight through. -/
theorem C7_map_round_trip_witness :
    mapOnInputsChanged (List.replicate 64 255) (5 <<< 1) =
      (if (List.replicate 64 255).getD 5 0 = 255 then 5 <<< 1
       else (List.replicate 64 255).getD 5 0) :=
  C7_map_round_trip.1 (List.replicate 64 255) 5 (by norm_num)

/-- C4: With a compressor mask and hold time configured, an output update
that transitions the compressor bit-group from asserted to deasserted
starts the hold timer at the current time; while the timer is active every
physically written output has the compressor bit-group forced off (within
the output-legal bits) regardless of the requested mask, and the lockout
flag stays set through output updates and through loop ticks within the
hold window; once `now - start` exceeds the configured hold, the loop
clears the flag and rewrites the last requested output with the compressor
group honored again. -/
theorem C4_compressor_lockout (cfg : SafetyCfg) (fs : FurnaceSt)
    (now mask0 m : Nat) :
    (fs.CompressorOffTimeActive = false → fs.HeatSafetyOffTimeActive = false →
      fs.OutputRegister &&& getCompressorMask cfg ≠ 0 →
      (mask0 &&& OUTPUT_SIGNAL_MASK) &&& getCompressorMask cfg = 0 →
      (UpdateOutputs cfg fs now mask0).CompressorOffTimeActive = true ∧
      (UpdateOutputs cfg fs now mask0).CompressorOffStartTime = now)
    ∧ (fs.CompressorOffTimeActive = true →
      (UpdateOutputs cfg fs now m).CompressorOffTimeActive = true ∧
      (UpdateOutputs cfg fs now m).OutputRegister &&& getCompressorMask cfg &&&
        OUTPUT_SIGNAL_MASK = 0)
    ∧ (fs.CompressorOffTimeActive = true → fs.HeatSafetyOffTimeActive = false →
      cfg.heatSafetyTemperatureCx10 ≤ 0 →
      sub32 now fs.CompressorOffStartTime ≤ 1000 * cfg.compressorHoldSeconds →
      safetyLoopStep cfg fs now = fs)
    ∧ (fs.CompressorOffTimeActive = true → fs.HeatSafetyOffTimeActive = false →
      cfg.heatSafetyTemperatureCx10 ≤ 0 →
      sub32 now fs.CompressorOffStartTime > 1000 * cfg.compressorHoldSeconds →
      fs.OutputRegister &&& getCompressorMask cfg = 0 →
      (safetyLoopStep cfg fs now).CompressorOffTimeActive = false ∧
      (safetyLoopStep cfg fs now).OutputRegister &&& getCompressorMask cfg &&&
          OUTPUT_SIGNAL_MASK =
        fs.LastOutputWrite &&& getCompressorMask cfg &&& OUTPUT_SIGNAL_MASK) := by
  have hne := getCompressorMask_ne_255 cfg
  have hlt := getCompressorMask_lt_256 cfg
  have hout : OUTPUT_SIGNAL_MASK = 254 := rfl
  have hAC : ∀ x, x &&& (255 ^^^ getCompressorMask cfg) &&& getCompressorMask cfg = 0 :=
    fun x => and_compl8_and_self x _ hlt
  have hshift : (1 <<< BN_W_FAILSAFE : Nat) = 1 := rfl
  refine ⟨?_, ?_, ?_, ?_⟩
  · intro hca hhs hwas htobe
    constructor <;>
      simp [UpdateOutputs, hca, hhs, hwas, htobe, hne]
  · intro hca
    constructor
    · simp only [UpdateOutputs, hca]
      split_ifs <;> rfl
    · simp only [UpdateOutputs, hca, eq_self_iff_true, not_true, false_and,
        and_false, if_false, if_true]
      rw [hout]
      split_ifs <;>
        first
        | contradiction
        | rw [hAC, Nat.zero_and]
        | rw [hshift, or_one_and_and254, hAC, Nat.zero_and]
  · intro hca hhs htneg hle
    simp only [safetyLoopStep]
    have h1 : ¬(fs.CompressorOffTimeActive = true ∧
        sub32 now fs.CompressorOffStartTime > 1000 * cfg.compressorHoldSeconds) :=
      fun h => absurd h.2 (by omega)
    rw [if_neg h1]
    have h2 : ¬(fs.HeatSafetyOffTimeActive = true ∧
        sub32 now fs.HeatSafetyOffStartTime > 1000 * cfg.heatSafetyHoldSeconds) := by
      simp [hhs]
    rw [if_neg h2]
    have h3 : ¬(fs.HeatSafetyOffTimeActive = true) := by simp [hhs]
    rw [if_pos h3]
    split_ifs <;> first | rfl | (exfalso; omega)
  · intro hca hhs htneg hgt hreg
    have hgoal : (SetOutputBits cfg { fs with CompressorOffTimeActive := false }
          now 0).CompressorOffTimeActive = false ∧
        (SetOutputBits cfg { fs with CompressorOffTimeActive := false }
          now 0).OutputRegister &&& getCompressorMask cfg &&& OUTPUT_SIGNAL_MASK =
        fs.LastOutputWrite &&& getCompressorMask cfg &&& OUTPUT_SIGNAL_MASK := by
      constructor
      · simp [SetOutputBits, UpdateOutputs, hreg]
      · simp only [SetOutputBits, UpdateOutputs, hhs, hreg, ne_eq,
        eq_self_iff_true, not_true, false_and, and_false, if_false,
        Bool.false_eq_true, Nat.zero_or]
        rw [hout]
        split_ifs <;>
          first
          | contradiction
          | rw [and254_and_and254]
          | rw [hshift, or_one_and_and254, and254_and_and254]
    have hF : (SetOutputBits cfg { fs with CompressorOffTimeActive := false }
        now 0).HeatSafetyOffTimeActive = false := hhs
    simp only [safetyLoopStep]
    rw [if_pos (show fs.CompressorOffTimeActive = true ∧
      sub32 now fs.CompressorOffStartTime > 1000 * cfg.compressorHoldSeconds from
      ⟨hca, hgt⟩)]
    have hne2 : ¬((SetOutputBits cfg { fs with CompressorOffTimeActive := false }
          now 0).HeatSafetyOffTimeActive = true ∧
        sub32 now (SetOutputBits cfg { fs with CompressorOffTimeActive := false }
          now 0).HeatSafetyOffStartTime > 1000 * cfg.heatSafetyHoldSeconds) := by
      rw [hF]; simp
    rw [if_neg hne2]
    have hpos : ¬((SetOutputBits cfg { fs with CompressorOffTimeActive := false }
        now 0).HeatSafetyOffTimeActive = true) := by
      rw [hF]; simp
    rw [if_pos hpos]
    split_ifs <;> first | exact hgoal | (exfalso; omega)

theorem C4_compressor_lockout_witness :
    ((UpdateOutputs
        { compressorMaskByte := 24, compressorHoldSeconds := 300,
          heatSafetyHoldSeconds := 0, heatSafetyTemperatureCx10 := 0,
          heatSafetyMask := fun _ =>
            { dontCareMask := 0, mustMatchMask := 0, toClear := 0 } }
        { OutputRegister := 8, InputRegister := 0, LastOutputWrite := 8,
          CompressorOffTimeActive := false, CompressorOffStartTime := 0,
          HeatSafetyOffTimeActive := false, HeatSafetyOffStartTime := 0,
          HeatSafetyShutoffMask := 255, relayIsOn := false, onAtTime := 0,
          TinletTemperatureCx10 := 0 }
        1000 0).CompressorOffTimeActive = true ∧
      (UpdateOutputs
        { compressorMaskByte := 24, compressorHoldSeconds := 300,
          heatSafetyHoldSeconds := 0, heatSafetyTemperatureCx10 := 0,
          heatSafetyMask := fun _ =>
            { dontCareMask := 0, mustMatchMask := 0, toClear := 0 } }
        { OutputRegister := 8, InputRegister := 0, LastOutputWrite := 8,
          CompressorOffTimeActive := false, CompressorOffStartTime := 0,
          HeatSafetyOffTimeActive := false, HeatSafetyOffStartTime := 0,
          HeatSafetyShutoffMask := 255, relayIsOn := false, onAtTime := 0,
          TinletTemperatureCx10 := 0 }
        1000 0).CompressorOffStartTime = 1000)
    ∧ ((UpdateOutputs
        { compressorMaskByte := 24, compressorHoldSeconds := 300,
          heatSafetyHoldSeconds := 0, heatSafetyTemperatureCx10 := 0,
          heatSafetyMask := fun _ =>
            { dontCareMask := 0, mustMatchMask := 0, toClear := 0 } }
        { OutputRegister := 0, InputRegister := 0, LastOutputWrite := 8,
          CompressorOffTimeActive := true, CompressorOffStartTime := 1000,
          HeatSafetyOffTimeActive := false, HeatSafetyOffStartTime := 0,
          HeatSafetyShutoffMask := 255, relayIsOn := false, onAtTime := 0,
          TinletTemperatureCx10 := 0 }
        2000 24).CompressorOffTimeActive = true ∧
      (UpdateOutputs
        { compressorMaskByte := 24, compressorHoldSeconds := 300,
          heatSafetyHoldSeconds := 0, heatSafetyTemperatureCx10 := 0,
          heatSafetyMask := fun _ =>
            { dontCareMask := 0, mustMatchMask := 0, toClear := 0 } }
        { OutputRegister := 0, InputRegister := 0, LastOutputWrite := 8,
          CompressorOffTimeActive := true, CompressorOffStartTime := 1000,
          HeatSafetyOffTimeActive := false, HeatSafetyOffStartTime := 0,
          HeatSafetyShutoffMask := 255, relayIsOn := false, onAtTime := 0,
          TinletTemperatureCx10 := 0 }
        2000 24).OutputRegister &&& getCompressorMask
        { compressorMaskByte := 24, compressorHoldSeconds := 300,
          heatSafetyHoldSeconds := 0, heatSafetyTemperatureCx10 := 0,
          heatSafetyMask := fun _ =>
            { dontCareMask := 0, mustMatchMask := 0, toClear := 0 } } &&&
        OUTPUT_SIGNAL_MASK = 0)
    ∧ safetyLoopStep
        { compressorMaskByte := 24, compressorHoldSeconds := 300,
          heatSafetyHoldSeconds := 0, heatSafetyTemperatureCx10 := 0,
          heatSafetyMask := fun _ =>
            { dontCareMask := 0, mustMatchMask := 0, toClear := 0 } }
        { OutputRegister := 0, InputRegister := 0, LastOutputWrite := 8,
          CompressorOffTimeActive := true, CompressorOffStartTime := 1000,
          HeatSafetyOffTimeActive := false, HeatSafetyOffStartTime := 0,
          HeatSafetyShutoffMask := 255, relayIsOn := false, onAtTime := 0,
          TinletTemperatureCx10 := 0 }
        2000 =
        { OutputRegister := 0, InputRegister := 0, LastOutputWrite := 8,
          CompressorOffTimeActive := true, CompressorOffStartTime := 1000,
          HeatSafetyOffTimeActive := false, HeatSafetyOffStartTime := 0,
          HeatSafetyShutoffMask := 255, relayIsOn := false, onAtTime := 0,
          TinletTemperatureCx10 := 0 }
    ∧ ((safetyLoopStep
        { compressorMaskByte := 24, compressorHoldSeconds := 300,
          heatSafetyHoldSeconds := 0, heatSafetyTemperatureCx10 := 0,
          heatSafetyMask := fun _ =>
            { dontCareMask := 0, mustMatchMask := 0, toClear := 0 } }
        { OutputRegister := 0, InputRegister := 0, LastOutputWrite := 8,
          CompressorOffTimeActive := true, CompressorOffStartTime := 1000,
          HeatSafetyOffTimeActive := false, HeatSafetyOffStartTime := 0,
          HeatSafetyShutoffMask := 255, relayIsOn := false, onAtTime := 0,
          TinletTemperatureCx10 := 0 }
        400000).CompressorOffTimeActive = false ∧
      (safetyLoopStep
        { compressorMaskByte := 24, compressorHoldSeconds := 300,
          heatSafetyHoldSeconds := 0, heatSafetyTemperatureCx10 := 0,
          heatSafetyMask := fun _ =>
            { dontCareMask := 0, mustMatchMask := 0, toClear := 0 } }
        { OutputRegister := 0, InputRegister := 0, LastOutputWrite := 8,
          CompressorOffTimeActive := true, CompressorOffStartTime := 1000,
          HeatSafetyOffTimeActive := false, HeatSafetyOffStartTime := 0,
          HeatSafetyShutoffMask := 255, relayIsOn := false, onAtTime := 0,
          TinletTemperatureCx10 := 0 }
        400000).OutputRegister &&& getCompressorMask
        { compressorMaskByte := 24, compressorHoldSeconds := 300,
          heatSafetyHoldSeconds := 0, heatSafetyTemperatureCx10 := 0,
          heatSafetyMask := fun _ =>
            { dontCareMask := 0, mustMatchMask := 0, toClear := 0 } } &&&
        OUTPUT_SIGNAL_MASK =
        8 &&& getCompressorMask
        { compressorMaskByte := 24, compressorHoldSeconds := 300,
          heatSafetyHoldSeconds := 0, heatSafetyTemperatureCx10 := 0,
          heatSafetyMask := fun _ =>
            { dontCareMask := 0, mustMatchMask := 0, toClear := 0 } } &&&
        OUTPUT_SIGNAL_MASK) := by
  refine ⟨?_, ?_, ?_, ?_⟩
  · exact (C4_compressor_lockout _ _ 1000 0 0).1 rfl rfl (by decide) (by decide)
  · exact (C4_compressor_lockout _ _ 2000 0 24).2.1 rfl
  · exact (C4_compressor_lockout _ _ 2000 0 0).2.2.1 rfl rfl (by decide)
      (by decide)
  · exact (C4_compressor_lockout _ _ 400000 0 0).2.2.2 rfl rfl (by decide)
      (by decide) (by decide)

/-- C5: With the heat-safety feature configured (hold seconds in (0, 65535),
a positive trigger temperature), on a loop tick with no hold active and the
inlet temperature at or above the trigger, the first triple whose
`~dontCare AND LastOutputWrite` equals `mustMatch` (with a nonzero
`toClear`) trips the hold: the flag is set, the start time stamped `now`,
the shutoff mask latched as the complement of that triple's `toClear`, and
the output immediately rewritten with the `toClear` bits forced off; while
the hold is active every output write keeps those bits off; once
`now - start` exceeds the hold (and the trigger condition has receded) the
loop clears the flag and rewrites the last requested output unmasked. -/
theorem C5_heat_safety (cfg : SafetyCfg) (fs : FurnaceSt) (now m tc : Nat)
    (mtrip : HeatSafetyMask_t) :
    (fs.CompressorOffTimeActive = false → fs.HeatSafetyOffTimeActive = false →
      cfg.heatSafetyHoldSeconds > 0 → cfg.heatSafetyHoldSeconds ≠ 65535 →
      cfg.heatSafetyTemperatureCx10 > 0 →
      cfg.heatSafetyTemperatureCx10 ≤ fs.TinletTemperatureCx10 →
      heatSafetyFind cfg fs.LastOutputWrite = some mtrip →
      (safetyLoopStep cfg fs now).HeatSafetyOffTimeActive = true ∧
      (safetyLoopStep cfg fs now).HeatSafetyOffStartTime = now ∧
      (safetyLoopStep cfg fs now).HeatSafetyShutoffMask = compl8 mtrip.toClear ∧
      (mtrip.toClear < 256 → getCompressorMask cfg = 0 →
        (safetyLoopStep cfg fs now).OutputRegister &&& mtrip.toClear &&&
          OUTPUT_SIGNAL_MASK = 0))
    ∧ (fs.HeatSafetyOffTimeActive = true →
      fs.HeatSafetyShutoffMask = compl8 tc → tc < 256 →
      (UpdateOutputs cfg fs now m).OutputRegister &&& tc &&&
        OUTPUT_SIGNAL_MASK = 0)
    ∧ (fs.CompressorOffTimeActive = false → fs.HeatSafetyOffTimeActive = true →
      sub32 now fs.HeatSafetyOffStartTime > 1000 * cfg.heatSafetyHoldSeconds →
      cfg.heatSafetyTemperatureCx10 > fs.TinletTemperatureCx10 →
      getCompressorMask cfg = 0 →
      (safetyLoopStep cfg fs now).HeatSafetyOffTimeActive = false ∧
      (safetyLoopStep cfg fs now).OutputRegister &&& OUTPUT_SIGNAL_MASK =
        fs.LastOutputWrite &&& OUTPUT_SIGNAL_MASK) := by
  have hout : OUTPUT_SIGNAL_MASK = 254 := rfl
  have hshift : (1 <<< BN_W_FAILSAFE : Nat) = 1 := rfl
  refine ⟨?_, ?_, ?_⟩
  · intro h0 hhs hhold hhold2 htemp htin hfind
    simp only [safetyLoopStep]
    have h1 : ¬(fs.CompressorOffTimeActive = true ∧
        sub32 now fs.CompressorOffStartTime > 1000 * cfg.compressorHoldSeconds) := by
      simp [h0]
    rw [if_neg h1]
    have h2 : ¬(fs.HeatSafetyOffTimeActive = true ∧
        sub32 now fs.HeatSafetyOffStartTime > 1000 * cfg.heatSafetyHoldSeconds) := by
      simp [hhs]
    rw [if_neg h2]
    have h3 : ¬(fs.HeatSafetyOffTimeActive = true) := by simp [hhs]
    rw [if_pos h3]
    rw [if_pos (show cfg.heatSafetyHoldSeconds > 0 ∧
      cfg.heatSafetyHoldSeconds ≠ 65535 from ⟨hhold, hhold2⟩)]
    rw [if_pos htemp]
    rw [if_pos htin]
    simp only [hfind]
    refine ⟨rfl, rfl, rfl, ?_⟩
    intro htclt hcm0
    have hsupp : ∀ u, u &&& compl8 mtrip.toClear &&& mtrip.toClear &&& 254 = 0 := by
      intro u
      have hC : compl8 mtrip.toClear = 255 ^^^ mtrip.toClear := by
        simp only [compl8]
        rw [Nat.mod_eq_of_lt htclt]
      rw [hC, and_compl8_and_self u _ htclt, Nat.zero_and]
    simp only [SetOutputBits, UpdateOutputs, hcm0, Nat.and_zero, ne_eq,
      eq_self_iff_true, not_true, false_and, and_false, if_false,
      Bool.false_eq_true, h0, Nat.zero_or, if_true]
    rw [hout]
    split_ifs <;>
      first
      | contradiction
      | exact hsupp _
      | (rw [hshift, or_one_and_and254]; exact hsupp _)
  · intro hhs hmask htclt
    have hsupp : ∀ u, u &&& (255 ^^^ tc) &&& tc &&& 254 = 0 := by
      intro u
      rw [and_compl8_and_self u _ htclt, Nat.zero_and]
    have hC : fs.HeatSafetyShutoffMask = 255 ^^^ tc := by
      rw [hmask]
      simp only [compl8]
      rw [Nat.mod_eq_of_lt htclt]
    simp only [UpdateOutputs, hhs, eq_self_iff_true, if_true, hC]
    rw [hout]
    split_ifs <;>
      first
      | contradiction
      | exact hsupp _
      | exact and_mid_zero _ _ _ (hsupp _)
      | (rw [hshift, or_one_and_and254];
         first
         | exact hsupp _
         | exact and_mid_zero _ _ _ (hsupp _))
  · intro h0 hhs hgt hrec hcm0
    have hgoal : (SetOutputBits cfg { fs with HeatSafetyOffTimeActive := false }
          now 0).HeatSafetyOffTimeActive = false ∧
        (SetOutputBits cfg { fs with HeatSafetyOffTimeActive := false }
          now 0).OutputRegister &&& OUTPUT_SIGNAL_MASK =
        fs.LastOutputWrite &&& OUTPUT_SIGNAL_MASK := by
      constructor
      · rfl
      · simp only [SetOutputBits, UpdateOutputs, hcm0, Nat.and_zero, ne_eq,
          eq_self_iff_true, not_true, false_and, and_false, if_false,
          Bool.false_eq_true, h0, Nat.zero_or]
        rw [hout]
        split_ifs <;>
          first
          | contradiction
          | rw [and254_idem]
          | (rw [hshift, or_one_and254, and254_idem])
    simp only [safetyLoopStep]
    have h1 : ¬(fs.CompressorOffTimeActive = true ∧
        sub32 now fs.CompressorOffStartTime > 1000 * cfg.compressorHoldSeconds) := by
      simp [h0]
    rw [if_neg h1]
    rw [if_pos (show fs.HeatSafetyOffTimeActive = true ∧
      sub32 now fs.HeatSafetyOffStartTime > 1000 * cfg.heatSafetyHoldSeconds from
      ⟨hhs, hgt⟩)]
    have hF : (SetOutputBits cfg { fs with HeatSafetyOffTimeActive := false }
        now 0).HeatSafetyOffTimeActive = false := rfl
    have hpos : ¬((SetOutputBits cfg { fs with HeatSafetyOffTimeActive := false }
        now 0).HeatSafetyOffTimeActive = true) := by
      rw [hF]; simp
    rw [if_pos hpos]
    rw [show (SetOutputBits cfg { fs with HeatSafetyOffTimeActive := false }
      now 0).TinletTemperatureCx10 = fs.TinletTemperatureCx10 from rfl]
    split_ifs <;> first | exact hgoal | (exfalso; omega)

theorem C5_heat_safety_witness :
    ((safetyLoopStep
        { compressorMaskByte := 255, compressorHoldSeconds := 300,
          heatSafetyHoldSeconds := 300, heatSafetyTemperatureCx10 := 322,
          heatSafetyMask := fun i => if i = 0 then
            { dontCareMask := 247, mustMatchMask := 8, toClear := 56 }
            else { dontCareMask := 0, mustMatchMask := 0, toClear := 0 } }
        { OutputRegister := 8, InputRegister := 0, LastOutputWrite := 8,
          CompressorOffTimeActive := false, CompressorOffStartTime := 0,
          HeatSafetyOffTimeActive := false, HeatSafetyOffStartTime := 0,
          HeatSafetyShutoffMask := 255, relayIsOn := false, onAtTime := 0,
          TinletTemperatureCx10 := 400 }
        5000).HeatSafetyOffTimeActive = true ∧
      (safetyLoopStep
        { compressorMaskByte := 255, compressorHoldSeconds := 300,
          heatSafetyHoldSeconds := 300, heatSafetyTemperatureCx10 := 322,
          heatSafetyMask := fun i => if i = 0 then
            { dontCareMask := 247, mustMatchMask := 8, toClear := 56 }
            else { dontCareMask := 0, mustMatchMask := 0, toClear := 0 } }
        { OutputRegister := 8, InputRegister := 0, LastOutputWrite := 8,
          CompressorOffTimeActive := false, CompressorOffStartTime := 0,
          HeatSafetyOffTimeActive := false, HeatSafetyOffStartTime := 0,
          HeatSafetyShutoffMask := 255, relayIsOn := false, onAtTime := 0,
          TinletTemperatureCx10 := 400 }
        5000).HeatSafetyOffStartTime = 5000 ∧
      (safetyLoopStep
        { compressorMaskByte := 255, compressorHoldSeconds := 300,
          heatSafetyHoldSeconds := 300, heatSafetyTemperatureCx10 := 322,
          heatSafetyMask := fun i => if i = 0 then
            { dontCareMask := 247, mustMatchMask := 8, toClear := 56 }
            else { dontCareMask := 0, mustMatchMask := 0, toClear := 0 } }
        { OutputRegister := 8, InputRegister := 0, LastOutputWrite := 8,
          CompressorOffTimeActive := false, CompressorOffStartTime := 0,
          HeatSafetyOffTimeActive := false, HeatSafetyOffStartTime := 0,
          HeatSafetyShutoffMask := 255, relayIsOn := false, onAtTime := 0,
          TinletTemperatureCx10 := 400 }
        5000).HeatSafetyShutoffMask = compl8 56 ∧
      (safetyLoopStep
        { compressorMaskByte := 255, compressorHoldSeconds := 300,
          heatSafetyHoldSeconds := 300, heatSafetyTemperatureCx10 := 322,
          heatSafetyMask := fun i => if i = 0 then
            { dontCareMask := 247, mustMatchMask := 8, toClear := 56 }
            else { dontCareMask := 0, mustMatchMask := 0, toClear := 0 } }
        { OutputRegister := 8, InputRegister := 0, LastOutputWrite := 8,
          CompressorOffTimeActive := false, CompressorOffStartTime := 0,
          HeatSafetyOffTimeActive := false, HeatSafetyOffStartTime := 0,
          HeatSafetyShutoffMask := 255, relayIsOn := false, onAtTime := 0,
          TinletTemperatureCx10 := 400 }
        5000).OutputRegister &&& 56 &&& OUTPUT_SIGNAL_MASK = 0)
    ∧ (UpdateOutputs
        { compressorMaskByte := 255, compressorHoldSeconds := 300,
          heatSafetyHoldSeconds := 300, heatSafetyTemperatureCx10 := 322,
          heatSafetyMask := fun i => if i = 0 then
            { dontCareMask := 247, mustMatchMask := 8, toClear := 56 }
            else { dontCareMask := 0, mustMatchMask := 0, toClear := 0 } }
        { OutputRegister := 0, InputRegister := 0, LastOutputWrite := 8,
          CompressorOffTimeActive := false, CompressorOffStartTime := 0,
          HeatSafetyOffTimeActive := true, HeatSafetyOffStartTime := 1000,
          HeatSafetyShutoffMask := 199, relayIsOn := false, onAtTime := 0,
          TinletTemperatureCx10 := 300 }
        2000 255).OutputRegister &&& 56 &&& OUTPUT_SIGNAL_MASK = 0
    ∧ ((safetyLoopStep
        { compressorMaskByte := 255, compressorHoldSeconds := 300,
          heatSafetyHoldSeconds := 300, heatSafetyTemperatureCx10 := 322,
          heatSafetyMask := fun i => if i = 0 then
            { dontCareMask := 247, mustMatchMask := 8, toClear := 56 }
            else { dontCareMask := 0, mustMatchMask := 0, toClear := 0 } }
        { OutputRegister := 0, InputRegister := 0, LastOutputWrite := 8,
          CompressorOffTimeActive := false, CompressorOffStartTime := 0,
          HeatSafetyOffTimeActive := true, HeatSafetyOffStartTime := 1000,
          HeatSafetyShutoffMask := 199, relayIsOn := false, onAtTime := 0,
          TinletTemperatureCx10 := 300 }
        302001).HeatSafetyOffTimeActive = false ∧
      (safetyLoopStep
        { compressorMaskByte := 255, compressorHoldSeconds := 300,
          heatSafetyHoldSeconds := 300, heatSafetyTemperatureCx10 := 322,
          heatSafetyMask := fun i => if i = 0 then
            { dontCareMask := 247, mustMatchMask := 8, toClear := 56 }
            else { dontCareMask := 0, mustMatchMask := 0, toClear := 0 } }
        { OutputRegister := 0, InputRegister := 0, LastOutputWrite := 8,
          CompressorOffTimeActive := false, CompressorOffStartTime := 0,
          HeatSafetyOffTimeActive := true, HeatSafetyOffStartTime := 1000,
          HeatSafetyShutoffMask := 199, relayIsOn := false, onAtTime := 0,
          TinletTemperatureCx10 := 300 }
        302001).OutputRegister &&& OUTPUT_SIGNAL_MASK =
        8 &&& OUTPUT_SIGNAL_MASK) := by
  refine ⟨?_, ?_, ?_⟩
  · have h := (C5_heat_safety
      { compressorMaskByte := 255, compressorHoldSeconds := 300,
        heatSafetyHoldSeconds := 300, heatSafetyTemperatureCx10 := 322,
        heatSafetyMask := fun i => if i = 0 then
          { dontCareMask := 247, mustMatchMask := 8, toClear := 56 }
          else { dontCareMask := 0, mustMatchMask := 0, toClear := 0 } }
      { OutputRegister := 8, InputRegister := 0, LastOutputWrite := 8,
        CompressorOffTimeActive := false, CompressorOffStartTime := 0,
        HeatSafetyOffTimeActive := false, HeatSafetyOffStartTime := 0,
        HeatSafetyShutoffMask := 255, relayIsOn := false, onAtTime := 0,
        TinletTemperatureCx10 := 400 }
      5000 0 56
      { dontCareMask := 247, mustMatchMask := 8, toClear := 56 }).1 rfl rfl
      (by decide) (by decide) (by decide) (by decide) (by decide)
    exact ⟨h.1, h.2.1, h.2.2.1, h.2.2.2 (by decide) (by decide)⟩
  · exact (C5_heat_safety
      { compressorMaskByte := 255, compressorHoldSeconds := 300,
        heatSafetyHoldSeconds := 300, heatSafetyTemperatureCx10 := 322,
        heatSafetyMask := fun i => if i = 0 then
          { dontCareMask := 247, mustMatchMask := 8, toClear := 56 }
          else { dontCareMask := 0, mustMatchMask := 0, toClear := 0 } }
      { OutputRegister := 0, InputRegister := 0, LastOutputWrite := 8,
        CompressorOffTimeActive := false, CompressorOffStartTime := 0,
        HeatSafetyOffTimeActive := true, HeatSafetyOffStartTime := 1000,
        HeatSafetyShutoffMask := 199, relayIsOn := false, onAtTime := 0,
        TinletTemperatureCx10 := 300 }
      2000 255 56
      { dontCareMask := 247, mustMatchMask := 8, toClear := 56 }).2.1 rfl rfl
      (by decide)
  · exact (C5_heat_safety
      { compressorMaskByte := 255, compressorHoldSeconds := 300,
        heatSafetyHoldSeconds := 300, heatSafetyTemperatureCx10 := 322,
        heatSafetyMask := fun i => if i = 0 then
          { dontCareMask := 247, mustMatchMask := 8, toClear := 56 }
          else { dontCareMask := 0, mustMatchMask := 0, toClear := 0 } }
      { OutputRegister := 0, InputRegister := 0, LastOutputWrite := 8,
        CompressorOffTimeActive := false, CompressorOffStartTime := 0,
        HeatSafetyOffTimeActive := true, HeatSafetyOffStartTime := 1000,
        HeatSafetyShutoffMask := 199, relayIsOn := false, onAtTime := 0,
        TinletTemperatureCx10 := 300 }
      302001 0 56
      { dontCareMask := 247, mustMatchMask := 8, toClear := 56 }).2.2 rfl rfl
      (by decide) (by decide) (by decide)

set_option maxHeartbeats 2000000 in
/-- C6: For the selected Auto instance, the settings commands mutate only
the in-memory working copy (they are pure state transformers in this
development, mirroring handlers that never touch EEPROM), and a reload
(`ReadSettings`, as run at power-up or on a (Type, Mode) change) after an
`HVAC COMMIT` returns exactly the committed name and the committed sensor,
cool and auto settings layers, regardless of whatever in-memory working
name `nmW` the mutating commands have produced meanwhile: mutate-then-
reload without COMMIT yields the last committed state, and COMMIT-then-
reload yields the mutated state. -/
theorem C6_commit_reload (start : Nat) (e : Eeprom) (mode : Nat)
    (nmW : List Nat)
    (n0 n1 n2 n3 n4 n5 : Nat) (sT sA : Int)
    (sm fan alw o1 o2 o3 s2 s3 : Nat)
    (cOn cOff hum : Nat) (aT aA : Int) (g1 g2 g3 : Nat)
    (hstart : start ≤ 26407)
    (hw : mode ≤ NumberOfModesInType start e HVAC_AUTO)
    (hn : n0 < 256 ∧ n1 < 256 ∧ n2 < 256 ∧ n3 < 256 ∧ n4 < 256 ∧
      n5 < 256 ∧ n0 ≠ 255)
    (hsens : -32768 ≤ sT ∧ sT ≤ 32767 ∧ -32768 ≤ sA ∧ sA ≤ 32767 ∧
      sm < 4294967296 ∧ fan < 256 ∧ alw < 256 ∧ o1 < 256 ∧ o2 < 256 ∧
      o3 < 256 ∧ s2 < 65536 ∧ s3 < 65536)
    (hcool : cOn < 256 ∧ cOff < 256 ∧ hum < 65536)
    (hauto : -32768 ≤ aT ∧ aT ≤ 32767 ∧ -32768 ≤ aA ∧ aA ≤ 32767 ∧
      g1 < 256 ∧ g2 < 256 ∧ g3 < 256) :
    autoReadSettings start
      (autoCommitSettings start e mode [n0, n1, n2, n3, n4, n5]
        ⟨sT, sA, sm, fan, alw, o1, o2, o3, s2, s3⟩ ⟨cOn, cOff, hum⟩
        ⟨aT, aA, g1, g2, g3⟩) mode nmW =
    ([n0, n1, n2, n3, n4, n5],
      ⟨sT, sA, sm, fan, alw, o1, o2, o3, s2, s3⟩, ⟨cOn, cOff, hum⟩,
      ⟨aT, aA, g1, g2, g3⟩) := by
  obtain ⟨hb0, hb1, hb2, hb3, hb4, hb5, hb255⟩ := hn
  obtain ⟨hsT1, hsT2, hsA1, hsA2, hsm, hfan, halw, ho1, ho2, ho3, hs2, hs3⟩ := hsens
  obtain ⟨hcOn, hcOff, hhum⟩ := hcool
  obtain ⟨haT1, haT2, haA1, haA2, hg1, hg2, hg3⟩ := hauto
  unfold autoReadSettings autoCommitSettings
  rw [AddressOfModeTypeSettings_write_stable start e mode _ hstart hw]
  generalize AddressOfModeTypeSettings start e HVAC_AUTO mode = A
  rw [show autoSerialize [n0, n1, n2, n3, n4, n5]
      (⟨sT, sA, sm, fan, alw, o1, o2, o3, s2, s3⟩ : SensorSettings)
      ⟨cOn, cOff, hum⟩ ⟨aT, aA, g1, g2, g3⟩ =
      [n0, n1, n2, n3, n4, n5, toUInt16n sT % 256, toUInt16n sT / 256 % 256, toUInt16n sA % 256, toUInt16n sA / 256 % 256, sm % 256, sm / 256 % 256, sm / 65536 % 256, sm / 16777216 % 256, fan, alw, o1, o2, o3, s2 % 256, s2 / 256 % 256, s3 % 256, s3 / 256 % 256, cOn, cOff, hum % 256, hum / 256 % 256, toUInt16n aT % 256, toUInt16n aT / 256 % 256, toUInt16n aA % 256, toUInt16n aA / 256 % 256, g1, g2, g3] from rfl]
  have hlen34 : ([n0, n1, n2, n3, n4, n5, toUInt16n sT % 256, toUInt16n sT / 256 % 256, toUInt16n sA % 256, toUInt16n sA / 256 % 256, sm % 256, sm / 256 % 256, sm / 65536 % 256, sm / 16777216 % 256, fan, alw, o1, o2, o3, s2 % 256, s2 / 256 % 256, s3 % 256, s3 / 256 % 256, cOn, cOff, hum % 256, hum / 256 % 256, toUInt16n aT % 256, toUInt16n aT / 256 % 256, toUInt16n aA % 256, toUInt16n aA / 256 % 256, g1, g2, g3] : List Nat).length = 34 := rfl
  have hbnd0 : (0 : Nat) < ([n0, n1, n2, n3, n4, n5, toUInt16n sT % 256, toUInt16n sT / 256 % 256, toUInt16n sA % 256, toUInt16n sA / 256 % 256, sm % 256, sm / 256 % 256, sm / 65536 % 256, sm / 16777216 % 256, fan, alw, o1, o2, o3, s2 % 256, s2 / 256 % 256, s3 % 256, s3 / 256 % 256, cOn, cOff, hum % 256, hum / 256 % 256, toUInt16n aT % 256, toUInt16n aT / 256 % 256, toUInt16n aA % 256, toUInt16n aA / 256 % 256, g1, g2, g3] : List Nat).length := by rw [hlen34]; omega
  have hget0 := eepromWriteBytes_get e A [n0, n1, n2, n3, n4, n5, toUInt16n sT % 256, toUInt16n sT / 256 % 256, toUInt16n sA % 256, toUInt16n sA / 256 % 256, sm % 256, sm / 256 % 256, sm / 65536 % 256, sm / 16777216 % 256, fan, alw, o1, o2, o3, s2 % 256, s2 / 256 % 256, s3 % 256, s3 / 256 % 256, cOn, cOff, hum % 256, hum / 256 % 256, toUInt16n aT % 256, toUInt16n aT / 256 % 256, toUInt16n aA % 256, toUInt16n aA / 256 % 256, g1, g2, g3] 0 hbnd0
  rw [show ([n0, n1, n2, n3, n4, n5, toUInt16n sT % 256, toUInt16n sT / 256 % 256, toUInt16n sA % 256, toUInt16n sA / 256 % 256, sm % 256, sm / 256 % 256, sm / 65536 % 256, sm / 16777216 % 256, fan, alw, o1, o2, o3, s2 % 256, s2 / 256 % 256, s3 % 256, s3 / 256 % 256, cOn, cOff, hum % 256, hum / 256 % 256, toUInt16n aT % 256, toUInt16n aT / 256 % 256, toUInt16n aA % 256, toUInt16n aA / 256 % 256, g1, g2, g3] : List Nat).get ⟨0, hbnd0⟩ = n0 from rfl] at hget0
  rw [Nat.add_zero] at hget0
  have hr0 : eepromRead (eepromWriteBytes e A [n0, n1, n2, n3, n4, n5, toUInt16n sT % 256, toUInt16n sT / 256 % 256, toUInt16n sA % 256, toUInt16n sA / 256 % 256, sm % 256, sm / 256 % 256, sm / 65536 % 256, sm / 16777216 % 256, fan, alw, o1, o2, o3, s2 % 256, s2 / 256 % 256, s3 % 256, s3 / 256 % 256, cOn, cOff, hum % 256, hum / 256 % 256, toUInt16n aT % 256, toUInt16n aT / 256 % 256, toUInt16n aA % 256, toUInt16n aA / 256 % 256, g1, g2, g3]) A = n0 := by
    simp only [eepromRead]
    rw [hget0]
    omega
  have hbnd1 : (1 : Nat) < ([n0, n1, n2, n3, n4, n5, toUInt16n sT % 256, toUInt16n sT / 256 % 256, toUInt16n sA % 256, toUInt16n sA / 256 % 256, sm % 256, sm / 256 % 256, sm / 65536 % 256, sm / 16777216 % 256, fan, alw, o1, o2, o3, s2 % 256, s2 / 256 % 256, s3 % 256, s3 / 256 % 256, cOn, cOff, hum % 256, hum / 256 % 256, toUInt16n aT % 256, toUInt16n aT / 256 % 256, toUInt16n aA % 256, toUInt16n aA / 256 % 256, g1, g2, g3] : List Nat).length := by rw [hlen34]; omega
  have hget1 := eepromWriteBytes_get e A [n0, n1, n2, n3, n4, n5, toUInt16n sT % 256, toUInt16n sT / 256 % 256, toUInt16n sA % 256, toUInt16n sA / 256 % 256, sm % 256, sm / 256 % 256, sm / 65536 % 256, sm / 16777216 % 256, fan, alw, o1, o2, o3, s2 % 256, s2 / 256 % 256, s3 % 256, s3 / 256 % 256, cOn, cOff, hum % 256, hum / 256 % 256, toUInt16n aT % 256, toUInt16n aT / 256 % 256, toUInt16n aA % 256, toUInt16n aA / 256 % 256, g1, g2, g3] 1 hbnd1
  rw [show ([n0, n1, n2, n3, n4, n5, toUInt16n sT % 256, toUInt16n sT / 256 % 256, toUInt16n sA % 256, toUInt16n sA / 256 % 256, sm % 256, sm / 256 % 256, sm / 65536 % 256, sm / 16777216 % 256, fan, alw, o1, o2, o3, s2 % 256, s2 / 256 % 256, s3 % 256, s3 / 256 % 256, cOn, cOff, hum % 256, hum / 256 % 256, toUInt16n aT % 256, toUInt16n aT / 256 % 256, toUInt16n aA % 256, toUInt16n aA / 256 % 256, g1, g2, g3] : List Nat).get ⟨1, hbnd1⟩ = n1 from rfl] at hget1
  have hr1 : eepromRead (eepromWriteBytes e A [n0, n1, n2, n3, n4, n5, toUInt16n sT % 256, toUInt16n sT / 256 % 256, toUInt16n sA % 256, toUInt16n sA / 256 % 256, sm % 256, sm / 256 % 256, sm / 65536 % 256, sm / 16777216 % 256, fan, alw, o1, o2, o3, s2 % 256, s2 / 256 % 256, s3 % 256, s3 / 256 % 256, cOn, cOff, hum % 256, hum / 256 % 256, toUInt16n aT % 256, toUInt16n aT / 256 % 256, toUInt16n aA % 256, toUInt16n aA / 256 % 256, g1, g2, g3]) (A + 1) = n1 := by
    simp only [eepromRead]
    rw [hget1]
    omega
  have hbnd2 : (2 : Nat) < ([n0, n1, n2, n3, n4, n5, toUInt16n sT % 256, toUInt16n sT / 256 % 256, toUInt16n sA % 256, toUInt16n sA / 256 % 256, sm % 256, sm / 256 % 256, sm / 65536 % 256, sm / 16777216 % 256, fan, alw, o1, o2, o3, s2 % 256, s2 / 256 % 256, s3 % 256, s3 / 256 % 256, cOn, cOff, hum % 256, hum / 256 % 256, toUInt16n aT % 256, toUInt16n aT / 256 % 256, toUInt16n aA % 256, toUInt16n aA / 256 % 256, g1, g2, g3] : List Nat).length := by rw [hlen34]; omega
  have hget2 := eepromWriteBytes_get e A [n0, n1, n2, n3, n4, n5, toUInt16n sT % 256, toUInt16n sT / 256 % 256, toUInt16n sA % 256, toUInt16n sA / 256 % 256, sm % 256, sm / 256 % 256, sm / 65536 % 256, sm / 16777216 % 256, fan, alw, o1, o2, o3, s2 % 256, s2 / 256 % 256, s3 % 256, s3 / 256 % 256, cOn, cOff, hum % 256, hum / 256 % 256, toUInt16n aT % 256, toUInt16n aT / 256 % 256, toUInt16n aA % 256, toUInt16n aA / 256 % 256, g1, g2, g3] 2 hbnd2
  rw [show ([n0, n1, n2, n3, n4, n5, toUInt16n sT % 256, toUInt16n sT / 256 % 256, toUInt16n sA % 256, toUInt16n sA / 256 % 256, sm % 256, sm / 256 % 256, sm / 65536 % 256, sm / 16777216 % 256, fan, alw, o1, o2, o3, s2 % 256, s2 / 256 % 256, s3 % 256, s3 / 256 % 256, cOn, cOff, hum % 256, hum / 256 % 256, toUInt16n aT % 256, toUInt16n aT / 256 % 256, toUInt16n aA % 256, toUInt16n aA / 256 % 256, g1, g2, g3] : List Nat).get ⟨2, hbnd2⟩ = n2 from rfl] at hget2
  have hr2 : eepromRead (eepromWriteBytes e A [n0, n1, n2, n3, n4, n5, toUInt16n sT % 256, toUInt16n sT / 256 % 256, toUInt16n sA % 256, toUInt16n sA / 256 % 256, sm % 256, sm / 256 % 256, sm / 65536 % 256, sm / 16777216 % 256, fan, alw, o1, o2, o3, s2 % 256, s2 / 256 % 256, s3 % 256, s3 / 256 % 256, cOn, cOff, hum % 256, hum / 256 % 256, toUInt16n aT % 256, toUInt16n aT / 256 % 256, toUInt16n aA % 256, toUInt16n aA / 256 % 256, g1, g2, g3]) (A + 2) = n2 := by
    simp only [eepromRead]
    rw [hget2]
    omega
  have hbnd3 : (3 : Nat) < ([n0, n1, n2, n3, n4, n5, toUInt16n sT % 256, toUInt16n sT / 256 % 256, toUInt16n sA % 256, toUInt16n sA / 256 % 256, sm % 256, sm / 256 % 256, sm / 65536 % 256, sm / 16777216 % 256, fan, alw, o1, o2, o3, s2 % 256, s2 / 256 % 256, s3 % 256, s3 / 256 % 256, cOn, cOff, hum % 256, hum / 256 % 256, toUInt16n aT % 256, toUInt16n aT / 256 % 256, toUInt16n aA % 256, toUInt16n aA / 256 % 256, g1, g2, g3] : List Nat).length := by rw [hlen34]; omega
  have hget3 := eepromWriteBytes_get e A [n0, n1, n2, n3, n4, n5, toUInt16n sT % 256, toUInt16n sT / 256 % 256, toUInt16n sA % 256, toUInt16n sA / 256 % 256, sm % 256, sm / 256 % 256, sm / 65536 % 256, sm / 16777216 % 256, fan, alw, o1, o2, o3, s2 % 256, s2 / 256 % 256, s3 % 256, s3 / 256 % 256, cOn, cOff, hum % 256, hum / 256 % 256, toUInt16n aT % 256, toUInt16n aT / 256 % 256, toUInt16n aA % 256, toUInt16n aA / 256 % 256, g1, g2, g3] 3 hbnd3
  rw [show ([n0, n1, n2, n3, n4, n5, toUInt16n sT % 256, toUInt16n sT / 256 % 256, toUInt16n sA % 256, toUInt16n sA / 256 % 256, sm % 256, sm / 256 % 256, sm / 65536 % 256, sm / 16777216 % 256, fan, alw, o1, o2, o3, s2 % 256, s2 / 256 % 256, s3 % 256, s3 / 256 % 256, cOn, cOff, hum % 256, hum / 256 % 256, toUInt16n aT % 256, toUInt16n aT / 256 % 256, toUInt16n aA % 256, toUInt16n aA / 256 % 256, g1, g2, g3] : List Nat).get ⟨3, hbnd3⟩ = n3 from rfl] at hget3
  have hr3 : eepromRead (eepromWriteBytes e A [n0, n1, n2, n3, n4, n5, toUInt16n sT % 256, toUInt16n sT / 256 % 256, toUInt16n sA % 256, toUInt16n sA / 256 % 256, sm % 256, sm / 256 % 256, sm / 65536 % 256, sm / 16777216 % 256, fan, alw, o1, o2, o3, s2 % 256, s2 / 256 % 256, s3 % 256, s3 / 256 % 256, cOn, cOff, hum % 256, hum / 256 % 256, toUInt16n aT % 256, toUInt16n aT / 256 % 256, toUInt16n aA % 256, toUInt16n aA / 256 % 256, g1, g2, g3]) (A + 3) = n3 := by
    simp only [eepromRead]
    rw [hget3]
    omega
  have hbnd4 : (4 : Nat) < ([n0, n1, n2, n3, n4, n5, toUInt16n sT % 256, toUInt16n sT / 256 % 256, toUInt16n sA % 256, toUInt16n sA / 256 % 256, sm % 256, sm / 256 % 256, sm / 65536 % 256, sm / 16777216 % 256, fan, alw, o1, o2, o3, s2 % 256, s2 / 256 % 256, s3 % 256, s3 / 256 % 256, cOn, cOff, hum % 256, hum / 256 % 256, toUInt16n aT % 256, toUInt16n aT / 256 % 256, toUInt16n aA % 256, toUInt16n aA / 256 % 256, g1, g2, g3] : List Nat).length := by rw [hlen34]; omega
  have hget4 := eepromWriteBytes_get e A [n0, n1, n2, n3, n4, n5, toUInt16n sT % 256, toUInt16n sT / 256 % 256, toUInt16n sA % 256, toUInt16n sA / 256 % 256, sm % 256, sm / 256 % 256, sm / 65536 % 256, sm / 16777216 % 256, fan, alw, o1, o2, o3, s2 % 256, s2 / 256 % 256, s3 % 256, s3 / 256 % 256, cOn, cOff, hum % 256, hum / 256 % 256, toUInt16n aT % 256, toUInt16n aT / 256 % 256, toUInt16n aA % 256, toUInt16n aA / 256 % 256, g1, g2, g3] 4 hbnd4
  rw [show ([n0, n1, n2, n3, n4, n5, toUInt16n sT % 256, toUInt16n sT / 256 % 256, toUInt16n sA % 256, toUInt16n sA / 256 % 256, sm % 256, sm / 256 % 256, sm / 65536 % 256, sm / 16777216 % 256, fan, alw, o1, o2, o3, s2 % 256, s2 / 256 % 256, s3 % 256, s3 / 256 % 256, cOn, cOff, hum % 256, hum / 256 % 256, toUInt16n aT % 256, toUInt16n aT / 256 % 256, toUInt16n aA % 256, toUInt16n aA / 256 % 256, g1, g2, g3] : List Nat).get ⟨4, hbnd4⟩ = n4 from rfl] at hget4
  have hr4 : eepromRead (eepromWriteBytes e A [n0, n1, n2, n3, n4, n5, toUInt16n sT % 256, toUInt16n sT / 256 % 256, toUInt16n sA % 256, toUInt16n sA / 256 % 256, sm % 256, sm / 256 % 256, sm / 65536 % 256, sm / 16777216 % 256, fan, alw, o1, o2, o3, s2 % 256, s2 / 256 % 256, s3 % 256, s3 / 256 % 256, cOn, cOff, hum % 256, hum / 256 % 256, toUInt16n aT % 256, toUInt16n aT / 256 % 256, toUInt16n aA % 256, toUInt16n aA / 256 % 256, g1, g2, g3]) (A + 4) = n4 := by
    simp only [eepromRead]
    rw [hget4]
    omega
  have hbnd5 : (5 : Nat) < ([n0, n1, n2, n3, n4, n5, toUInt16n sT % 256, toUInt16n sT / 256 % 256, toUInt16n sA % 256, toUInt16n sA / 256 % 256, sm % 256, sm / 256 % 256, sm / 65536 % 256, sm / 16777216 % 256, fan, alw, o1, o2, o3, s2 % 256, s2 / 256 % 256, s3 % 256, s3 / 256 % 256, cOn, cOff, hum % 256, hum / 256 % 256, toUInt16n aT % 256, toUInt16n aT / 256 % 256, toUInt16n aA % 256, toUInt16n aA / 256 % 256, g1, g2, g3] : List Nat).length := by rw [hlen34]; omega
  have hget5 := eepromWriteBytes_get e A [n0, n1, n2, n3, n4, n5, toUInt16n sT % 256, toUInt16n sT / 256 % 256, toUInt16n sA % 256, toUInt16n sA / 256 % 256, sm % 256, sm / 256 % 256, sm / 65536 % 256, sm / 16777216 % 256, fan, alw, o1, o2, o3, s2 % 256, s2 / 256 % 256, s3 % 256, s3 / 256 % 256, cOn, cOff, hum % 256, hum / 256 % 256, toUInt16n aT % 256, toUInt16n aT / 256 % 256, toUInt16n aA % 256, toUInt16n aA / 256 % 256, g1, g2, g3] 5 hbnd5
  rw [show ([n0, n1, n2, n3, n4, n5, toUInt16n sT % 256, toUInt16n sT / 256 % 256, toUInt16n sA % 256, toUInt16n sA / 256 % 256, sm % 256, sm / 256 % 256, sm / 65536 % 256, sm / 16777216 % 256, fan, alw, o1, o2, o3, s2 % 256, s2 / 256 % 256, s3 % 256, s3 / 256 % 256, cOn, cOff, hum % 256, hum / 256 % 256, toUInt16n aT % 256, toUInt16n aT / 256 % 256, toUInt16n aA % 256, toUInt16n aA / 256 % 256, g1, g2, g3] : List Nat).get ⟨5, hbnd5⟩ = n5 from rfl] at hget5
  have hr5 : eepromRead (eepromWriteBytes e A [n0, n1, n2, n3, n4, n5, toUInt16n sT % 256, toUInt16n sT / 256 % 256, toUInt16n sA % 256, toUInt16n sA / 256 % 256, sm % 256, sm / 256 % 256, sm / 65536 % 256, sm / 16777216 % 256, fan, alw, o1, o2, o3, s2 % 256, s2 / 256 % 256, s3 % 256, s3 / 256 % 256, cOn, cOff, hum % 256, hum / 256 % 256, toUInt16n aT % 256, toUInt16n aT / 256 % 256, toUInt16n aA % 256, toUInt16n aA / 256 % 256, g1, g2, g3]) (A + 5) = n5 := by
    simp only [eepromRead]
    rw [hget5]
    omega
  have hbnd6 : (6 : Nat) < ([n0, n1, n2, n3, n4, n5, toUInt16n sT % 256, toUInt16n sT / 256 % 256, toUInt16n sA % 256, toUInt16n sA / 256 % 256, sm % 256, sm / 256 % 256, sm / 65536 % 256, sm / 16777216 % 256, fan, alw, o1, o2, o3, s2 % 256, s2 / 256 % 256, s3 % 256, s3 / 256 % 256, cOn, cOff, hum % 256, hum / 256 % 256, toUInt16n aT % 256, toUInt16n aT / 256 % 256, toUInt16n aA % 256, toUInt16n aA / 256 % 256, g1, g2, g3] : List Nat).length := by rw [hlen34]; omega
  have hget6 := eepromWriteBytes_get e A [n0, n1, n2, n3, n4, n5, toUInt16n sT % 256, toUInt16n sT / 256 % 256, toUInt16n sA % 256, toUInt16n sA / 256 % 256, sm % 256, sm / 256 % 256, sm / 65536 % 256, sm / 16777216 % 256, fan, alw, o1, o2, o3, s2 % 256, s2 / 256 % 256, s3 % 256, s3 / 256 % 256, cOn, cOff, hum % 256, hum / 256 % 256, toUInt16n aT % 256, toUInt16n aT / 256 % 256, toUInt16n aA % 256, toUInt16n aA / 256 % 256, g1, g2, g3] 6 hbnd6
  rw [show ([n0, n1, n2, n3, n4, n5, toUInt16n sT % 256, toUInt16n sT / 256 % 256, toUInt16n sA % 256, toUInt16n sA / 256 % 256, sm % 256, sm / 256 % 256, sm / 65536 % 256, sm / 16777216 % 256, fan, alw, o1, o2, o3, s2 % 256, s2 / 256 % 256, s3 % 256, s3 / 256 % 256, cOn, cOff, hum % 256, hum / 256 % 256, toUInt16n aT % 256, toUInt16n aT / 256 % 256, toUInt16n aA % 256, toUInt16n aA / 256 % 256, g1, g2, g3] : List Nat).get ⟨6, hbnd6⟩ = toUInt16n sT % 256 from rfl] at hget6
  have hr6 : eepromRead (eepromWriteBytes e A [n0, n1, n2, n3, n4, n5, toUInt16n sT % 256, toUInt16n sT / 256 % 256, toUInt16n sA % 256, toUInt16n sA / 256 % 256, sm % 256, sm / 256 % 256, sm / 65536 % 256, sm / 16777216 % 256, fan, alw, o1, o2, o3, s2 % 256, s2 / 256 % 256, s3 % 256, s3 / 256 % 256, cOn, cOff, hum % 256, hum / 256 % 256, toUInt16n aT % 256, toUInt16n aT / 256 % 256, toUInt16n aA % 256, toUInt16n aA / 256 % 256, g1, g2, g3]) (A + 6) = toUInt16n sT % 256 := by
    simp only [eepromRead]
    rw [hget6]
    omega
  have hbnd7 : (7 : Nat) < ([n0, n1, n2, n3, n4, n5, toUInt16n sT % 256, toUInt16n sT / 256 % 256, toUInt16n sA % 256, toUInt16n sA / 256 % 256, sm % 256, sm / 256 % 256, sm / 65536 % 256, sm / 16777216 % 256, fan, alw, o1, o2, o3, s2 % 256, s2 / 256 % 256, s3 % 256, s3 / 256 % 256, cOn, cOff, hum % 256, hum / 256 % 256, toUInt16n aT % 256, toUInt16n aT / 256 % 256, toUInt16n aA % 256, toUInt16n aA / 256 % 256, g1, g2, g3] : List Nat).length := by rw [hlen34]; omega
  have hget7 := eepromWriteBytes_get e A [n0, n1, n2, n3, n4, n5, toUInt16n sT % 256, toUInt16n sT / 256 % 256, toUInt16n sA % 256, toUInt16n sA / 256 % 256, sm % 256, sm / 256 % 256, sm / 65536 % 256, sm / 16777216 % 256, fan, alw, o1, o2, o3, s2 % 256, s2 / 256 % 256, s3 % 256, s3 / 256 % 256, cOn, cOff, hum % 256, hum / 256 % 256, toUInt16n aT % 256, toUInt16n aT / 256 % 256, toUInt16n aA % 256, toUInt16n aA / 256 % 256, g1, g2, g3] 7 hbnd7
  rw [show ([n0, n1, n2, n3, n4, n5, toUInt16n sT % 256, toUInt16n sT / 256 % 256, toUInt16n sA % 256, toUInt16n sA / 256 % 256, sm % 256, sm / 256 % 256, sm / 65536 % 256, sm / 16777216 % 256, fan, alw, o1, o2, o3, s2 % 256, s2 / 256 % 256, s3 % 256, s3 / 256 % 256, cOn, cOff, hum % 256, hum / 256 % 256, toUInt16n aT % 256, toUInt16n aT / 256 % 256, toUInt16n aA % 256, toUInt16n aA / 256 % 256, g1, g2, g3] : List Nat).get ⟨7, hbnd7⟩ = toUInt16n sT / 256 % 256 from rfl] at hget7
  have hr7 : eepromRead (eepromWriteBytes e A [n0, n1, n2, n3, n4, n5, toUInt16n sT % 256, toUInt16n sT / 256 % 256, toUInt16n sA % 256, toUInt16n sA / 256 % 256, sm % 256, sm / 256 % 256, sm / 65536 % 256, sm / 16777216 % 256, fan, alw, o1, o2, o3, s2 % 256, s2 / 256 % 256, s3 % 256, s3 / 256 % 256, cOn, cOff, hum % 256, hum / 256 % 256, toUInt16n aT % 256, toUInt16n aT / 256 % 256, toUInt16n aA % 256, toUInt16n aA / 256 % 256, g1, g2, g3]) (A + 7) = toUInt16n sT / 256 % 256 := by
    simp only [eepromRead]
    rw [hget7]
    omega
  have hbnd8 : (8 : Nat) < ([n0, n1, n2, n3, n4, n5, toUInt16n sT % 256, toUInt16n sT / 256 % 256, toUInt16n sA % 256, toUInt16n sA / 256 % 256, sm % 256, sm / 256 % 256, sm / 65536 % 256, sm / 16777216 % 256, fan, alw, o1, o2, o3, s2 % 256, s2 / 256 % 256, s3 % 256, s3 / 256 % 256, cOn, cOff, hum % 256, hum / 256 % 256, toUInt16n aT % 256, toUInt16n aT / 256 % 256, toUInt16n aA % 256, toUInt16n aA / 256 % 256, g1, g2, g3] : List Nat).length := by rw [hlen34]; omega
  have hget8 := eepromWriteBytes_get e A [n0, n1, n2, n3, n4, n5, toUInt16n sT % 256, toUInt16n sT / 256 % 256, toUInt16n sA % 256, toUInt16n sA / 256 % 256, sm % 256, sm / 256 % 256, sm / 65536 % 256, sm / 16777216 % 256, fan, alw, o1, o2, o3, s2 % 256, s2 / 256 % 256, s3 % 256, s3 / 256 % 256, cOn, cOff, hum % 256, hum / 256 % 256, toUInt16n aT % 256, toUInt16n aT / 256 % 256, toUInt16n aA % 256, toUInt16n aA / 256 % 256, g1, g2, g3] 8 hbnd8
  rw [show ([n0, n1, n2, n3, n4, n5, toUInt16n sT % 256, toUInt16n sT / 256 % 256, toUInt16n sA % 256, toUInt16n sA / 256 % 256, sm % 256, sm / 256 % 256, sm / 65536 % 256, sm / 16777216 % 256, fan, alw, o1, o2, o3, s2 % 256, s2 / 256 % 256, s3 % 256, s3 / 256 % 256, cOn, cOff, hum % 256, hum / 256 % 256, toUInt16n aT % 256, toUInt16n aT / 256 % 256, toUInt16n aA % 256, toUInt16n aA / 256 % 256, g1, g2, g3] : List Nat).get ⟨8, hbnd8⟩ = toUInt16n sA % 256 from rfl] at hget8
  have hr8 : eepromRead (eepromWriteBytes e A [n0, n1, n2, n3, n4, n5, toUInt16n sT % 256, toUInt16n sT / 256 % 256, toUInt16n sA % 256, toUInt16n sA / 256 % 256, sm % 256, sm / 256 % 256, sm / 65536 % 256, sm / 16777216 % 256, fan, alw, o1, o2, o3, s2 % 256, s2 / 256 % 256, s3 % 256, s3 / 256 % 256, cOn, cOff, hum % 256, hum / 256 % 256, toUInt16n aT % 256, toUInt16n aT / 256 % 256, toUInt16n aA % 256, toUInt16n aA / 256 % 256, g1, g2, g3]) (A + 8) = toUInt16n sA % 256 := by
    simp only [eepromRead]
    rw [hget8]
    omega
  have hbnd9 : (9 : Nat) < ([n0, n1, n2, n3, n4, n5, toUInt16n sT % 256, toUInt16n sT / 256 % 256, toUInt16n sA % 256, toUInt16n sA / 256 % 256, sm % 256, sm / 256 % 256, sm / 65536 % 256, sm / 16777216 % 256, fan, alw, o1, o2, o3, s2 % 256, s2 / 256 % 256, s3 % 256, s3 / 256 % 256, cOn, cOff, hum % 256, hum / 256 % 256, toUInt16n aT % 256, toUInt16n aT / 256 % 256, toUInt16n aA % 256, toUInt16n aA / 256 % 256, g1, g2, g3] : List Nat).length := by rw [hlen34]; omega
  have hget9 := eepromWriteBytes_get e A [n0, n1, n2, n3, n4, n5, toUInt16n sT % 256, toUInt16n sT / 256 % 256, toUInt16n sA % 256, toUInt16n sA / 256 % 256, sm % 256, sm / 256 % 256, sm / 65536 % 256, sm / 16777216 % 256, fan, alw, o1, o2, o3, s2 % 256, s2 / 256 % 256, s3 % 256, s3 / 256 % 256, cOn, cOff, hum % 256, hum / 256 % 256, toUInt16n aT % 256, toUInt16n aT / 256 % 256, toUInt16n aA % 256, toUInt16n aA / 256 % 256, g1, g2, g3] 9 hbnd9
  rw [show ([n0, n1, n2, n3, n4, n5, toUInt16n sT % 256, toUInt16n sT / 256 % 256, toUInt16n sA % 256, toUInt16n sA / 256 % 256, sm % 256, sm / 256 % 256, sm / 65536 % 256, sm / 16777216 % 256, fan, alw, o1, o2, o3, s2 % 256, s2 / 256 % 256, s3 % 256, s3 / 256 % 256, cOn, cOff, hum % 256, hum / 256 % 256, toUInt16n aT % 256, toUInt16n aT / 256 % 256, toUInt16n aA % 256, toUInt16n aA / 256 % 256, g1, g2, g3] : List Nat).get ⟨9, hbnd9⟩ = toUInt16n sA / 256 % 256 from rfl] at hget9
  have hr9 : eepromRead (eepromWriteBytes e A [n0, n1, n2, n3, n4, n5, toUInt16n sT % 256, toUInt16n sT / 256 % 256, toUInt16n sA % 256, toUInt16n sA / 256 % 256, sm % 256, sm / 256 % 256, sm / 65536 % 256, sm / 16777216 % 256, fan, alw, o1, o2, o3, s2 % 256, s2 / 256 % 256, s3 % 256, s3 / 256 % 256, cOn, cOff, hum % 256, hum / 256 % 256, toUInt16n aT % 256, toUInt16n aT / 256 % 256, toUInt16n aA % 256, toUInt16n aA / 256 % 256, g1, g2, g3]) (A + 9) = toUInt16n sA / 256 % 256 := by
    simp only [eepromRead]
    rw [hget9]
    omega
  have hbnd10 : (10 : Nat) < ([n0, n1, n2, n3, n4, n5, toUInt16n sT % 256, toUInt16n sT / 256 % 256, toUInt16n sA % 256, toUInt16n sA / 256 % 256, sm % 256, sm / 256 % 256, sm / 65536 % 256, sm / 16777216 % 256, fan, alw, o1, o2, o3, s2 % 256, s2 / 256 % 256, s3 % 256, s3 / 256 % 256, cOn, cOff, hum % 256, hum / 256 % 256, toUInt16n aT % 256, toUInt16n aT / 256 % 256, toUInt16n aA % 256, toUInt16n aA / 256 % 256, g1, g2, g3] : List Nat).length := by rw [hlen34]; omega
  have hget10 := eepromWriteBytes_get e A [n0, n1, n2, n3, n4, n5, toUInt16n sT % 256, toUInt16n sT / 256 % 256, toUInt16n sA % 256, toUInt16n sA / 256 % 256, sm % 256, sm / 256 % 256, sm / 65536 % 256, sm / 16777216 % 256, fan, alw, o1, o2, o3, s2 % 256, s2 / 256 % 256, s3 % 256, s3 / 256 % 256, cOn, cOff, hum % 256, hum / 256 % 256, toUInt16n aT % 256, toUInt16n aT / 256 % 256, toUInt16n aA % 256, toUInt16n aA / 256 % 256, g1, g2, g3] 10 hbnd10
  rw [show ([n0, n1, n2, n3, n4, n5, toUInt16n sT % 256, toUInt16n sT / 256 % 256, toUInt16n sA % 256, toUInt16n sA / 256 % 256, sm % 256, sm / 256 % 256, sm / 65536 % 256, sm / 16777216 % 256, fan, alw, o1, o2, o3, s2 % 256, s2 / 256 % 256, s3 % 256, s3 / 256 % 256, cOn, cOff, hum % 256, hum / 256 % 256, toUInt16n aT % 256, toUInt16n aT / 256 % 256, toUInt16n aA % 256, toUInt16n aA / 256 % 256, g1, g2, g3] : List Nat).get ⟨10, hbnd10⟩ = sm % 256 from rfl] at hget10
  have hr10 : eepromRead (eepromWriteBytes e A [n0, n1, n2, n3, n4, n5, toUInt16n sT % 256, toUInt16n sT / 256 % 256, toUInt16n sA % 256, toUInt16n sA / 256 % 256, sm % 256, sm / 256 % 256, sm / 65536 % 256, sm / 16777216 % 256, fan, alw, o1, o2, o3, s2 % 256, s2 / 256 % 256, s3 % 256, s3 / 256 % 256, cOn, cOff, hum % 256, hum / 256 % 256, toUInt16n aT % 256, toUInt16n aT / 256 % 256, toUInt16n aA % 256, toUInt16n aA / 256 % 256, g1, g2, g3]) (A + 10) = sm % 256 := by
    simp only [eepromRead]
    rw [hget10]
    omega
  have hbnd11 : (11 : Nat) < ([n0, n1, n2, n3, n4, n5, toUInt16n sT % 256, toUInt16n sT / 256 % 256, toUInt16n sA % 256, toUInt16n sA / 256 % 256, sm % 256, sm / 256 % 256, sm / 65536 % 256, sm / 16777216 % 256, fan, alw, o1, o2, o3, s2 % 256, s2 / 256 % 256, s3 % 256, s3 / 256 % 256, cOn, cOff, hum % 256, hum / 256 % 256, toUInt16n aT % 256, toUInt16n aT / 256 % 256, toUInt16n aA % 256, toUInt16n aA / 256 % 256, g1, g2, g3] : List Nat).length := by rw [hlen34]; omega
  have hget11 := eepromWriteBytes_get e A [n0, n1, n2, n3, n4, n5, toUInt16n sT % 256, toUInt16n sT / 256 % 256, toUInt16n sA % 256, toUInt16n sA / 256 % 256, sm % 256, sm / 256 % 256, sm / 65536 % 256, sm / 16777216 % 256, fan, alw, o1, o2, o3, s2 % 256, s2 / 256 % 256, s3 % 256, s3 / 256 % 256, cOn, cOff, hum % 256, hum / 256 % 256, toUInt16n aT % 256, toUInt16n aT / 256 % 256, toUInt16n aA % 256, toUInt16n aA / 256 % 256, g1, g2, g3] 11 hbnd11
  rw [show ([n0, n1, n2, n3, n4, n5, toUInt16n sT % 256, toUInt16n sT / 256 % 256, toUInt16n sA % 256, toUInt16n sA / 256 % 256, sm % 256, sm / 256 % 256, sm / 65536 % 256, sm / 16777216 % 256, fan, alw, o1, o2, o3, s2 % 256, s2 / 256 % 256, s3 % 256, s3 / 256 % 256, cOn, cOff, hum % 256, hum / 256 % 256, toUInt16n aT % 256, toUInt16n aT / 256 % 256, toUInt16n aA % 256, toUInt16n aA / 256 % 256, g1, g2, g3] : List Nat).get ⟨11, hbnd11⟩ = sm / 256 % 256 from rfl] at hget11
  have hr11 : eepromRead (eepromWriteBytes e A [n0, n1, n2, n3, n4, n5, toUInt16n sT % 256, toUInt16n sT / 256 % 256, toUInt16n sA % 256, toUInt16n sA / 256 % 256, sm % 256, sm / 256 % 256, sm / 65536 % 256, sm / 16777216 % 256, fan, alw, o1, o2, o3, s2 % 256, s2 / 256 % 256, s3 % 256, s3 / 256 % 256, cOn, cOff, hum % 256, hum / 256 % 256, toUInt16n aT % 256, toUInt16n aT / 256 % 256, toUInt16n aA % 256, toUInt16n aA / 256 % 256, g1, g2, g3]) (A + 11) = sm / 256 % 256 := by
    simp only [eepromRead]
    rw [hget11]
    omega
  have hbnd12 : (12 : Nat) < ([n0, n1, n2, n3, n4, n5, toUInt16n sT % 256, toUInt16n sT / 256 % 256, toUInt16n sA % 256, toUInt16n sA / 256 % 256, sm % 256, sm / 256 % 256, sm / 65536 % 256, sm / 16777216 % 256, fan, alw, o1, o2, o3, s2 % 256, s2 / 256 % 256, s3 % 256, s3 / 256 % 256, cOn, cOff, hum % 256, hum / 256 % 256, toUInt16n aT % 256, toUInt16n aT / 256 % 256, toUInt16n aA % 256, toUInt16n aA / 256 % 256, g1, g2, g3] : List Nat).length := by rw [hlen34]; omega
  have hget12 := eepromWriteBytes_get e A [n0, n1, n2, n3, n4, n5, toUInt16n sT % 256, toUInt16n sT / 256 % 256, toUInt16n sA % 256, toUInt16n sA / 256 % 256, sm % 256, sm / 256 % 256, sm / 65536 % 256, sm / 16777216 % 256, fan, alw, o1, o2, o3, s2 % 256, s2 / 256 % 256, s3 % 256, s3 / 256 % 256, cOn, cOff, hum % 256, hum / 256 % 256, toUInt16n aT % 256, toUInt16n aT / 256 % 256, toUInt16n aA % 256, toUInt16n aA / 256 % 256, g1, g2, g3] 12 hbnd12
  rw [show ([n0, n1, n2, n3, n4, n5, toUInt16n sT % 256, toUInt16n sT / 256 % 256, toUInt16n sA % 256, toUInt16n sA / 256 % 256, sm % 256, sm / 256 % 256, sm / 65536 % 256, sm / 16777216 % 256, fan, alw, o1, o2, o3, s2 % 256, s2 / 256 % 256, s3 % 256, s3 / 256 % 256, cOn, cOff, hum % 256, hum / 256 % 256, toUInt16n aT % 256, toUInt16n aT / 256 % 256, toUInt16n aA % 256, toUInt16n aA / 256 % 256, g1, g2, g3] : List Nat).get ⟨12, hbnd12⟩ = sm / 65536 % 256 from rfl] at hget12
  have hr12 : eepromRead (eepromWriteBytes e A [n0, n1, n2, n3, n4, n5, toUInt16n sT % 256, toUInt16n sT / 256 % 256, toUInt16n sA % 256, toUInt16n sA / 256 % 256, sm % 256, sm / 256 % 256, sm / 65536 % 256, sm / 16777216 % 256, fan, alw, o1, o2, o3, s2 % 256, s2 / 256 % 256, s3 % 256, s3 / 256 % 256, cOn, cOff, hum % 256, hum / 256 % 256, toUInt16n aT % 256, toUInt16n aT / 256 % 256, toUInt16n aA % 256, toUInt16n aA / 256 % 256, g1, g2, g3]) (A + 12) = sm / 65536 % 256 := by
    simp only [eepromRead]
    rw [hget12]
    omega
  have hbnd13 : (13 : Nat) < ([n0, n1, n2, n3, n4, n5, toUInt16n sT % 256, toUInt16n sT / 256 % 256, toUInt16n sA % 256, toUInt16n sA / 256 % 256, sm % 256, sm / 256 % 256, sm / 65536 % 256, sm / 16777216 % 256, fan, alw, o1, o2, o3, s2 % 256, s2 / 256 % 256, s3 % 256, s3 / 256 % 256, cOn, cOff, hum % 256, hum / 256 % 256, toUInt16n aT % 256, toUInt16n aT / 256 % 256, toUInt16n aA % 256, toUInt16n aA / 256 % 256, g1, g2, g3] : List Nat).length := by rw [hlen34]; omega
  have hget13 := eepromWriteBytes_get e A [n0, n1, n2, n3, n4, n5, toUInt16n sT % 256, toUInt16n sT / 256 % 256, toUInt16n sA % 256, toUInt16n sA / 256 % 256, sm % 256, sm / 256 % 256, sm / 65536 % 256, sm / 16777216 % 256, fan, alw, o1, o2, o3, s2 % 256, s2 / 256 % 256, s3 % 256, s3 / 256 % 256, cOn, cOff, hum % 256, hum / 256 % 256, toUInt16n aT % 256, toUInt16n aT / 256 % 256, toUInt16n aA % 256, toUInt16n aA / 256 % 256, g1, g2, g3] 13 hbnd13
  rw [show ([n0, n1, n2, n3, n4, n5, toUInt16n sT % 256, toUInt16n sT / 256 % 256, toUInt16n sA % 256, toUInt16n sA / 256 % 256, sm % 256, sm / 256 % 256, sm / 65536 % 256, sm / 16777216 % 256, fan, alw, o1, o2, o3, s2 % 256, s2 / 256 % 256, s3 % 256, s3 / 256 % 256, cOn, cOff, hum % 256, hum / 256 % 256, toUInt16n aT % 256, toUInt16n aT / 256 % 256, toUInt16n aA % 256, toUInt16n aA / 256 % 256, g1, g2, g3] : List Nat).get ⟨13, hbnd13⟩ = sm / 16777216 % 256 from rfl] at hget13
  have hr13 : eepromRead (eepromWriteBytes e A [n0, n1, n2, n3, n4, n5, toUInt16n sT % 256, toUInt16n sT / 256 % 256, toUInt16n sA % 256, toUInt16n sA / 256 % 256, sm % 256, sm / 256 % 256, sm / 65536 % 256, sm / 16777216 % 256, fan, alw, o1, o2, o3, s2 % 256, s2 / 256 % 256, s3 % 256, s3 / 256 % 256, cOn, cOff, hum % 256, hum / 256 % 256, toUInt16n aT % 256, toUInt16n aT / 256 % 256, toUInt16n aA % 256, toUInt16n aA / 256 % 256, g1, g2, g3]) (A + 13) = sm / 16777216 % 256 := by
    simp only [eepromRead]
    rw [hget13]
    omega
  have hbnd14 : (14 : Nat) < ([n0, n1, n2, n3, n4, n5, toUInt16n sT % 256, toUInt16n sT / 256 % 256, toUInt16n sA % 256, toUInt16n sA / 256 % 256, sm % 256, sm / 256 % 256, sm / 65536 % 256, sm / 16777216 % 256, fan, alw, o1, o2, o3, s2 % 256, s2 / 256 % 256, s3 % 256, s3 / 256 % 256, cOn, cOff, hum % 256, hum / 256 % 256, toUInt16n aT % 256, toUInt16n aT / 256 % 256, toUInt16n aA % 256, toUInt16n aA / 256 % 256, g1, g2, g3] : List Nat).length := by rw [hlen34]; omega
  have hget14 := eepromWriteBytes_get e A [n0, n1, n2, n3, n4, n5, toUInt16n sT % 256, toUInt16n sT / 256 % 256, toUInt16n sA % 256, toUInt16n sA / 256 % 256, sm % 256, sm / 256 % 256, sm / 65536 % 256, sm / 16777216 % 256, fan, alw, o1, o2, o3, s2 % 256, s2 / 256 % 256, s3 % 256, s3 / 256 % 256, cOn, cOff, hum % 256, hum / 256 % 256, toUInt16n aT % 256, toUInt16n aT / 256 % 256, toUInt16n aA % 256, toUInt16n aA / 256 % 256, g1, g2, g3] 14 hbnd14
  rw [show ([n0, n1, n2, n3, n4, n5, toUInt16n sT % 256, toUInt16n sT / 256 % 256, toUInt16n sA % 256, toUInt16n sA / 256 % 256, sm % 256, sm / 256 % 256, sm / 65536 % 256, sm / 16777216 % 256, fan, alw, o1, o2, o3, s2 % 256, s2 / 256 % 256, s3 % 256, s3 / 256 % 256, cOn, cOff, hum % 256, hum / 256 % 256, toUInt16n aT % 256, toUInt16n aT / 256 % 256, toUInt16n aA % 256, toUInt16n aA / 256 % 256, g1, g2, g3] : List Nat).get ⟨14, hbnd14⟩ = fan from rfl] at hget14
  have hr14 : eepromRead (eepromWriteBytes e A [n0, n1, n2, n3, n4, n5, toUInt16n sT % 256, toUInt16n sT / 256 % 256, toUInt16n sA % 256, toUInt16n sA / 256 % 256, sm % 256, sm / 256 % 256, sm / 65536 % 256, sm / 16777216 % 256, fan, alw, o1, o2, o3, s2 % 256, s2 / 256 % 256, s3 % 256, s3 / 256 % 256, cOn, cOff, hum % 256, hum / 256 % 256, toUInt16n aT % 256, toUInt16n aT / 256 % 256, toUInt16n aA % 256, toUInt16n aA / 256 % 256, g1, g2, g3]) (A + 14) = fan := by
    simp only [eepromRead]
    rw [hget14]
    omega
  have hbnd15 : (15 : Nat) < ([n0, n1, n2, n3, n4, n5, toUInt16n sT % 256, toUInt16n sT / 256 % 256, toUInt16n sA % 256, toUInt16n sA / 256 % 256, sm % 256, sm / 256 % 256, sm / 65536 % 256, sm / 16777216 % 256, fan, alw, o1, o2, o3, s2 % 256, s2 / 256 % 256, s3 % 256, s3 / 256 % 256, cOn, cOff, hum % 256, hum / 256 % 256, toUInt16n aT % 256, toUInt16n aT / 256 % 256, toUInt16n aA % 256, toUInt16n aA / 256 % 256, g1, g2, g3] : List Nat).length := by rw [hlen34]; omega
  have hget15 := eepromWriteBytes_get e A [n0, n1, n2, n3, n4, n5, toUInt16n sT % 256, toUInt16n sT / 256 % 256, toUInt16n sA % 256, toUInt16n sA / 256 % 256, sm % 256, sm / 256 % 256, sm / 65536 % 256, sm / 16777216 % 256, fan, alw, o1, o2, o3, s2 % 256, s2 / 256 % 256, s3 % 256, s3 / 256 % 256, cOn, cOff, hum % 256, hum / 256 % 256, toUInt16n aT % 256, toUInt16n aT / 256 % 256, toUInt16n aA % 256, toUInt16n aA / 256 % 256, g1, g2, g3] 15 hbnd15
  rw [show ([n0, n1, n2, n3, n4, n5, toUInt16n sT % 256, toUInt16n sT / 256 % 256, toUInt16n sA % 256, toUInt16n sA / 256 % 256, sm % 256, sm / 256 % 256, sm / 65536 % 256, sm / 16777216 % 256, fan, alw, o1, o2, o3, s2 % 256, s2 / 256 % 256, s3 % 256, s3 / 256 % 256, cOn, cOff, hum % 256, hum / 256 % 256, toUInt16n aT % 256, toUInt16n aT / 256 % 256, toUInt16n aA % 256, toUInt16n aA / 256 % 256, g1, g2, g3] : List Nat).get ⟨15, hbnd15⟩ = alw from rfl] at hget15
  have hr15 : eepromRead (eepromWriteBytes e A [n0, n1, n2, n3, n4, n5, toUInt16n sT % 256, toUInt16n sT / 256 % 256, toUInt16n sA % 256, toUInt16n sA / 256 % 256, sm % 256, sm / 256 % 256, sm / 65536 % 256, sm / 16777216 % 256, fan, alw, o1, o2, o3, s2 % 256, s2 / 256 % 256, s3 % 256, s3 / 256 % 256, cOn, cOff, hum % 256, hum / 256 % 256, toUInt16n aT % 256, toUInt16n aT / 256 % 256, toUInt16n aA % 256, toUInt16n aA / 256 % 256, g1, g2, g3]) (A + 15) = alw := by
    simp only [eepromRead]
    rw [hget15]
    omega
  have hbnd16 : (16 : Nat) < ([n0, n1, n2, n3, n4, n5, toUInt16n sT % 256, toUInt16n sT / 256 % 256, toUInt16n sA % 256, toUInt16n sA / 256 % 256, sm % 256, sm / 256 % 256, sm / 65536 % 256, sm / 16777216 % 256, fan, alw, o1, o2, o3, s2 % 256, s2 / 256 % 256, s3 % 256, s3 / 256 % 256, cOn, cOff, hum % 256, hum / 256 % 256, toUInt16n aT % 256, toUInt16n aT / 256 % 256, toUInt16n aA % 256, toUInt16n aA / 256 % 256, g1, g2, g3] : List Nat).length := by rw [hlen34]; omega
  have hget16 := eepromWriteBytes_get e A [n0, n1, n2, n3, n4, n5, toUInt16n sT % 256, toUInt16n sT / 256 % 256, toUInt16n sA % 256, toUInt16n sA / 256 % 256, sm % 256, sm / 256 % 256, sm / 65536 % 256, sm / 16777216 % 256, fan, alw, o1, o2, o3, s2 % 256, s2 / 256 % 256, s3 % 256, s3 / 256 % 256, cOn, cOff, hum % 256, hum / 256 % 256, toUInt16n aT % 256, toUInt16n aT / 256 % 256, toUInt16n aA % 256, toUInt16n aA / 256 % 256, g1, g2, g3] 16 hbnd16
  rw [show ([n0, n1, n2, n3, n4, n5, toUInt16n sT % 256, toUInt16n sT / 256 % 256, toUInt16n sA % 256, toUInt16n sA / 256 % 256, sm % 256, sm / 256 % 256, sm / 65536 % 256, sm / 16777216 % 256, fan, alw, o1, o2, o3, s2 % 256, s2 / 256 % 256, s3 % 256, s3 / 256 % 256, cOn, cOff, hum % 256, hum / 256 % 256, toUInt16n aT % 256, toUInt16n aT / 256 % 256, toUInt16n aA % 256, toUInt16n aA / 256 % 256, g1, g2, g3] : List Nat).get ⟨16, hbnd16⟩ = o1 from rfl] at hget16
  have hr16 : eepromRead (eepromWriteBytes e A [n0, n1, n2, n3, n4, n5, toUInt16n sT % 256, toUInt16n sT / 256 % 256, toUInt16n sA % 256, toUInt16n sA / 256 % 256, sm % 256, sm / 256 % 256, sm / 65536 % 256, sm / 16777216 % 256, fan, alw, o1, o2, o3, s2 % 256, s2 / 256 % 256, s3 % 256, s3 / 256 % 256, cOn, cOff, hum % 256, hum / 256 % 256, toUInt16n aT % 256, toUInt16n aT / 256 % 256, toUInt16n aA % 256, toUInt16n aA / 256 % 256, g1, g2, g3]) (A + 16) = o1 := by
    simp only [eepromRead]
    rw [hget16]
    omega
  have hbnd17 : (17 : Nat) < ([n0, n1, n2, n3, n4, n5, toUInt16n sT % 256, toUInt16n sT / 256 % 256, toUInt16n sA % 256, toUInt16n sA / 256 % 256, sm % 256, sm / 256 % 256, sm / 65536 % 256, sm / 16777216 % 256, fan, alw, o1, o2, o3, s2 % 256, s2 / 256 % 256, s3 % 256, s3 / 256 % 256, cOn, cOff, hum % 256, hum / 256 % 256, toUInt16n aT % 256, toUInt16n aT / 256 % 256, toUInt16n aA % 256, toUInt16n aA / 256 % 256, g1, g2, g3] : List Nat).length := by rw [hlen34]; omega
  have hget17 := eepromWriteBytes_get e A [n0, n1, n2, n3, n4, n5, toUInt16n sT % 256, toUInt16n sT / 256 % 256, toUInt16n sA % 256, toUInt16n sA / 256 % 256, sm % 256, sm / 256 % 256, sm / 65536 % 256, sm / 16777216 % 256, fan, alw, o1, o2, o3, s2 % 256, s2 / 256 % 256, s3 % 256, s3 / 256 % 256, cOn, cOff, hum % 256, hum / 256 % 256, toUInt16n aT % 256, toUInt16n aT / 256 % 256, toUInt16n aA % 256, toUInt16n aA / 256 % 256, g1, g2, g3] 17 hbnd17
  rw [show ([n0, n1, n2, n3, n4, n5, toUInt16n sT % 256, toUInt16n sT / 256 % 256, toUInt16n sA % 256, toUInt16n sA / 256 % 256, sm % 256, sm / 256 % 256, sm / 65536 % 256, sm / 16777216 % 256, fan, alw, o1, o2, o3, s2 % 256, s2 / 256 % 256, s3 % 256, s3 / 256 % 256, cOn, cOff, hum % 256, hum / 256 % 256, toUInt16n aT % 256, toUInt16n aT / 256 % 256, toUInt16n aA % 256, toUInt16n aA / 256 % 256, g1, g2, g3] : List Nat).get ⟨17, hbnd17⟩ = o2 from rfl] at hget17
  have hr17 : eepromRead (eepromWriteBytes e A [n0, n1, n2, n3, n4, n5, toUInt16n sT % 256, toUInt16n sT / 256 % 256, toUInt16n sA % 256, toUInt16n sA / 256 % 256, sm % 256, sm / 256 % 256, sm / 65536 % 256, sm / 16777216 % 256, fan, alw, o1, o2, o3, s2 % 256, s2 / 256 % 256, s3 % 256, s3 / 256 % 256, cOn, cOff, hum % 256, hum / 256 % 256, toUInt16n aT % 256, toUInt16n aT / 256 % 256, toUInt16n aA % 256, toUInt16n aA / 256 % 256, g1, g2, g3]) (A + 17) = o2 := by
    simp only [eepromRead]
    rw [hget17]
    omega
  have hbnd18 : (18 : Nat) < ([n0, n1, n2, n3, n4, n5, toUInt16n sT % 256, toUInt16n sT / 256 % 256, toUInt16n sA % 256, toUInt16n sA / 256 % 256, sm % 256, sm / 256 % 256, sm / 65536 % 256, sm / 16777216 % 256, fan, alw, o1, o2, o3, s2 % 256, s2 / 256 % 256, s3 % 256, s3 / 256 % 256, cOn, cOff, hum % 256, hum / 256 % 256, toUInt16n aT % 256, toUInt16n aT / 256 % 256, toUInt16n aA % 256, toUInt16n aA / 256 % 256, g1, g2, g3] : List Nat).length := by rw [hlen34]; omega
  have hget18 := eepromWriteBytes_get e A [n0, n1, n2, n3, n4, n5, toUInt16n sT % 256, toUInt16n sT / 256 % 256, toUInt16n sA % 256, toUInt16n sA / 256 % 256, sm % 256, sm / 256 % 256, sm / 65536 % 256, sm / 16777216 % 256, fan, alw, o1, o2, o3, s2 % 256, s2 / 256 % 256, s3 % 256, s3 / 256 % 256, cOn, cOff, hum % 256, hum / 256 % 256, toUInt16n aT % 256, toUInt16n aT / 256 % 256, toUInt16n aA % 256, toUInt16n aA / 256 % 256, g1, g2, g3] 18 hbnd18
  rw [show ([n0, n1, n2, n3, n4, n5, toUInt16n sT % 256, toUInt16n sT / 256 % 256, toUInt16n sA % 256, toUInt16n sA / 256 % 256, sm % 256, sm / 256 % 256, sm / 65536 % 256, sm / 16777216 % 256, fan, alw, o1, o2, o3, s2 % 256, s2 / 256 % 256, s3 % 256, s3 / 256 % 256, cOn, cOff, hum % 256, hum / 256 % 256, toUInt16n aT % 256, toUInt16n aT / 256 % 256, toUInt16n aA % 256, toUInt16n aA / 256 % 256, g1, g2, g3] : List Nat).get ⟨18, hbnd18⟩ = o3 from rfl] at hget18
  have hr18 : eepromRead (eepromWriteBytes e A [n0, n1, n2, n3, n4, n5, toUInt16n sT % 256, toUInt16n sT / 256 % 256, toUInt16n sA % 256, toUInt16n sA / 256 % 256, sm % 256, sm / 256 % 256, sm / 65536 % 256, sm / 16777216 % 256, fan, alw, o1, o2, o3, s2 % 256, s2 / 256 % 256, s3 % 256, s3 / 256 % 256, cOn, cOff, hum % 256, hum / 256 % 256, toUInt16n aT % 256, toUInt16n aT / 256 % 256, toUInt16n aA % 256, toUInt16n aA / 256 % 256, g1, g2, g3]) (A + 18) = o3 := by
    simp only [eepromRead]
    rw [hget18]
    omega
  have hbnd19 : (19 : Nat) < ([n0, n1, n2, n3, n4, n5, toUInt16n sT % 256, toUInt16n sT / 256 % 256, toUInt16n sA % 256, toUInt16n sA / 256 % 256, sm % 256, sm / 256 % 256, sm / 65536 % 256, sm / 16777216 % 256, fan, alw, o1, o2, o3, s2 % 256, s2 / 256 % 256, s3 % 256, s3 / 256 % 256, cOn, cOff, hum % 256, hum / 256 % 256, toUInt16n aT % 256, toUInt16n aT / 256 % 256, toUInt16n aA % 256, toUInt16n aA / 256 % 256, g1, g2, g3] : List Nat).length := by rw [hlen34]; omega
  have hget19 := eepromWriteBytes_get e A [n0, n1, n2, n3, n4, n5, toUInt16n sT % 256, toUInt16n sT / 256 % 256, toUInt16n sA % 256, toUInt16n sA / 256 % 256, sm % 256, sm / 256 % 256, sm / 65536 % 256, sm / 16777216 % 256, fan, alw, o1, o2, o3, s2 % 256, s2 / 256 % 256, s3 % 256, s3 / 256 % 256, cOn, cOff, hum % 256, hum / 256 % 256, toUInt16n aT % 256, toUInt16n aT / 256 % 256, toUInt16n aA % 256, toUInt16n aA / 256 % 256, g1, g2, g3] 19 hbnd19
  rw [show ([n0, n1, n2, n3, n4, n5, toUInt16n sT % 256, toUInt16n sT / 256 % 256, toUInt16n sA % 256, toUInt16n sA / 256 % 256, sm % 256, sm / 256 % 256, sm / 65536 % 256, sm / 16777216 % 256, fan, alw, o1, o2, o3, s2 % 256, s2 / 256 % 256, s3 % 256, s3 / 256 % 256, cOn, cOff, hum % 256, hum / 256 % 256, toUInt16n aT % 256, toUInt16n aT / 256 % 256, toUInt16n aA % 256, toUInt16n aA / 256 % 256, g1, g2, g3] : List Nat).get ⟨19, hbnd19⟩ = s2 % 256 from rfl] at hget19
  have hr19 : eepromRead (eepromWriteBytes e A [n0, n1, n2, n3, n4, n5, toUInt16n sT % 256, toUInt16n sT / 256 % 256, toUInt16n sA % 256, toUInt16n sA / 256 % 256, sm % 256, sm / 256 % 256, sm / 65536 % 256, sm / 16777216 % 256, fan, alw, o1, o2, o3, s2 % 256, s2 / 256 % 256, s3 % 256, s3 / 256 % 256, cOn, cOff, hum % 256, hum / 256 % 256, toUInt16n aT % 256, toUInt16n aT / 256 % 256, toUInt16n aA % 256, toUInt16n aA / 256 % 256, g1, g2, g3]) (A + 19) = s2 % 256 := by
    simp only [eepromRead]
    rw [hget19]
    omega
  have hbnd20 : (20 : Nat) < ([n0, n1, n2, n3, n4, n5, toUInt16n sT % 256, toUInt16n sT / 256 % 256, toUInt16n sA % 256, toUInt16n sA / 256 % 256, sm % 256, sm / 256 % 256, sm / 65536 % 256, sm / 16777216 % 256, fan, alw, o1, o2, o3, s2 % 256, s2 / 256 % 256, s3 % 256, s3 / 256 % 256, cOn, cOff, hum % 256, hum / 256 % 256, toUInt16n aT % 256, toUInt16n aT / 256 % 256, toUInt16n aA % 256, toUInt16n aA / 256 % 256, g1, g2, g3] : List Nat).length := by rw [hlen34]; omega
  have hget20 := eepromWriteBytes_get e A [n0, n1, n2, n3, n4, n5, toUInt16n sT % 256, toUInt16n sT / 256 % 256, toUInt16n sA % 256, toUInt16n sA / 256 % 256, sm % 256, sm / 256 % 256, sm / 65536 % 256, sm / 16777216 % 256, fan, alw, o1, o2, o3, s2 % 256, s2 / 256 % 256, s3 % 256, s3 / 256 % 256, cOn, cOff, hum % 256, hum / 256 % 256, toUInt16n aT % 256, toUInt16n aT / 256 % 256, toUInt16n aA % 256, toUInt16n aA / 256 % 256, g1, g2, g3] 20 hbnd20
  rw [show ([n0, n1, n2, n3, n4, n5, toUInt16n sT % 256, toUInt16n sT / 256 % 256, toUInt16n sA % 256, toUInt16n sA / 256 % 256, sm % 256, sm / 256 % 256, sm / 65536 % 256, sm / 16777216 % 256, fan, alw, o1, o2, o3, s2 % 256, s2 / 256 % 256, s3 % 256, s3 / 256 % 256, cOn, cOff, hum % 256, hum / 256 % 256, toUInt16n aT % 256, toUInt16n aT / 256 % 256, toUInt16n aA % 256, toUInt16n aA / 256 % 256, g1, g2, g3] : List Nat).get ⟨20, hbnd20⟩ = s2 / 256 % 256 from rfl] at hget20
  have hr20 : eepromRead (eepromWriteBytes e A [n0, n1, n2, n3, n4, n5, toUInt16n sT % 256, toUInt16n sT / 256 % 256, toUInt16n sA % 256, toUInt16n sA / 256 % 256, sm % 256, sm / 256 % 256, sm / 65536 % 256, sm / 16777216 % 256, fan, alw, o1, o2, o3, s2 % 256, s2 / 256 % 256, s3 % 256, s3 / 256 % 256, cOn, cOff, hum % 256, hum / 256 % 256, toUInt16n aT % 256, toUInt16n aT / 256 % 256, toUInt16n aA % 256, toUInt16n aA / 256 % 256, g1, g2, g3]) (A + 20) = s2 / 256 % 256 := by
    simp only [eepromRead]
    rw [hget20]
    omega
  have hbnd21 : (21 : Nat) < ([n0, n1, n2, n3, n4, n5, toUInt16n sT % 256, toUInt16n sT / 256 % 256, toUInt16n sA % 256, toUInt16n sA / 256 % 256, sm % 256, sm / 256 % 256, sm / 65536 % 256, sm / 16777216 % 256, fan, alw, o1, o2, o3, s2 % 256, s2 / 256 % 256, s3 % 256, s3 / 256 % 256, cOn, cOff, hum % 256, hum / 256 % 256, toUInt16n aT % 256, toUInt16n aT / 256 % 256, toUInt16n aA % 256, toUInt16n aA / 256 % 256, g1, g2, g3] : List Nat).length := by rw [hlen34]; omega
  have hget21 := eepromWriteBytes_get e A [n0, n1, n2, n3, n4, n5, toUInt16n sT % 256, toUInt16n sT / 256 % 256, toUInt16n sA % 256, toUInt16n sA / 256 % 256, sm % 256, sm / 256 % 256, sm / 65536 % 256, sm / 16777216 % 256, fan, alw, o1, o2, o3, s2 % 256, s2 / 256 % 256, s3 % 256, s3 / 256 % 256, cOn, cOff, hum % 256, hum / 256 % 256, toUInt16n aT % 256, toUInt16n aT / 256 % 256, toUInt16n aA % 256, toUInt16n aA / 256 % 256, g1, g2, g3] 21 hbnd21
  rw [show ([n0, n1, n2, n3, n4, n5, toUInt16n sT % 256, toUInt16n sT / 256 % 256, toUInt16n sA % 256, toUInt16n sA / 256 % 256, sm % 256, sm / 256 % 256, sm / 65536 % 256, sm / 16777216 % 256, fan, alw, o1, o2, o3, s2 % 256, s2 / 256 % 256, s3 % 256, s3 / 256 % 256, cOn, cOff, hum % 256, hum / 256 % 256, toUInt16n aT % 256, toUInt16n aT / 256 % 256, toUInt16n aA % 256, toUInt16n aA / 256 % 256, g1, g2, g3] : List Nat).get ⟨21, hbnd21⟩ = s3 % 256 from rfl] at hget21
  have hr21 : eepromRead (eepromWriteBytes e A [n0, n1, n2, n3, n4, n5, toUInt16n sT % 256, toUInt16n sT / 256 % 256, toUInt16n sA % 256, toUInt16n sA / 256 % 256, sm % 256, sm / 256 % 256, sm / 65536 % 256, sm / 16777216 % 256, fan, alw, o1, o2, o3, s2 % 256, s2 / 256 % 256, s3 % 256, s3 / 256 % 256, cOn, cOff, hum % 256, hum / 256 % 256, toUInt16n aT % 256, toUInt16n aT / 256 % 256, toUInt16n aA % 256, toUInt16n aA / 256 % 256, g1, g2, g3]) (A + 21) = s3 % 256 := by
    simp only [eepromRead]
    rw [hget21]
    omega
  have hbnd22 : (22 : Nat) < ([n0, n1, n2, n3, n4, n5, toUInt16n sT % 256, toUInt16n sT / 256 % 256, toUInt16n sA % 256, toUInt16n sA / 256 % 256, sm % 256, sm / 256 % 256, sm / 65536 % 256, sm / 16777216 % 256, fan, alw, o1, o2, o3, s2 % 256, s2 / 256 % 256, s3 % 256, s3 / 256 % 256, cOn, cOff, hum % 256, hum / 256 % 256, toUInt16n aT % 256, toUInt16n aT / 256 % 256, toUInt16n aA % 256, toUInt16n aA / 256 % 256, g1, g2, g3] : List Nat).length := by rw [hlen34]; omega
  have hget22 := eepromWriteBytes_get e A [n0, n1, n2, n3, n4, n5, toUInt16n sT % 256, toUInt16n sT / 256 % 256, toUInt16n sA % 256, toUInt16n sA / 256 % 256, sm % 256, sm / 256 % 256, sm / 65536 % 256, sm / 16777216 % 256, fan, alw, o1, o2, o3, s2 % 256, s2 / 256 % 256, s3 % 256, s3 / 256 % 256, cOn, cOff, hum % 256, hum / 256 % 256, toUInt16n aT % 256, toUInt16n aT / 256 % 256, toUInt16n aA % 256, toUInt16n aA / 256 % 256, g1, g2, g3] 22 hbnd22
  rw [show ([n0, n1, n2, n3, n4, n5, toUInt16n sT % 256, toUInt16n sT / 256 % 256, toUInt16n sA % 256, toUInt16n sA / 256 % 256, sm % 256, sm / 256 % 256, sm / 65536 % 256, sm / 16777216 % 256, fan, alw, o1, o2, o3, s2 % 256, s2 / 256 % 256, s3 % 256, s3 / 256 % 256, cOn, cOff, hum % 256, hum / 256 % 256, toUInt16n aT % 256, toUInt16n aT / 256 % 256, toUInt16n aA % 256, toUInt16n aA / 256 % 256, g1, g2, g3] : List Nat).get ⟨22, hbnd22⟩ = s3 / 256 % 256 from rfl] at hget22
  have hr22 : eepromRead (eepromWriteBytes e A [n0, n1, n2, n3, n4, n5, toUInt16n sT % 256, toUInt16n sT / 256 % 256, toUInt16n sA % 256, toUInt16n sA / 256 % 256, sm % 256, sm / 256 % 256, sm / 65536 % 256, sm / 16777216 % 256, fan, alw, o1, o2, o3, s2 % 256, s2 / 256 % 256, s3 % 256, s3 / 256 % 256, cOn, cOff, hum % 256, hum / 256 % 256, toUInt16n aT % 256, toUInt16n aT / 256 % 256, toUInt16n aA % 256, toUInt16n aA / 256 % 256, g1, g2, g3]) (A + 22) = s3 / 256 % 256 := by
    simp only [eepromRead]
    rw [hget22]
    omega
  have hbnd23 : (23 : Nat) < ([n0, n1, n2, n3, n4, n5, toUInt16n sT % 256, toUInt16n sT / 256 % 256, toUInt16n sA % 256, toUInt16n sA / 256 % 256, sm % 256, sm / 256 % 256, sm / 65536 % 256, sm / 16777216 % 256, fan, alw, o1, o2, o3, s2 % 256, s2 / 256 % 256, s3 % 256, s3 / 256 % 256, cOn, cOff, hum % 256, hum / 256 % 256, toUInt16n aT % 256, toUInt16n aT / 256 % 256, toUInt16n aA % 256, toUInt16n aA / 256 % 256, g1, g2, g3] : List Nat).length := by rw [hlen34]; omega
  have hget23 := eepromWriteBytes_get e A [n0, n1, n2, n3, n4, n5, toUInt16n sT % 256, toUInt16n sT / 256 % 256, toUInt16n sA % 256, toUInt16n sA / 256 % 256, sm % 256, sm / 256 % 256, sm / 65536 % 256, sm / 16777216 % 256, fan, alw, o1, o2, o3, s2 % 256, s2 / 256 % 256, s3 % 256, s3 / 256 % 256, cOn, cOff, hum % 256, hum / 256 % 256, toUInt16n aT % 256, toUInt16n aT / 256 % 256, toUInt16n aA % 256, toUInt16n aA / 256 % 256, g1, g2, g3] 23 hbnd23
  rw [show ([n0, n1, n2, n3, n4, n5, toUInt16n sT % 256, toUInt16n sT / 256 % 256, toUInt16n sA % 256, toUInt16n sA / 256 % 256, sm % 256, sm / 256 % 256, sm / 65536 % 256, sm / 16777216 % 256, fan, alw, o1, o2, o3, s2 % 256, s2 / 256 % 256, s3 % 256, s3 / 256 % 256, cOn, cOff, hum % 256, hum / 256 % 256, toUInt16n aT % 256, toUInt16n aT / 256 % 256, toUInt16n aA % 256, toUInt16n aA / 256 % 256, g1, g2, g3] : List Nat).get ⟨23, hbnd23⟩ = cOn from rfl] at hget23
  have hr23 : eepromRead (eepromWriteBytes e A [n0, n1, n2, n3, n4, n5, toUInt16n sT % 256, toUInt16n sT / 256 % 256, toUInt16n sA % 256, toUInt16n sA / 256 % 256, sm % 256, sm / 256 % 256, sm / 65536 % 256, sm / 16777216 % 256, fan, alw, o1, o2, o3, s2 % 256, s2 / 256 % 256, s3 % 256, s3 / 256 % 256, cOn, cOff, hum % 256, hum / 256 % 256, toUInt16n aT % 256, toUInt16n aT / 256 % 256, toUInt16n aA % 256, toUInt16n aA / 256 % 256, g1, g2, g3]) (A + 23) = cOn := by
    simp only [eepromRead]
    rw [hget23]
    omega
  have hbnd24 : (24 : Nat) < ([n0, n1, n2, n3, n4, n5, toUInt16n sT % 256, toUInt16n sT / 256 % 256, toUInt16n sA % 256, toUInt16n sA / 256 % 256, sm % 256, sm / 256 % 256, sm / 65536 % 256, sm / 16777216 % 256, fan, alw, o1, o2, o3, s2 % 256, s2 / 256 % 256, s3 % 256, s3 / 256 % 256, cOn, cOff, hum % 256, hum / 256 % 256, toUInt16n aT % 256, toUInt16n aT / 256 % 256, toUInt16n aA % 256, toUInt16n aA / 256 % 256, g1, g2, g3] : List Nat).length := by rw [hlen34]; omega
  have hget24 := eepromWriteBytes_get e A [n0, n1, n2, n3, n4, n5, toUInt16n sT % 256, toUInt16n sT / 256 % 256, toUInt16n sA % 256, toUInt16n sA / 256 % 256, sm % 256, sm / 256 % 256, sm / 65536 % 256, sm / 16777216 % 256, fan, alw, o1, o2, o3, s2 % 256, s2 / 256 % 256, s3 % 256, s3 / 256 % 256, cOn, cOff, hum % 256, hum / 256 % 256, toUInt16n aT % 256, toUInt16n aT / 256 % 256, toUInt16n aA % 256, toUInt16n aA / 256 % 256, g1, g2, g3] 24 hbnd24
  rw [show ([n0, n1, n2, n3, n4, n5, toUInt16n sT % 256, toUInt16n sT / 256 % 256, toUInt16n sA % 256, toUInt16n sA / 256 % 256, sm % 256, sm / 256 % 256, sm / 65536 % 256, sm / 16777216 % 256, fan, alw, o1, o2, o3, s2 % 256, s2 / 256 % 256, s3 % 256, s3 / 256 % 256, cOn, cOff, hum % 256, hum / 256 % 256, toUInt16n aT % 256, toUInt16n aT / 256 % 256, toUInt16n aA % 256, toUInt16n aA / 256 % 256, g1, g2, g3] : List Nat).get ⟨24, hbnd24⟩ = cOff from rfl] at hget24
  have hr24 : eepromRead (eepromWriteBytes e A [n0, n1, n2, n3, n4, n5, toUInt16n sT % 256, toUInt16n sT / 256 % 256, toUInt16n sA % 256, toUInt16n sA / 256 % 256, sm % 256, sm / 256 % 256, sm / 65536 % 256, sm / 16777216 % 256, fan, alw, o1, o2, o3, s2 % 256, s2 / 256 % 256, s3 % 256, s3 / 256 % 256, cOn, cOff, hum % 256, hum / 256 % 256, toUInt16n aT % 256, toUInt16n aT / 256 % 256, toUInt16n aA % 256, toUInt16n aA / 256 % 256, g1, g2, g3]) (A + 24) = cOff := by
    simp only [eepromRead]
    rw [hget24]
    omega
  have hbnd25 : (25 : Nat) < ([n0, n1, n2, n3, n4, n5, toUInt16n sT % 256, toUInt16n sT / 256 % 256, toUInt16n sA % 256, toUInt16n sA / 256 % 256, sm % 256, sm / 256 % 256, sm / 65536 % 256, sm / 16777216 % 256, fan, alw, o1, o2, o3, s2 % 256, s2 / 256 % 256, s3 % 256, s3 / 256 % 256, cOn, cOff, hum % 256, hum / 256 % 256, toUInt16n aT % 256, toUInt16n aT / 256 % 256, toUInt16n aA % 256, toUInt16n aA / 256 % 256, g1, g2, g3] : List Nat).length := by rw [hlen34]; omega
  have hget25 := eepromWriteBytes_get e A [n0, n1, n2, n3, n4, n5, toUInt16n sT % 256, toUInt16n sT / 256 % 256, toUInt16n sA % 256, toUInt16n sA / 256 % 256, sm % 256, sm / 256 % 256, sm / 65536 % 256, sm / 16777216 % 256, fan, alw, o1, o2, o3, s2 % 256, s2 / 256 % 256, s3 % 256, s3 / 256 % 256, cOn, cOff, hum % 256, hum / 256 % 256, toUInt16n aT % 256, toUInt16n aT / 256 % 256, toUInt16n aA % 256, toUInt16n aA / 256 % 256, g1, g2, g3] 25 hbnd25
  rw [show ([n0, n1, n2, n3, n4, n5, toUInt16n sT % 256, toUInt16n sT / 256 % 256, toUInt16n sA % 256, toUInt16n sA / 256 % 256, sm % 256, sm / 256 % 256, sm / 65536 % 256, sm / 16777216 % 256, fan, alw, o1, o2, o3, s2 % 256, s2 / 256 % 256, s3 % 256, s3 / 256 % 256, cOn, cOff, hum % 256, hum / 256 % 256, toUInt16n aT % 256, toUInt16n aT / 256 % 256, toUInt16n aA % 256, toUInt16n aA / 256 % 256, g1, g2, g3] : List Nat).get ⟨25, hbnd25⟩ = hum % 256 from rfl] at hget25
  have hr25 : eepromRead (eepromWriteBytes e A [n0, n1, n2, n3, n4, n5, toUInt16n sT % 256, toUInt16n sT / 256 % 256, toUInt16n sA % 256, toUInt16n sA / 256 % 256, sm % 256, sm / 256 % 256, sm / 65536 % 256, sm / 16777216 % 256, fan, alw, o1, o2, o3, s2 % 256, s2 / 256 % 256, s3 % 256, s3 / 256 % 256, cOn, cOff, hum % 256, hum / 256 % 256, toUInt16n aT % 256, toUInt16n aT / 256 % 256, toUInt16n aA % 256, toUInt16n aA / 256 % 256, g1, g2, g3]) (A + 25) = hum % 256 := by
    simp only [eepromRead]
    rw [hget25]
    omega
  have hbnd26 : (26 : Nat) < ([n0, n1, n2, n3, n4, n5, toUInt16n sT % 256, toUInt16n sT / 256 % 256, toUInt16n sA % 256, toUInt16n sA / 256 % 256, sm % 256, sm / 256 % 256, sm / 65536 % 256, sm / 16777216 % 256, fan, alw, o1, o2, o3, s2 % 256, s2 / 256 % 256, s3 % 256, s3 / 256 % 256, cOn, cOff, hum % 256, hum / 256 % 256, toUInt16n aT % 256, toUInt16n aT / 256 % 256, toUInt16n aA % 256, toUInt16n aA / 256 % 256, g1, g2, g3] : List Nat).length := by rw [hlen34]; omega
  have hget26 := eepromWriteBytes_get e A [n0, n1, n2, n3, n4, n5, toUInt16n sT % 256, toUInt16n sT / 256 % 256, toUInt16n sA % 256, toUInt16n sA / 256 % 256, sm % 256, sm / 256 % 256, sm / 65536 % 256, sm / 16777216 % 256, fan, alw, o1, o2, o3, s2 % 256, s2 / 256 % 256, s3 % 256, s3 / 256 % 256, cOn, cOff, hum % 256, hum / 256 % 256, toUInt16n aT % 256, toUInt16n aT / 256 % 256, toUInt16n aA % 256, toUInt16n aA / 256 % 256, g1, g2, g3] 26 hbnd26
  rw [show ([n0, n1, n2, n3, n4, n5, toUInt16n sT % 256, toUInt16n sT / 256 % 256, toUInt16n sA % 256, toUInt16n sA / 256 % 256, sm % 256, sm / 256 % 256, sm / 65536 % 256, sm / 16777216 % 256, fan, alw, o1, o2, o3, s2 % 256, s2 / 256 % 256, s3 % 256, s3 / 256 % 256, cOn, cOff, hum % 256, hum / 256 % 256, toUInt16n aT % 256, toUInt16n aT / 256 % 256, toUInt16n aA % 256, toUInt16n aA / 256 % 256, g1, g2, g3] : List Nat).get ⟨26, hbnd26⟩ = hum / 256 % 256 from rfl] at hget26
  have hr26 : eepromRead (eepromWriteBytes e A [n0, n1, n2, n3, n4, n5, toUInt16n sT % 256, toUInt16n sT / 256 % 256, toUInt16n sA % 256, toUInt16n sA / 256 % 256, sm % 256, sm / 256 % 256, sm / 65536 % 256, sm / 16777216 % 256, fan, alw, o1, o2, o3, s2 % 256, s2 / 256 % 256, s3 % 256, s3 / 256 % 256, cOn, cOff, hum % 256, hum / 256 % 256, toUInt16n aT % 256, toUInt16n aT / 256 % 256, toUInt16n aA % 256, toUInt16n aA / 256 % 256, g1, g2, g3]) (A + 26) = hum / 256 % 256 := by
    simp only [eepromRead]
    rw [hget26]
    omega
  have hbnd27 : (27 : Nat) < ([n0, n1, n2, n3, n4, n5, toUInt16n sT % 256, toUInt16n sT / 256 % 256, toUInt16n sA % 256, toUInt16n sA / 256 % 256, sm % 256, sm / 256 % 256, sm / 65536 % 256, sm / 16777216 % 256, fan, alw, o1, o2, o3, s2 % 256, s2 / 256 % 256, s3 % 256, s3 / 256 % 256, cOn, cOff, hum % 256, hum / 256 % 256, toUInt16n aT % 256, toUInt16n aT / 256 % 256, toUInt16n aA % 256, toUInt16n aA / 256 % 256, g1, g2, g3] : List Nat).length := by rw [hlen34]; omega
  have hget27 := eepromWriteBytes_get e A [n0, n1, n2, n3, n4, n5, toUInt16n sT % 256, toUInt16n sT / 256 % 256, toUInt16n sA % 256, toUInt16n sA / 256 % 256, sm % 256, sm / 256 % 256, sm / 65536 % 256, sm / 16777216 % 256, fan, alw, o1, o2, o3, s2 % 256, s2 / 256 % 256, s3 % 256, s3 / 256 % 256, cOn, cOff, hum % 256, hum / 256 % 256, toUInt16n aT % 256, toUInt16n aT / 256 % 256, toUInt16n aA % 256, toUInt16n aA / 256 % 256, g1, g2, g3] 27 hbnd27
  rw [show ([n0, n1, n2, n3, n4, n5, toUInt16n sT % 256, toUInt16n sT / 256 % 256, toUInt16n sA % 256, toUInt16n sA / 256 % 256, sm % 256, sm / 256 % 256, sm / 65536 % 256, sm / 16777216 % 256, fan, alw, o1, o2, o3, s2 % 256, s2 / 256 % 256, s3 % 256, s3 / 256 % 256, cOn, cOff, hum % 256, hum / 256 % 256, toUInt16n aT % 256, toUInt16n aT / 256 % 256, toUInt16n aA % 256, toUInt16n aA / 256 % 256, g1, g2, g3] : List Nat).get ⟨27, hbnd27⟩ = toUInt16n aT % 256 from rfl] at hget27
  have hr27 : eepromRead (eepromWriteBytes e A [n0, n1, n2, n3, n4, n5, toUInt16n sT % 256, toUInt16n sT / 256 % 256, toUInt16n sA % 256, toUInt16n sA / 256 % 256, sm % 256, sm / 256 % 256, sm / 65536 % 256, sm / 16777216 % 256, fan, alw, o1, o2, o3, s2 % 256, s2 / 256 % 256, s3 % 256, s3 / 256 % 256, cOn, cOff, hum % 256, hum / 256 % 256, toUInt16n aT % 256, toUInt16n aT / 256 % 256, toUInt16n aA % 256, toUInt16n aA / 256 % 256, g1, g2, g3]) (A + 27) = toUInt16n aT % 256 := by
    simp only [eepromRead]
    rw [hget27]
    omega
  have hbnd28 : (28 : Nat) < ([n0, n1, n2, n3, n4, n5, toUInt16n sT % 256, toUInt16n sT / 256 % 256, toUInt16n sA % 256, toUInt16n sA / 256 % 256, sm % 256, sm / 256 % 256, sm / 65536 % 256, sm / 16777216 % 256, fan, alw, o1, o2, o3, s2 % 256, s2 / 256 % 256, s3 % 256, s3 / 256 % 256, cOn, cOff, hum % 256, hum / 256 % 256, toUInt16n aT % 256, toUInt16n aT / 256 % 256, toUInt16n aA % 256, toUInt16n aA / 256 % 256, g1, g2, g3] : List Nat).length := by rw [hlen34]; omega
  have hget28 := eepromWriteBytes_get e A [n0, n1, n2, n3, n4, n5, toUInt16n sT % 256, toUInt16n sT / 256 % 256, toUInt16n sA % 256, toUInt16n sA / 256 % 256, sm % 256, sm / 256 % 256, sm / 65536 % 256, sm / 16777216 % 256, fan, alw, o1, o2, o3, s2 % 256, s2 / 256 % 256, s3 % 256, s3 / 256 % 256, cOn, cOff, hum % 256, hum / 256 % 256, toUInt16n aT % 256, toUInt16n aT / 256 % 256, toUInt16n aA % 256, toUInt16n aA / 256 % 256, g1, g2, g3] 28 hbnd28
  rw [show ([n0, n1, n2, n3, n4, n5, toUInt16n sT % 256, toUInt16n sT / 256 % 256, toUInt16n sA % 256, toUInt16n sA / 256 % 256, sm % 256, sm / 256 % 256, sm / 65536 % 256, sm / 16777216 % 256, fan, alw, o1, o2, o3, s2 % 256, s2 / 256 % 256, s3 % 256, s3 / 256 % 256, cOn, cOff, hum % 256, hum / 256 % 256, toUInt16n aT % 256, toUInt16n aT / 256 % 256, toUInt16n aA % 256, toUInt16n aA / 256 % 256, g1, g2, g3] : List Nat).get ⟨28, hbnd28⟩ = toUInt16n aT / 256 % 256 from rfl] at hget28
  have hr28 : eepromRead (eepromWriteBytes e A [n0, n1, n2, n3, n4, n5, toUInt16n sT % 256, toUInt16n sT / 256 % 256, toUInt16n sA % 256, toUInt16n sA / 256 % 256, sm % 256, sm / 256 % 256, sm / 65536 % 256, sm / 16777216 % 256, fan, alw, o1, o2, o3, s2 % 256, s2 / 256 % 256, s3 % 256, s3 / 256 % 256, cOn, cOff, hum % 256, hum / 256 % 256, toUInt16n aT % 256, toUInt16n aT / 256 % 256, toUInt16n aA % 256, toUInt16n aA / 256 % 256, g1, g2, g3]) (A + 28) = toUInt16n aT / 256 % 256 := by
    simp only [eepromRead]
    rw [hget28]
    omega
  have hbnd29 : (29 : Nat) < ([n0, n1, n2, n3, n4, n5, toUInt16n sT % 256, toUInt16n sT / 256 % 256, toUInt16n sA % 256, toUInt16n sA / 256 % 256, sm % 256, sm / 256 % 256, sm / 65536 % 256, sm / 16777216 % 256, fan, alw, o1, o2, o3, s2 % 256, s2 / 256 % 256, s3 % 256, s3 / 256 % 256, cOn, cOff, hum % 256, hum / 256 % 256, toUInt16n aT % 256, toUInt16n aT / 256 % 256, toUInt16n aA % 256, toUInt16n aA / 256 % 256, g1, g2, g3] : List Nat).length := by rw [hlen34]; omega
  have hget29 := eepromWriteBytes_get e A [n0, n1, n2, n3, n4, n5, toUInt16n sT % 256, toUInt16n sT / 256 % 256, toUInt16n sA % 256, toUInt16n sA / 256 % 256, sm % 256, sm / 256 % 256, sm / 65536 % 256, sm / 16777216 % 256, fan, alw, o1, o2, o3, s2 % 256, s2 / 256 % 256, s3 % 256, s3 / 256 % 256, cOn, cOff, hum % 256, hum / 256 % 256, toUInt16n aT % 256, toUInt16n aT / 256 % 256, toUInt16n aA % 256, toUInt16n aA / 256 % 256, g1, g2, g3] 29 hbnd29
  rw [show ([n0, n1, n2, n3, n4, n5, toUInt16n sT % 256, toUInt16n sT / 256 % 256, toUInt16n sA % 256, toUInt16n sA / 256 % 256, sm % 256, sm / 256 % 256, sm / 65536 % 256, sm / 16777216 % 256, fan, alw, o1, o2, o3, s2 % 256, s2 / 256 % 256, s3 % 256, s3 / 256 % 256, cOn, cOff, hum % 256, hum / 256 % 256, toUInt16n aT % 256, toUInt16n aT / 256 % 256, toUInt16n aA % 256, toUInt16n aA / 256 % 256, g1, g2, g3] : List Nat).get ⟨29, hbnd29⟩ = toUInt16n aA % 256 from rfl] at hget29
  have hr29 : eepromRead (eepromWriteBytes e A [n0, n1, n2, n3, n4, n5, toUInt16n sT % 256, toUInt16n sT / 256 % 256, toUInt16n sA % 256, toUInt16n sA / 256 % 256, sm % 256, sm / 256 % 256, sm / 65536 % 256, sm / 16777216 % 256, fan, alw, o1, o2, o3, s2 % 256, s2 / 256 % 256, s3 % 256, s3 / 256 % 256, cOn, cOff, hum % 256, hum / 256 % 256, toUInt16n aT % 256, toUInt16n aT / 256 % 256, toUInt16n aA % 256, toUInt16n aA / 256 % 256, g1, g2, g3]) (A + 29) = toUInt16n aA % 256 := by
    simp only [eepromRead]
    rw [hget29]
    omega
  have hbnd30 : (30 : Nat) < ([n0, n1, n2, n3, n4, n5, toUInt16n sT % 256, toUInt16n sT / 256 % 256, toUInt16n sA % 256, toUInt16n sA / 256 % 256, sm % 256, sm / 256 % 256, sm / 65536 % 256, sm / 16777216 % 256, fan, alw, o1, o2, o3, s2 % 256, s2 / 256 % 256, s3 % 256, s3 / 256 % 256, cOn, cOff, hum % 256, hum / 256 % 256, toUInt16n aT % 256, toUInt16n aT / 256 % 256, toUInt16n aA % 256, toUInt16n aA / 256 % 256, g1, g2, g3] : List Nat).length := by rw [hlen34]; omega
  have hget30 := eepromWriteBytes_get e A [n0, n1, n2, n3, n4, n5, toUInt16n sT % 256, toUInt16n sT / 256 % 256, toUInt16n sA % 256, toUInt16n sA / 256 % 256, sm % 256, sm / 256 % 256, sm / 65536 % 256, sm / 16777216 % 256, fan, alw, o1, o2, o3, s2 % 256, s2 / 256 % 256, s3 % 256, s3 / 256 % 256, cOn, cOff, hum % 256, hum / 256 % 256, toUInt16n aT % 256, toUInt16n aT / 256 % 256, toUInt16n aA % 256, toUInt16n aA / 256 % 256, g1, g2, g3] 30 hbnd30
  rw [show ([n0, n1, n2, n3, n4, n5, toUInt16n sT % 256, toUInt16n sT / 256 % 256, toUInt16n sA % 256, toUInt16n sA / 256 % 256, sm % 256, sm / 256 % 256, sm / 65536 % 256, sm / 16777216 % 256, fan, alw, o1, o2, o3, s2 % 256, s2 / 256 % 256, s3 % 256, s3 / 256 % 256, cOn, cOff, hum % 256, hum / 256 % 256, toUInt16n aT % 256, toUInt16n aT / 256 % 256, toUInt16n aA % 256, toUInt16n aA / 256 % 256, g1, g2, g3] : List Nat).get ⟨30, hbnd30⟩ = toUInt16n aA / 256 % 256 from rfl] at hget30
  have hr30 : eepromRead (eepromWriteBytes e A [n0, n1, n2, n3, n4, n5, toUInt16n sT % 256, toUInt16n sT / 256 % 256, toUInt16n sA % 256, toUInt16n sA / 256 % 256, sm % 256, sm / 256 % 256, sm / 65536 % 256, sm / 16777216 % 256, fan, alw, o1, o2, o3, s2 % 256, s2 / 256 % 256, s3 % 256, s3 / 256 % 256, cOn, cOff, hum % 256, hum / 256 % 256, toUInt16n aT % 256, toUInt16n aT / 256 % 256, toUInt16n aA % 256, toUInt16n aA / 256 % 256, g1, g2, g3]) (A + 30) = toUInt16n aA / 256 % 256 := by
    simp only [eepromRead]
    rw [hget30]
    omega
  have hbnd31 : (31 : Nat) < ([n0, n1, n2, n3, n4, n5, toUInt16n sT % 256, toUInt16n sT / 256 % 256, toUInt16n sA % 256, toUInt16n sA / 256 % 256, sm % 256, sm / 256 % 256, sm / 65536 % 256, sm / 16777216 % 256, fan, alw, o1, o2, o3, s2 % 256, s2 / 256 % 256, s3 % 256, s3 / 256 % 256, cOn, cOff, hum % 256, hum / 256 % 256, toUInt16n aT % 256, toUInt16n aT / 256 % 256, toUInt16n aA % 256, toUInt16n aA / 256 % 256, g1, g2, g3] : List Nat).length := by rw [hlen34]; omega
  have hget31 := eepromWriteBytes_get e A [n0, n1, n2, n3, n4, n5, toUInt16n sT % 256, toUInt16n sT / 256 % 256, toUInt16n sA % 256, toUInt16n sA / 256 % 256, sm % 256, sm / 256 % 256, sm / 65536 % 256, sm / 16777216 % 256, fan, alw, o1, o2, o3, s2 % 256, s2 / 256 % 256, s3 % 256, s3 / 256 % 256, cOn, cOff, hum % 256, hum / 256 % 256, toUInt16n aT % 256, toUInt16n aT / 256 % 256, toUInt16n aA % 256, toUInt16n aA / 256 % 256, g1, g2, g3] 31 hbnd31
  rw [show ([n0, n1, n2, n3, n4, n5, toUInt16n sT % 256, toUInt16n sT / 256 % 256, toUInt16n sA % 256, toUInt16n sA / 256 % 256, sm % 256, sm / 256 % 256, sm / 65536 % 256, sm / 16777216 % 256, fan, alw, o1, o2, o3, s2 % 256, s2 / 256 % 256, s3 % 256, s3 / 256 % 256, cOn, cOff, hum % 256, hum / 256 % 256, toUInt16n aT % 256, toUInt16n aT / 256 % 256, toUInt16n aA % 256, toUInt16n aA / 256 % 256, g1, g2, g3] : List Nat).get ⟨31, hbnd31⟩ = g1 from rfl] at hget31
  have hr31 : eepromRead (eepromWriteBytes e A [n0, n1, n2, n3, n4, n5, toUInt16n sT % 256, toUInt16n sT / 256 % 256, toUInt16n sA % 256, toUInt16n sA / 256 % 256, sm % 256, sm / 256 % 256, sm / 65536 % 256, sm / 16777216 % 256, fan, alw, o1, o2, o3, s2 % 256, s2 / 256 % 256, s3 % 256, s3 / 256 % 256, cOn, cOff, hum % 256, hum / 256 % 256, toUInt16n aT % 256, toUInt16n aT / 256 % 256, toUInt16n aA % 256, toUInt16n aA / 256 % 256, g1, g2, g3]) (A + 31) = g1 := by
    simp only [eepromRead]
    rw [hget31]
    omega
  have hbnd32 : (32 : Nat) < ([n0, n1, n2, n3, n4, n5, toUInt16n sT % 256, toUInt16n sT / 256 % 256, toUInt16n sA % 256, toUInt16n sA / 256 % 256, sm % 256, sm / 256 % 256, sm / 65536 % 256, sm / 16777216 % 256, fan, alw, o1, o2, o3, s2 % 256, s2 / 256 % 256, s3 % 256, s3 / 256 % 256, cOn, cOff, hum % 256, hum / 256 % 256, toUInt16n aT % 256, toUInt16n aT / 256 % 256, toUInt16n aA % 256, toUInt16n aA / 256 % 256, g1, g2, g3] : List Nat).length := by rw [hlen34]; omega
  have hget32 := eepromWriteBytes_get e A [n0, n1, n2, n3, n4, n5, toUInt16n sT % 256, toUInt16n sT / 256 % 256, toUInt16n sA % 256, toUInt16n sA / 256 % 256, sm % 256, sm / 256 % 256, sm / 65536 % 256, sm / 16777216 % 256, fan, alw, o1, o2, o3, s2 % 256, s2 / 256 % 256, s3 % 256, s3 / 256 % 256, cOn, cOff, hum % 256, hum / 256 % 256, toUInt16n aT % 256, toUInt16n aT / 256 % 256, toUInt16n aA % 256, toUInt16n aA / 256 % 256, g1, g2, g3] 32 hbnd32
  rw [show ([n0, n1, n2, n3, n4, n5, toUInt16n sT % 256, toUInt16n sT / 256 % 256, toUInt16n sA % 256, toUInt16n sA / 256 % 256, sm % 256, sm / 256 % 256, sm / 65536 % 256, sm / 16777216 % 256, fan, alw, o1, o2, o3, s2 % 256, s2 / 256 % 256, s3 % 256, s3 / 256 % 256, cOn, cOff, hum % 256, hum / 256 % 256, toUInt16n aT % 256, toUInt16n aT / 256 % 256, toUInt16n aA % 256, toUInt16n aA / 256 % 256, g1, g2, g3] : List Nat).get ⟨32, hbnd32⟩ = g2 from rfl] at hget32
  have hr32 : eepromRead (eepromWriteBytes e A [n0, n1, n2, n3, n4, n5, toUInt16n sT % 256, toUInt16n sT / 256 % 256, toUInt16n sA % 256, toUInt16n sA / 256 % 256, sm % 256, sm / 256 % 256, sm / 65536 % 256, sm / 16777216 % 256, fan, alw, o1, o2, o3, s2 % 256, s2 / 256 % 256, s3 % 256, s3 / 256 % 256, cOn, cOff, hum % 256, hum / 256 % 256, toUInt16n aT % 256, toUInt16n aT / 256 % 256, toUInt16n aA % 256, toUInt16n aA / 256 % 256, g1, g2, g3]) (A + 32) = g2 := by
    simp only [eepromRead]
    rw [hget32]
    omega
  have hbnd33 : (33 : Nat) < ([n0, n1, n2, n3, n4, n5, toUInt16n sT % 256, toUInt16n sT / 256 % 256, toUInt16n sA % 256, toUInt16n sA / 256 % 256, sm % 256, sm / 256 % 256, sm / 65536 % 256, sm / 16777216 % 256, fan, alw, o1, o2, o3, s2 % 256, s2 / 256 % 256, s3 % 256, s3 / 256 % 256, cOn, cOff, hum % 256, hum / 256 % 256, toUInt16n aT % 256, toUInt16n aT / 256 % 256, toUInt16n aA % 256, toUInt16n aA / 256 % 256, g1, g2, g3] : List Nat).length := by rw [hlen34]; omega
  have hget33 := eepromWriteBytes_get e A [n0, n1, n2, n3, n4, n5, toUInt16n sT % 256, toUInt16n sT / 256 % 256, toUInt16n sA % 256, toUInt16n sA / 256 % 256, sm % 256, sm / 256 % 256, sm / 65536 % 256, sm / 16777216 % 256, fan, alw, o1, o2, o3, s2 % 256, s2 / 256 % 256, s3 % 256, s3 / 256 % 256, cOn, cOff, hum % 256, hum / 256 % 256, toUInt16n aT % 256, toUInt16n aT / 256 % 256, toUInt16n aA % 256, toUInt16n aA / 256 % 256, g1, g2, g3] 33 hbnd33
  rw [show ([n0, n1, n2, n3, n4, n5, toUInt16n sT % 256, toUInt16n sT / 256 % 256, toUInt16n sA % 256, toUInt16n sA / 256 % 256, sm % 256, sm / 256 % 256, sm / 65536 % 256, sm / 16777216 % 256, fan, alw, o1, o2, o3, s2 % 256, s2 / 256 % 256, s3 % 256, s3 / 256 % 256, cOn, cOff, hum % 256, hum / 256 % 256, toUInt16n aT % 256, toUInt16n aT / 256 % 256, toUInt16n aA % 256, toUInt16n aA / 256 % 256, g1, g2, g3] : List Nat).get ⟨33, hbnd33⟩ = g3 from rfl] at hget33
  have hr33 : eepromRead (eepromWriteBytes e A [n0, n1, n2, n3, n4, n5, toUInt16n sT % 256, toUInt16n sT / 256 % 256, toUInt16n sA % 256, toUInt16n sA / 256 % 256, sm % 256, sm / 256 % 256, sm / 65536 % 256, sm / 16777216 % 256, fan, alw, o1, o2, o3, s2 % 256, s2 / 256 % 256, s3 % 256, s3 / 256 % 256, cOn, cOff, hum % 256, hum / 256 % 256, toUInt16n aT % 256, toUInt16n aT / 256 % 256, toUInt16n aA % 256, toUInt16n aA / 256 % 256, g1, g2, g3]) (A + 33) = g3 := by
    simp only [eepromRead]
    rw [hget33]
    omega
  have hfT : toInt16 (toUInt16n sT % 256 + 256 * (toUInt16n sT / 256 % 256)) = sT := by
    have hu := toUInt16n_lt sT
    rw [show toUInt16n sT % 256 + 256 * (toUInt16n sT / 256 % 256) = toUInt16n sT from by omega]
    exact toInt16_toUInt16n sT hsT1 hsT2
  have hfA : toInt16 (toUInt16n sA % 256 + 256 * (toUInt16n sA / 256 % 256)) = sA := by
    have hu := toUInt16n_lt sA
    rw [show toUInt16n sA % 256 + 256 * (toUInt16n sA / 256 % 256) = toUInt16n sA from by omega]
    exact toInt16_toUInt16n sA hsA1 hsA2
  have hfaT : toInt16 (toUInt16n aT % 256 + 256 * (toUInt16n aT / 256 % 256)) = aT := by
    have hu := toUInt16n_lt aT
    rw [show toUInt16n aT % 256 + 256 * (toUInt16n aT / 256 % 256) = toUInt16n aT from by omega]
    exact toInt16_toUInt16n aT haT1 haT2
  have hfaA : toInt16 (toUInt16n aA % 256 + 256 * (toUInt16n aA / 256 % 256)) = aA := by
    have hu := toUInt16n_lt aA
    rw [show toUInt16n aA % 256 + 256 * (toUInt16n aA / 256 % 256) = toUInt16n aA from by omega]
    exact toInt16_toUInt16n aA haA1 haA2
  have hq32 : sm % 256 + 256 * (sm / 256 % 256) + 65536 * (sm / 65536 % 256) +
      16777216 * (sm / 16777216 % 256) = sm := by omega
  have hq2 : s2 % 256 + 256 * (s2 / 256 % 256) = s2 := by omega
  have hq3 : s3 % 256 + 256 * (s3 / 256 % 256) = s3 := by omega
  have hqh : hum % 256 + 256 * (hum / 256 % 256) = hum := by omega
  unfold autoDecode
  rw [hr0]
  rw [if_pos hb255]
  rw [hr1, hr2, hr3, hr4, hr5, hr6, hr7, hr8, hr9, hr10, hr11, hr12, hr13, hr14, hr15, hr16, hr17, hr18, hr19, hr20, hr21, hr22, hr23, hr24, hr25, hr26, hr27, hr28, hr29, hr30, hr31, hr32, hr33]
  rw [hfT, hfA, hq32, hq2, hq3, hqh, hfaT, hfaA]

theorem C6_commit_reload_witness :
    autoReadSettings 100
      (autoCommitSettings 100 (fun _ => 0) 0 [65, 85, 84, 79, 0, 0]
        ⟨206, 211, 768, 16, 4, 8, 8, 8, 1, 1⟩ ⟨0, 0, 500⟩
        ⟨200, 194, 32, 32, 32⟩) 0 [72, 73, 33, 0, 0, 0] =
    ([65, 85, 84, 79, 0, 0], ⟨206, 211, 768, 16, 4, 8, 8, 8, 1, 1⟩,
      ⟨0, 0, 500⟩, ⟨200, 194, 32, 32, 32⟩) := by
  exact C6_commit_reload 100 (fun _ => 0) 0 [72, 73, 33, 0, 0, 0]
    65 85 84 79 0 0 206 211 768 16 4 8 8 8 1 1 0 0 500 200 194 32 32 32
    (by decide) (by decide) (by decide) (by decide) (by decide) (by decide)

theorem mainCompressorCommand_snd (q : List Char) :
    (mainCompressorCommand q).1 = true ∨ (mainCompressorCommand q).2 = [] := by
  unfold mainCompressorCommand
  dsimp only
  repeat' split
  all_goals simp

theorem mainHsCommand_snd (q0 : List Char) :
    (mainHsCommand q0).1 = true ∨ (mainHsCommand q0).2 = [] := by
  unfold mainHsCommand
  dsimp only
  repeat' split
  all_goals simp

theorem mainSeCommand_snd (q0 : List Char) :
    (mainSeCommand q0).1 = true ∨ (mainSeCommand q0).2 = [] := by
  unfold mainSeCommand
  dsimp only
  repeat' split
  all_goals simp

theorem mainProcessCommand_snd (cmd : List Char) :
    (mainProcessCommand cmd).1 = true ∨ (mainProcessCommand cmd).2 = [] := by
  unfold mainProcessCommand
  repeat' split
  all_goals
    first
    | simp
    | exact mainCompressorCommand_snd _
    | exact mainHsCommand_snd _
    | exact mainSeCommand_snd _

/-- C10 counterexample: the claim fails twice on concrete inputs.  In
MapInputToOutput mode, `HVACMAP=0x3F 1 2` starts writing at the last table
entry and runs past the end: the handler reports not-handled (false) yet
has already overwritten entry 63 (255 to 1) - a state change without a
handled status.  And for a line recognized by no stage (`XYZ`; the radio
stage declining is instantiated as a constant, that library is outside
this repository), the serial path still prints the `ready>` sentinel, so
`ready>` is not a side effect only of successfully handled commands. -/
theorem C10_counterexample :
    (mapHvacmapCommand (List.replicate 64 255)
      (("HVACMAP=0x3F 1 2").toList) true).1 = false
    ∧ (mapHvacmapCommand (List.replicate 64 255)
      (("HVACMAP=0x3F 1 2").toList) true).2.getD 63 0 = 1
    ∧ (List.replicate 64 255 : List Nat).getD 63 0 = 255
    ∧ (serialLineStep (fun _ => false)
        (fun tbl c => mapHvacmapCommand tbl c true) (List.replicate 64 255)
        (("XYZ").toList)).1.1 = false
    ∧ (serialLineStep (fun _ => false)
        (fun tbl c => mapHvacmapCommand tbl c true) (List.replicate 64 255)
        (("XYZ").toList)).2 =
      [("Command: XYZ").toList, ("ready>").toList] := by
  refine ⟨rfl, rfl, rfl, rfl, rfl⟩

/-- C10 (amended): a command line declined by the radio stage, the sketch
stage and the active mode's stage is a state-level silent no-op: the
sketch stage performs no effects when it reports not-handled, and
`routeCommand` leaves the mode state unchanged, performs no effects and
emits only the (VERBOSE) command echo; the serial line handler then still
prints `ready>` - the sentinel follows every serial line, handled or not.
(The original claim's exceptions are the recognized-but-malformed
commands, such as an `HVACMAP` write running past the table end, which
mutate state before reporting not-handled.) -/
theorem C10_silent_noop_amended {σ : Type} (radioApply : List Char → Bool)
    (hvacStage : σ → List Char → Bool × σ) (st : σ) (cmd : List Char)
    (toMe : Bool)
    (hradio : radioApply cmd = false)
    (hmain : (mainProcessCommand cmd).1 = false)
    (hhvac : hvacStage st cmd = (false, st)) :
    (mainProcessCommand cmd).2 = []
    ∧ routeCommand radioApply hvacStage st cmd toMe =
        (false, st, [], [("Command: ").toList ++ cmd])
    ∧ serialLineStep radioApply hvacStage st cmd =
        ((false, st, []), [("Command: ").toList ++ cmd, ("ready>").toList]) := by
  have heff : (mainProcessCommand cmd).2 = [] := by
    rcases mainProcessCommand_snd cmd with h1 | h2
    · rw [hmain] at h1
      exact absurd h1 (by simp)
    · exact h2
  have hroute : routeCommand radioApply hvacStage st cmd toMe =
      (false, st, [], [("Command: ").toList ++ cmd]) := by
    simp [routeCommand, hradio, hmain, hhvac]
  refine ⟨heff, hroute, ?_⟩
  have hroute2 : routeCommand radioApply hvacStage st cmd true =
      (false, st, [], [("Command: ").toList ++ cmd]) := by
    simp [routeCommand, hradio, hmain, hhvac]
  simp [serialLineStep, hroute2]

theorem C10_silent_noop_amended_witness :
    (mainProcessCommand (("QQQ").toList)).2 = []
    ∧ routeCommand (fun _ => false)
        (fun tbl c => mapHvacmapCommand tbl c true) (List.replicate 64 255)
        (("QQQ").toList) true =
        (false, List.replicate 64 255, [], [("Command: ").toList ++ ("QQQ").toList])
    ∧ serialLineStep (fun _ => false)
        (fun tbl c => mapHvacmapCommand tbl c true) (List.replicate 64 255)
        (("QQQ").toList) =
        ((false, List.replicate 64 255, []),
          [("Command: ").toList ++ ("QQQ").toList, ("ready>").toList]) := by
  exact C10_silent_noop_amended (fun _ => false)
    (fun tbl c => mapHvacmapCommand tbl c true) (List.replicate 64 255)
    (("QQQ").toList) true rfl (by decide) (by decide)

end PacketThermostat


